import Mathlib

/-!
# DX8Wrapper render-state record and apply engine

A shallow embedding of the layout-binding entry points and of
`DX8Wrapper::Apply_Render_State_Changes` from
`GeneralsMD/Code/Libraries/Source/WWVegas/WW3D2/dx8wrapper.cpp`.

Conventions of the embedding:

* pointers and COM handles are natural numbers, `0` being `nullptr`;
  engine buffer objects are `Option` values carrying the metadata the code reads;
* the static members of `DX8Wrapper` are the fields of one state record that
  every operation takes and returns;
* every call that reaches the device is appended to the field `calls`, and the
  device registers the code can read back are carried in `D3DDevice`;
* `Apply_Render_State_Changes` asserts that the device exists and calls through its
  pointer; on an absent device the embedding still records the calls and has no
  registers to update, and every statement about registers assumes a device;
* constants and helpers declared outside the source at hand (the dirty bits, the
  stream and texture-stage counts, `FVFInfoClass::Get_FVF_Size`) are parameters,
  gathered in `Config`;
* reference counting, logging and the statistics counters are left out;
  debug-only read-back checks issue no state-changing call and are left out too.
-/

namespace DX8

/-! ## Data model -/

/-- Buffer type tags (`vertex_buffer_types[]`, `index_buffer_type`). -/
inductive BufferType
  | BUFFER_TYPE_DX8
  | BUFFER_TYPE_SORTING
  | BUFFER_TYPE_DYNAMIC_DX8
  | BUFFER_TYPE_DYNAMIC_SORTING
  | BUFFER_TYPE_INVALID
  deriving DecidableEq, Repr

/-- What the code reads from a `VertexBufferClass` object: its `Type()`, the FVF and
the vertex size held by its `FVF_Info()`, its vertex count and, for an engine-owned
buffer, the Direct3D buffer `Get_DX8_Vertex_Buffer()`. -/
structure VertexBufferClass where
  type : BufferType
  FVF : Nat
  FVF_Size : Nat
  VertexCount : Nat
  d3d_vb : Nat
  deriving DecidableEq, Repr

/-- What the code reads from an `IndexBufferClass` object: its `Type()` and the
Direct3D buffer `Get_DX8_Index_Buffer()`. -/
structure IndexBufferClass where
  type : BufferType
  d3d_ib : Nat
  deriving DecidableEq, Repr

/-- The two transform slots `Apply_Render_State_Changes` pushes. -/
inductive TransformState
  | D3DTS_WORLD
  | D3DTS_VIEW
  deriving DecidableEq, Repr

/-- A call that reaches the device. The first five constructors are the
`IDirect3DDevice9` methods the code in this file calls itself. The others are
invocations of helpers whose bodies are outside this file (`ShaderClass::Apply`,
`TextureBaseClass::Apply` and `Apply_Null`, `VertexMaterialClass::Apply` and
`Apply_Null`, `Set_DX8_Light`, `_Set_DX8_Transform`, `Set_Vertex_Shader`): each
stands for the device calls that helper issues, in the place where it is invoked. -/
inductive DeviceCall
  | SetVertexShader (vs : Nat)
  | SetVertexDeclaration (decl : Nat)
  | SetFVF (fvf : Nat)
  | SetStreamSource (stream : Nat) (vb : Nat) (offset : Nat) (stride : Nat)
  | SetIndices (ib : Nat)
  | ShaderApply (shader : Nat)
  | TextureApply (stage : Nat) (texture : Nat)
  | TextureApplyNull (stage : Nat)
  | MaterialApply (material : Nat)
  | MaterialApplyNull
  | Set_DX8_Light (index : Nat) (light : Option Nat)
  | Set_DX8_Transform (ts : TransformState) (m : Nat)
  | Set_Vertex_Shader (fvf : Nat)
  deriving DecidableEq, Repr

/-- One stream slot of the device: buffer, byte offset, stride. -/
structure StreamBinding where
  vb : Nat
  offset : Nat
  stride : Nat
  deriving DecidableEq, Repr

/-- The registers of the Direct3D device that the embedded code sets or reads back. The
device is external to the repository; as in the spec and in the comments of
`BindLayoutDecl`, its legacy-format register and its structured-layout register are
two separate registers, which can both be non-zero at once. -/
structure Device where
  fvf : Nat
  decl : Nat
  vertexShader : Nat
  streams : Nat → StreamBinding
  indices : Nat

/-- Effect of one call on the device registers. `Set_Vertex_Shader (fvf)`, which the
apply pass calls in the place of a direct `SetFVF (fvf)`, sets the legacy format; the
helper calls that set state not carried here leave the registers alone. -/
def Device.exec (d : Device) : DeviceCall → Device
  | .SetVertexShader vs => { d with vertexShader := vs }
  | .SetVertexDeclaration decl => { d with decl := decl }
  | .SetFVF fvf => { d with fvf := fvf }
  | .SetStreamSource s vb off stride =>
      { d with streams := fun i => if i = s then ⟨vb, off, stride⟩ else d.streams i }
  | .SetIndices ib => { d with indices := ib }
  | .Set_Vertex_Shader fvf => { d with fvf := fvf }
  | _ => d

/-- The fields of `RenderStateStruct` that the embedded code reads or writes. Arrays
are functions of the index; shader, material, light and matrix values are opaque. -/
structure RenderStateStruct where
  shader : Nat
  Textures : Nat → Nat
  material : Nat
  Lights : Nat → Nat
  LightEnable : Nat → Bool
  world : Nat
  view : Nat
  vertex_buffers : Nat → Option VertexBufferClass
  vertex_buffer_types : Nat → BufferType
  index_buffer : Option IndexBufferClass
  index_buffer_type : BufferType
  vba_offset : Nat
  vba_count : Nat
  vba_fvf : Nat
  vba_d3d_vb : Nat
  iba_offset : Nat
  index_base_offset : Nat
  currentDecl : Nat
  currentFVF : Nat
  layoutOwner : Option String
  expectedFVF : Nat
  expectedDecl : Nat

/-- The static state of `DX8Wrapper` that the embedded code uses, with the trace of
calls issued so far. `D3DDevice` is `none` when `_Get_D3D_Device8()` is null. -/
structure DX8Wrapper where
  D3DDevice : Option Device
  render_state : RenderStateStruct
  render_state_changed : Nat
  calls : List DeviceCall

/-- The constants the embedded code takes from declarations outside the source at
hand: the `ChangedStates` dirty bits, `MAX_VERTEX_STREAMS`, the texture-stage count
`CurrentCaps->Get_Max_Textures_Per_Pass()` and the vertex size of a legacy format,
`FVFInfoClass(fvf).Get_FVF_Size()`. -/
structure Config where
  WORLD_CHANGED : Nat
  VIEW_CHANGED : Nat
  LIGHT0_CHANGED : Nat
  LIGHTS_CHANGED : Nat
  TEXTURE0_CHANGED : Nat
  MATERIAL_CHANGED : Nat
  SHADER_CHANGED : Nat
  VERTEX_BUFFER_CHANGED : Nat
  INDEX_BUFFER_CHANGED : Nat
  WORLD_IDENTITY : Nat
  VIEW_IDENTITY : Nat
  MAX_VERTEX_STREAMS : Nat
  Max_Textures_Per_Pass : Nat
  Get_FVF_Size : Nat → Nat

/-- Issue one call on the device: `DX8CALL(x)`, a direct `pDev->x`, or a helper
invocation. The call is recorded and the device registers follow it. -/
def DX8CALL (c : DeviceCall) (w : DX8Wrapper) : DX8Wrapper :=
  { w with D3DDevice := w.D3DDevice.map (fun d => d.exec c), calls := w.calls ++ [c] }

/-! ## Layout binding entry points -/

/-- Embedding of `DX8Wrapper::Set_Vertex_Declaration (decl)`; `hr` tells whether the
device's `SetVertexDeclaration` succeeded. A failed call changes no register and is
not recorded in the trace. -/
def Set_Vertex_Declaration (cfg : Config) (decl : Nat) (hr : Bool) (w : DX8Wrapper) :
    DX8Wrapper :=
  match w.D3DDevice with
  | none => w
  | some pDev =>
    -- when binding a non-null decl, clear FVF residue first
    let w1 := if decl ≠ 0 ∧ pDev.fvf ≠ 0 then DX8CALL (.SetFVF 0) w else w
    if hr = false then w1
    else
      let w2 := DX8CALL (.SetVertexDeclaration decl) w1
      { w2 with
        render_state := { w2.render_state with
          currentDecl := decl, currentFVF := 0, expectedFVF := 0, expectedDecl := decl }
        render_state_changed := w2.render_state_changed ||| cfg.VERTEX_BUFFER_CHANGED }

/-- Embedding of `DX8Wrapper::BindLayoutFVF (fvf, owner)`. The first test returns on
`fvf == 0`, so the later `fvf == 0` block, kept here as written, is never reached. -/
def BindLayoutFVF (cfg : Config) (fvf : Nat) (owner : Option String) (w : DX8Wrapper) :
    DX8Wrapper :=
  if fvf = 0 then w
  else
    match w.D3DDevice with
    | none => w
    | some _ =>
      if fvf = 0 then
        let w1 := DX8CALL (.SetFVF 0)
          (DX8CALL (.SetVertexDeclaration 0) (DX8CALL (.SetVertexShader 0) w))
        { w1 with
          render_state := { w1.render_state with
            currentFVF := 0, currentDecl := 0,
            layoutOwner := some (owner.getD "BindLayoutFVF(clear)") }
          render_state_changed := w1.render_state_changed ||| cfg.VERTEX_BUFFER_CHANGED }
      else
        let w1 := DX8CALL (.SetFVF fvf)
          (DX8CALL (.SetVertexDeclaration 0) (DX8CALL (.SetVertexShader 0) w))
        -- the line `render_state_changed |= VERTEX_BUFFER_CHANGED` is commented out
        { w1 with
          render_state := { w1.render_state with
            currentFVF := fvf, currentDecl := 0, layoutOwner := owner } }

/-- Embedding of `DX8Wrapper::BindLayoutDecl (decl, owner)`; `hr` tells whether the
device's `SetVertexDeclaration` succeeded. A failed call changes no register and is
not recorded in the trace. -/
def BindLayoutDecl (decl : Nat) (owner : Option String) (hr : Bool) (w : DX8Wrapper) :
    DX8Wrapper :=
  if w.render_state.currentDecl = decl ∧ w.render_state.currentFVF = 0 then w
  else
    match w.D3DDevice with
    | none => w
    | some _ =>
      if hr = false then w
      else
        let w1 := DX8CALL (.SetVertexDeclaration decl) w
        { w1 with
          render_state := { w1.render_state with
            currentDecl := decl, currentFVF := 0, layoutOwner := owner } }

/-! ## Deferred setters -/

/-- Embedding of `DX8Wrapper::Set_Vertex_Buffer (vb, stream)`. -/
def Set_Vertex_Buffer (cfg : Config) (vb : Option VertexBufferClass) (stream : Nat)
    (w : DX8Wrapper) : DX8Wrapper :=
  let rs := w.render_state
  { w with
    render_state := { rs with
      vba_offset := 0
      vba_count := 0
      vertex_buffers := fun i => if i = stream then vb else rs.vertex_buffers i
      vertex_buffer_types := fun i =>
        if i = stream then
          (match vb with
           | some b => b.type
           | none => BufferType.BUFFER_TYPE_INVALID)
        else rs.vertex_buffer_types i }
    render_state_changed := w.render_state_changed ||| cfg.VERTEX_BUFFER_CHANGED }

/-- Embedding of `DX8Wrapper::Set_Index_Buffer (ib, index_base_offset)`, which forwards
to the overload taking a caller tag. -/
def Set_Index_Buffer (cfg : Config) (ib : Option IndexBufferClass) (index_base_offset : Nat)
    (w : DX8Wrapper) : DX8Wrapper :=
  let rs := w.render_state
  { w with
    render_state := { rs with
      iba_offset := 0
      index_buffer := ib
      index_base_offset := index_base_offset
      index_buffer_type :=
        (match ib with
         | some b => b.type
         | none => BufferType.BUFFER_TYPE_INVALID) }
    render_state_changed := w.render_state_changed ||| cfg.INDEX_BUFFER_CHANGED }

/-- Embedding of `DX8Wrapper::Set_Light (index, light)` for a `D3DLIGHT9` pointer. -/
def Set_Light (cfg : Config) (index : Nat) (light : Option Nat) (w : DX8Wrapper) :
    DX8Wrapper :=
  let rs := w.render_state
  { w with
    render_state :=
      (match light with
       | some l => { rs with
           Lights := fun i => if i = index then l else rs.Lights i
           LightEnable := fun i => if i = index then true else rs.LightEnable i }
       | none => { rs with
           LightEnable := fun i => if i = index then false else rs.LightEnable i })
    render_state_changed :=
      w.render_state_changed ||| ((cfg.LIGHT0_CHANGED <<< index) % 2 ^ 32) }

/-- What the code reads from a `DynamicVBAccessClass` object: `Get_Type()`, the FVF
of its `FVF_Info()`, `VertexBufferOffset`, `Get_Vertex_Count()`, the engine buffer
`VertexBuffer` and the Direct3D buffer `Get_D3D_VB()`, which may be null. -/
structure DynamicVBAccessClass where
  type : BufferType
  FVF : Nat
  VertexBufferOffset : Nat
  VertexCount : Nat
  VertexBuffer : VertexBufferClass
  D3D_VB : Nat
  deriving DecidableEq, Repr

/-- The loop `for (i = 1; i < MAX_VERTEX_STREAMS; ++i) Set_Vertex_Buffer (NULL, i)`,
entered at stream `i` with `n` streams left. -/
def releaseStreams (cfg : Config) : Nat → Nat → DX8Wrapper → DX8Wrapper
  | 0, _, w => w
  | n + 1, i, w => releaseStreams cfg n (i + 1) (Set_Vertex_Buffer cfg none i w)

/-- Embedding of `DX8Wrapper::Set_Vertex_Buffer (const DynamicVBAccessClass&)`. -/
def Set_Vertex_Buffer_Dynamic (cfg : Config) (vba : DynamicVBAccessClass) (w : DX8Wrapper) :
    DX8Wrapper :=
  let w1 := releaseStreams cfg (cfg.MAX_VERTEX_STREAMS - 1) 1 w
  let rs := w1.render_state
  { w1 with
    render_state := { rs with
      vertex_buffer_types := fun i => if i = 0 then vba.type else rs.vertex_buffer_types i
      vba_offset := vba.VertexBufferOffset
      vba_count := vba.VertexCount
      vba_fvf := vba.FVF
      vba_d3d_vb := if vba.type = BufferType.BUFFER_TYPE_DYNAMIC_DX8 then vba.D3D_VB else 0
      expectedFVF := vba.FVF
      expectedDecl := 0
      vertex_buffers := fun i => if i = 0 then some vba.VertexBuffer else rs.vertex_buffers i }
    render_state_changed :=
      w1.render_state_changed ||| cfg.VERTEX_BUFFER_CHANGED ||| cfg.INDEX_BUFFER_CHANGED }

/-! ## The apply engine -/

/-- Shader section of `Apply_Render_State_Changes`. -/
def applyShader (cfg : Config) (w : DX8Wrapper) : DX8Wrapper :=
  if w.render_state_changed &&& cfg.SHADER_CHANGED ≠ 0 then
    DX8CALL (.ShaderApply w.render_state.shader) w
  else w

/-- Body of the texture loop for stage `i` with the running bit `mask`. -/
def applyTexture (i mask : Nat) (w : DX8Wrapper) : DX8Wrapper :=
  if w.render_state_changed &&& mask ≠ 0 then
    if w.render_state.Textures i ≠ 0 then
      DX8CALL (.TextureApply i (w.render_state.Textures i)) w
    else DX8CALL (.TextureApplyNull i) w
  else w

/-- The texture loop `for (i = 0; i < Max; ++i, mask <<= 1)`, entered at stage `i` with
`n` stages left; `mask` is a 32-bit `unsigned`. -/
def applyTextures : Nat → Nat → Nat → DX8Wrapper → DX8Wrapper
  | 0, _, _, w => w
  | n + 1, i, mask, w =>
      applyTextures n (i + 1) ((mask <<< 1) % 2 ^ 32) (applyTexture i mask w)

/-- Material section. -/
def applyMaterial (cfg : Config) (w : DX8Wrapper) : DX8Wrapper :=
  if w.render_state_changed &&& cfg.MATERIAL_CHANGED ≠ 0 then
    if w.render_state.material ≠ 0 then DX8CALL (.MaterialApply w.render_state.material) w
    else DX8CALL .MaterialApplyNull w
  else w

/-- Body of the light loop for light `index` with the running bit `lmask`. -/
def applyLight (index lmask : Nat) (w : DX8Wrapper) : DX8Wrapper :=
  if w.render_state_changed &&& lmask ≠ 0 then
    if w.render_state.LightEnable index = true then
      DX8CALL (.Set_DX8_Light index (some (w.render_state.Lights index))) w
    else DX8CALL (.Set_DX8_Light index none) w
  else w

/-- The light loop `for (index = 0; index < 4; ++index, lmask <<= 1)`, entered at
`index` with `n` lights left. -/
def applyLightLoop : Nat → Nat → Nat → DX8Wrapper → DX8Wrapper
  | 0, _, _, w => w
  | n + 1, index, lmask, w =>
      applyLightLoop n (index + 1) ((lmask <<< 1) % 2 ^ 32) (applyLight index lmask w)

/-- Lights section: entered only when some bit of `LIGHTS_CHANGED` is set. -/
def applyLights (cfg : Config) (w : DX8Wrapper) : DX8Wrapper :=
  if w.render_state_changed &&& cfg.LIGHTS_CHANGED ≠ 0 then
    applyLightLoop 4 0 cfg.LIGHT0_CHANGED w
  else w

/-- World and view transform sections. -/
def applyTransforms (cfg : Config) (w : DX8Wrapper) : DX8Wrapper :=
  let w1 :=
    if w.render_state_changed &&& cfg.WORLD_CHANGED ≠ 0 then
      DX8CALL (.Set_DX8_Transform .D3DTS_WORLD w.render_state.world) w
    else w
  if w1.render_state_changed &&& cfg.VIEW_CHANGED ≠ 0 then
    DX8CALL (.Set_DX8_Transform .D3DTS_VIEW w1.render_state.view) w1
  else w1

/-- The legacy format the fixed-function path settles on: the tracked `currentFVF`,
else the FVF of an engine-owned stream-0 buffer, else the dynamic-buffer FVF. -/
def resolveFVF (rs : RenderStateStruct) : Nat :=
  let fvf := rs.currentFVF
  let fvf :=
    if fvf = 0 then
      (match rs.vertex_buffers 0 with
       | some vb0 =>
           if rs.vertex_buffer_types 0 = BufferType.BUFFER_TYPE_DX8 then vb0.FVF else fvf
       | none => fvf)
    else fvf
  if fvf = 0 then
    if (rs.vertex_buffer_types 0 = BufferType.BUFFER_TYPE_DYNAMIC_DX8 ∨
        rs.vertex_buffer_types 0 = BufferType.BUFFER_TYPE_DYNAMIC_SORTING) ∧
        rs.vba_fvf ≠ 0 then rs.vba_fvf
    else fvf
  else fvf

/-- Layout decision of the vertex-buffer section, taken once before the streams are
bound. -/
def applyLayout (w : DX8Wrapper) : DX8Wrapper :=
  if w.render_state.currentDecl ≠ 0 then
    DX8CALL (.SetFVF 0) (DX8CALL (.SetVertexDeclaration w.render_state.currentDecl) w)
  else
    let w1 := DX8CALL (.SetVertexDeclaration 0) w
    let w2 := { w1 with render_state := { w1.render_state with currentDecl := 0 } }
    let fvf := resolveFVF w2.render_state
    if fvf ≠ 0 then DX8CALL (.Set_Vertex_Shader fvf) w2 else w2

/-- Body of the stream loop for stream `s`. The strides are `unsigned` values already;
the byte offset is a product of 32-bit `UINT`s. -/
def bindStream (cfg : Config) (s : Nat) (w : DX8Wrapper) : DX8Wrapper :=
  match w.render_state.vertex_buffers s with
  | none => DX8CALL (.SetStreamSource s 0 0 0) w
  | some vb =>
    match w.render_state.vertex_buffer_types s with
    | .BUFFER_TYPE_DX8 =>
        DX8CALL (.SetStreamSource s vb.d3d_vb 0 vb.FVF_Size) w
    | .BUFFER_TYPE_DYNAMIC_DX8 =>
        if w.render_state.vba_fvf ≠ 0 ∧ w.render_state.vba_d3d_vb ≠ 0 then
          let expectedStride := cfg.Get_FVF_Size w.render_state.vba_fvf
          let offsetInBytes := (w.render_state.vba_offset * expectedStride) % 2 ^ 32
          DX8CALL (.SetStreamSource s w.render_state.vba_d3d_vb offsetInBytes expectedStride) w
        else w
    | _ => w

/-- The stream loop `for (s = 0; s < MAX_VERTEX_STREAMS; ++s)`, entered at stream `s`
with `n` streams left. -/
def bindStreams (cfg : Config) : Nat → Nat → DX8Wrapper → DX8Wrapper
  | 0, _, w => w
  | n + 1, s, w => bindStreams cfg n (s + 1) (bindStream cfg s w)

/-- Vertex-buffer section: layout decision, then the streams. -/
def applyVertexBuffers (cfg : Config) (w : DX8Wrapper) : DX8Wrapper :=
  if w.render_state_changed &&& cfg.VERTEX_BUFFER_CHANGED ≠ 0 then
    bindStreams cfg cfg.MAX_VERTEX_STREAMS 0 (applyLayout w)
  else w

/-- Index-buffer section. -/
def applyIndexBuffer (cfg : Config) (w : DX8Wrapper) : DX8Wrapper :=
  if w.render_state_changed &&& cfg.INDEX_BUFFER_CHANGED ≠ 0 then
    match w.render_state.index_buffer with
    | some ib =>
        if w.render_state.index_buffer_type = BufferType.BUFFER_TYPE_DX8 ∨
            w.render_state.index_buffer_type = BufferType.BUFFER_TYPE_DYNAMIC_DX8 then
          DX8CALL (.SetIndices ib.d3d_ib) w
        else DX8CALL (.SetIndices 0) w
    | none => DX8CALL (.SetIndices 0) w
  else w

/-- The sections of `Apply_Render_State_Changes` in source order, before the final
clearing of the mask. -/
def applySections (cfg : Config) (w : DX8Wrapper) : DX8Wrapper :=
  applyIndexBuffer cfg
    (applyVertexBuffers cfg
      (applyTransforms cfg
        (applyLights cfg
          (applyMaterial cfg
            (applyTextures cfg.Max_Textures_Per_Pass 0 cfg.TEXTURE0_CHANGED
              (applyShader cfg w))))))

/-- Embedding of `DX8Wrapper::Apply_Render_State_Changes ()`. -/
def Apply_Render_State_Changes (cfg : Config) (w : DX8Wrapper) : DX8Wrapper :=
  if w.render_state_changed = 0 then w
  else
    let w1 := applySections cfg w
    { w1 with
      render_state_changed :=
        w1.render_state_changed &&& (cfg.WORLD_IDENTITY ||| cfg.VIEW_IDENTITY) }

/-! ## The calls of one apply pass, as a list

The functions below compute, from the record and the mask alone, the calls each
section of `Apply_Render_State_Changes` issues. They are proved equal to what the
sections above do, and serve to reason about the trace. -/

/-- Issue a list of calls, first call first. -/
def emitAll (L : List DeviceCall) (w : DX8Wrapper) : DX8Wrapper :=
  L.foldl (fun acc c => DX8CALL c acc) w

/-- Calls of the shader section. -/
def shaderCalls (cfg : Config) (rs : RenderStateStruct) (m : Nat) : List DeviceCall :=
  if m &&& cfg.SHADER_CHANGED ≠ 0 then [.ShaderApply rs.shader] else []

/-- Calls of one texture-loop iteration. -/
def textureCall (rs : RenderStateStruct) (m i mask : Nat) : List DeviceCall :=
  if m &&& mask ≠ 0 then
    if rs.Textures i ≠ 0 then [.TextureApply i (rs.Textures i)] else [.TextureApplyNull i]
  else []

/-- Calls of the texture loop entered at stage `i` with `n` stages left. -/
def textureCalls (rs : RenderStateStruct) (m : Nat) : Nat → Nat → Nat → List DeviceCall
  | 0, _, _ => []
  | n + 1, i, mask =>
      textureCall rs m i mask ++ textureCalls rs m n (i + 1) ((mask <<< 1) % 2 ^ 32)

/-- Calls of the material section. -/
def materialCalls (cfg : Config) (rs : RenderStateStruct) (m : Nat) : List DeviceCall :=
  if m &&& cfg.MATERIAL_CHANGED ≠ 0 then
    if rs.material ≠ 0 then [.MaterialApply rs.material] else [.MaterialApplyNull]
  else []

/-- Calls of one light-loop iteration. -/
def lightCall (rs : RenderStateStruct) (m index lmask : Nat) : List DeviceCall :=
  if m &&& lmask ≠ 0 then
    if rs.LightEnable index = true then [.Set_DX8_Light index (some (rs.Lights index))]
    else [.Set_DX8_Light index none]
  else []

/-- Calls of the light loop entered at `index` with `n` lights left. -/
def lightLoopCalls (rs : RenderStateStruct) (m : Nat) : Nat → Nat → Nat → List DeviceCall
  | 0, _, _ => []
  | n + 1, index, lmask =>
      lightCall rs m index lmask ++ lightLoopCalls rs m n (index + 1) ((lmask <<< 1) % 2 ^ 32)

/-- Calls of the lights section. -/
def lightCalls (cfg : Config) (rs : RenderStateStruct) (m : Nat) : List DeviceCall :=
  if m &&& cfg.LIGHTS_CHANGED ≠ 0 then lightLoopCalls rs m 4 0 cfg.LIGHT0_CHANGED else []

/-- Calls of the world and view sections. -/
def transformCalls (cfg : Config) (rs : RenderStateStruct) (m : Nat) : List DeviceCall :=
  (if m &&& cfg.WORLD_CHANGED ≠ 0 then [.Set_DX8_Transform .D3DTS_WORLD rs.world] else []) ++
  (if m &&& cfg.VIEW_CHANGED ≠ 0 then [.Set_DX8_Transform .D3DTS_VIEW rs.view] else [])

/-- Calls of the layout decision. -/
def layoutCalls (rs : RenderStateStruct) : List DeviceCall :=
  if rs.currentDecl ≠ 0 then [.SetVertexDeclaration rs.currentDecl, .SetFVF 0]
  else
    .SetVertexDeclaration 0 ::
      (if resolveFVF rs ≠ 0 then [.Set_Vertex_Shader (resolveFVF rs)] else [])

/-- Calls of one stream-loop iteration. -/
def streamCall (cfg : Config) (rs : RenderStateStruct) (s : Nat) : List DeviceCall :=
  match rs.vertex_buffers s with
  | none => [.SetStreamSource s 0 0 0]
  | some vb =>
    match rs.vertex_buffer_types s with
    | .BUFFER_TYPE_DX8 => [.SetStreamSource s vb.d3d_vb 0 vb.FVF_Size]
    | .BUFFER_TYPE_DYNAMIC_DX8 =>
        if rs.vba_fvf ≠ 0 ∧ rs.vba_d3d_vb ≠ 0 then
          [.SetStreamSource s rs.vba_d3d_vb
            ((rs.vba_offset * cfg.Get_FVF_Size rs.vba_fvf) % 2 ^ 32)
            (cfg.Get_FVF_Size rs.vba_fvf)]
        else []
    | _ => []

/-- Calls of the stream loop entered at stream `s` with `n` streams left. -/
def streamCalls (cfg : Config) (rs : RenderStateStruct) : Nat → Nat → List DeviceCall
  | 0, _ => []
  | n + 1, s => streamCall cfg rs s ++ streamCalls cfg rs n (s + 1)

/-- Calls of the vertex-buffer section. -/
def vertexBufferCalls (cfg : Config) (rs : RenderStateStruct) (m : Nat) : List DeviceCall :=
  if m &&& cfg.VERTEX_BUFFER_CHANGED ≠ 0 then
    layoutCalls rs ++ streamCalls cfg rs cfg.MAX_VERTEX_STREAMS 0
  else []

/-- Calls of the index-buffer section. -/
def indexBufferCalls (cfg : Config) (rs : RenderStateStruct) (m : Nat) : List DeviceCall :=
  if m &&& cfg.INDEX_BUFFER_CHANGED ≠ 0 then
    match rs.index_buffer with
    | some ib =>
        if rs.index_buffer_type = BufferType.BUFFER_TYPE_DX8 ∨
            rs.index_buffer_type = BufferType.BUFFER_TYPE_DYNAMIC_DX8 then
          [.SetIndices ib.d3d_ib]
        else [.SetIndices 0]
    | none => [.SetIndices 0]
  else []

/-- All calls of the sections, in source order. -/
def sectionCalls (cfg : Config) (rs : RenderStateStruct) (m : Nat) : List DeviceCall :=
  shaderCalls cfg rs m ++ textureCalls rs m cfg.Max_Textures_Per_Pass 0 cfg.TEXTURE0_CHANGED ++
    materialCalls cfg rs m ++ lightCalls cfg rs m ++ transformCalls cfg rs m ++
    vertexBufferCalls cfg rs m ++ indexBufferCalls cfg rs m

/-- The calls one `Apply_Render_State_Changes` issues from a given state. -/
def applyCalls (cfg : Config) (w : DX8Wrapper) : List DeviceCall :=
  if w.render_state_changed = 0 then []
  else sectionCalls cfg w.render_state w.render_state_changed

/-! ## Vocabulary for statements about the trace -/

/-- The calls issued between two states of the wrapper. -/
def issued (before after : DX8Wrapper) : List DeviceCall :=
  after.calls.drop before.calls.length

/-- The bit a loop tests at its `k`-th iteration when it starts from bit `b` and
shifts its 32-bit `unsigned` mask left by one after every iteration. -/
def loopBit (b : Nat) : Nat → Nat
  | 0 => b
  | k + 1 => loopBit ((b <<< 1) % 2 ^ 32) k

/-- Category of a call, numbered in the order of the sections: 0 shader, 1 textures,
2 material, 3 lights, 4 world transform, 5 view transform, 6 vertex layout, 7 stream
bindings, 8 index buffer. -/
def DeviceCall.category : DeviceCall → Nat
  | .ShaderApply _ => 0
  | .TextureApply _ _ => 1
  | .TextureApplyNull _ => 1
  | .MaterialApply _ => 2
  | .MaterialApplyNull => 2
  | .Set_DX8_Light _ _ => 3
  | .Set_DX8_Transform .D3DTS_WORLD _ => 4
  | .Set_DX8_Transform .D3DTS_VIEW _ => 5
  | .SetVertexShader _ => 6
  | .SetVertexDeclaration _ => 6
  | .SetFVF _ => 6
  | .Set_Vertex_Shader _ => 6
  | .SetStreamSource _ _ _ _ => 7
  | .SetIndices _ => 8

/-- Position of a call inside its category: the texture stage, the light index, the
stream index; among the layout calls the declaration comes first and the legacy format
second; 0 elsewhere. -/
def DeviceCall.index : DeviceCall → Nat
  | .TextureApply stage _ => stage
  | .TextureApplyNull stage => stage
  | .Set_DX8_Light i _ => i
  | .SetStreamSource stream _ _ _ => stream
  | .SetFVF _ => 1
  | .Set_Vertex_Shader _ => 1
  | _ => 0

/-- Call `a` comes strictly before call `b` in the order of an apply pass: an earlier
category, or the same category and a smaller index. -/
def DeviceCall.before (a b : DeviceCall) : Prop :=
  a.category < b.category ∨ (a.category = b.category ∧ a.index < b.index)

/-- The dirty bit that gates a call is set in mask `m`: the category bit, for a
texture stage the bit of that stage, for a light both `LIGHTS_CHANGED` and the bit of
that light. Indices are within the loop bounds. -/
def DeviceCall.gated (cfg : Config) (m : Nat) : DeviceCall → Prop
  | .ShaderApply _ => m &&& cfg.SHADER_CHANGED ≠ 0
  | .TextureApply stage _ =>
      stage < cfg.Max_Textures_Per_Pass ∧ m &&& loopBit cfg.TEXTURE0_CHANGED stage ≠ 0
  | .TextureApplyNull stage =>
      stage < cfg.Max_Textures_Per_Pass ∧ m &&& loopBit cfg.TEXTURE0_CHANGED stage ≠ 0
  | .MaterialApply _ => m &&& cfg.MATERIAL_CHANGED ≠ 0
  | .MaterialApplyNull => m &&& cfg.MATERIAL_CHANGED ≠ 0
  | .Set_DX8_Light i _ =>
      i < 4 ∧ m &&& cfg.LIGHTS_CHANGED ≠ 0 ∧ m &&& loopBit cfg.LIGHT0_CHANGED i ≠ 0
  | .Set_DX8_Transform .D3DTS_WORLD _ => m &&& cfg.WORLD_CHANGED ≠ 0
  | .Set_DX8_Transform .D3DTS_VIEW _ => m &&& cfg.VIEW_CHANGED ≠ 0
  | .SetVertexShader _ => False
  | .SetVertexDeclaration _ => m &&& cfg.VERTEX_BUFFER_CHANGED ≠ 0
  | .SetFVF _ => m &&& cfg.VERTEX_BUFFER_CHANGED ≠ 0
  | .Set_Vertex_Shader _ => m &&& cfg.VERTEX_BUFFER_CHANGED ≠ 0
  | .SetStreamSource stream _ _ _ =>
      stream < cfg.MAX_VERTEX_STREAMS ∧ m &&& cfg.VERTEX_BUFFER_CHANGED ≠ 0
  | .SetIndices _ => m &&& cfg.INDEX_BUFFER_CHANGED ≠ 0

/-- The call binds stream `s`. -/
def DeviceCall.isStream (s : Nat) : DeviceCall → Bool
  | .SetStreamSource stream _ _ _ => decide (stream = s)
  | _ => false

/-- The call sets the device's legacy-format register. -/
def DeviceCall.setsFVF : DeviceCall → Bool
  | .SetFVF _ => true
  | .Set_Vertex_Shader _ => true
  | _ => false

/-- The two identity bits share no bit with any bit an apply pass tests: the category
bits, the bit of every texture stage of the loop, and `LIGHTS_CHANGED`. -/
def Config.identityDisjoint (cfg : Config) : Prop :=
  (cfg.WORLD_IDENTITY ||| cfg.VIEW_IDENTITY) &&& cfg.SHADER_CHANGED = 0 ∧
  (∀ k, k < cfg.Max_Textures_Per_Pass →
    (cfg.WORLD_IDENTITY ||| cfg.VIEW_IDENTITY) &&& loopBit cfg.TEXTURE0_CHANGED k = 0) ∧
  (cfg.WORLD_IDENTITY ||| cfg.VIEW_IDENTITY) &&& cfg.MATERIAL_CHANGED = 0 ∧
  (cfg.WORLD_IDENTITY ||| cfg.VIEW_IDENTITY) &&& cfg.LIGHTS_CHANGED = 0 ∧
  (cfg.WORLD_IDENTITY ||| cfg.VIEW_IDENTITY) &&& cfg.WORLD_CHANGED = 0 ∧
  (cfg.WORLD_IDENTITY ||| cfg.VIEW_IDENTITY) &&& cfg.VIEW_CHANGED = 0 ∧
  (cfg.WORLD_IDENTITY ||| cfg.VIEW_IDENTITY) &&& cfg.VERTEX_BUFFER_CHANGED = 0 ∧
  (cfg.WORLD_IDENTITY ||| cfg.VIEW_IDENTITY) &&& cfg.INDEX_BUFFER_CHANGED = 0

/-- The vertex-buffer and index-buffer bits are set bits that share no bit with the bits
of the other categories an apply pass tests, and there is at least one stream. -/
def Config.buffersDisjoint (cfg : Config) : Prop :=
  (cfg.VERTEX_BUFFER_CHANGED ||| cfg.INDEX_BUFFER_CHANGED) &&& cfg.SHADER_CHANGED = 0 ∧
  (∀ k, k < cfg.Max_Textures_Per_Pass →
    (cfg.VERTEX_BUFFER_CHANGED ||| cfg.INDEX_BUFFER_CHANGED) &&&
      loopBit cfg.TEXTURE0_CHANGED k = 0) ∧
  (cfg.VERTEX_BUFFER_CHANGED ||| cfg.INDEX_BUFFER_CHANGED) &&& cfg.MATERIAL_CHANGED = 0 ∧
  (cfg.VERTEX_BUFFER_CHANGED ||| cfg.INDEX_BUFFER_CHANGED) &&& cfg.LIGHTS_CHANGED = 0 ∧
  (cfg.VERTEX_BUFFER_CHANGED ||| cfg.INDEX_BUFFER_CHANGED) &&& cfg.WORLD_CHANGED = 0 ∧
  (cfg.VERTEX_BUFFER_CHANGED ||| cfg.INDEX_BUFFER_CHANGED) &&& cfg.VIEW_CHANGED = 0 ∧
  (cfg.VERTEX_BUFFER_CHANGED ||| cfg.INDEX_BUFFER_CHANGED) &&& cfg.VERTEX_BUFFER_CHANGED ≠ 0 ∧
  (cfg.VERTEX_BUFFER_CHANGED ||| cfg.INDEX_BUFFER_CHANGED) &&& cfg.INDEX_BUFFER_CHANGED ≠ 0 ∧
  0 < cfg.MAX_VERTEX_STREAMS

/-! ## Sequences of layout calls -/

/-- One call of a layout-binding entry point, with the outcome of the device's
`SetVertexDeclaration` where the code tests it. -/
inductive LayoutCall
  | bindDecl (decl : Nat) (owner : Option String) (hr : Bool)
  | bindFVF (fvf : Nat) (owner : Option String)
  | setDecl (decl : Nat) (hr : Bool)

/-- Run one layout call. -/
def LayoutCall.run (cfg : Config) : LayoutCall → DX8Wrapper → DX8Wrapper
  | .bindDecl decl owner hr, w => BindLayoutDecl decl owner hr w
  | .bindFVF fvf owner, w => BindLayoutFVF cfg fvf owner w
  | .setDecl decl hr, w => Set_Vertex_Declaration cfg decl hr w

/-- The device call tested by the layout call, if any, succeeded. -/
def LayoutCall.succeeds : LayoutCall → Bool
  | .bindDecl _ _ hr => hr
  | .bindFVF _ _ => true
  | .setDecl _ hr => hr

/-- The call is an explicit clear request: a null handle or a zero format. -/
def LayoutCall.isClear : LayoutCall → Bool
  | .bindDecl decl _ _ => decide (decl = 0)
  | .bindFVF fvf _ => decide (fvf = 0)
  | .setDecl decl _ => decide (decl = 0)

/-- Run a sequence of layout calls, first call first. -/
def runLayoutCalls (cfg : Config) (cs : List LayoutCall) (w : DX8Wrapper) : DX8Wrapper :=
  cs.foldl (fun acc c => c.run cfg acc) w

/-- The tracked layout mode is not "both": structured handle and legacy format are
not set together. -/
def notBoth (w : DX8Wrapper) : Prop :=
  ¬ (w.render_state.currentDecl ≠ 0 ∧ w.render_state.currentFVF ≠ 0)

/-- The tracked layout mode is "neither": no structured handle and no legacy format. -/
def neither (w : DX8Wrapper) : Prop :=
  w.render_state.currentDecl = 0 ∧ w.render_state.currentFVF = 0

/-! ## Draw dispatch -/

/-- The two switches `Draw` tests around its apply pass: the static
`DrawPolygonLowBoundLimit` and the result of `_Is_Triangle_Draw_Enabled()`. -/
structure DrawSwitches where
  DrawPolygonLowBoundLimit : Nat
  Is_Triangle_Draw_Enabled : Bool
  deriving DecidableEq, Repr

/-- What one `Draw` call does, in order: the invocation of
`Apply_Render_State_Changes`, the device's `DrawIndexedPrimitive`, the call of
`Draw_Sorting_IB_VB`, a failed `WWASSERT` or `WWASSERT_PRINT`, or the read of the vertex
count through a null stream-0 buffer, after which nothing is defined. -/
inductive DrawEvent
  | Apply_Render_State_Changes
  | DrawIndexedPrimitive (primitive_type baseVertex min_vertex_index vertex_count
      startIndex polygon_count : Nat)
  | Draw_Sorting_IB_VB (primitive_type start_index polygon_count min_vertex_index
      vertex_count : Nat)
  | AssertFailed (message : String)
  | NullBufferRead
  deriving DecidableEq, Repr

/-- The event is a draw: `DrawIndexedPrimitive` or the sorting path that ends in one. -/
def DrawEvent.isDraw : DrawEvent → Bool
  | .DrawIndexedPrimitive _ _ _ _ _ _ => true
  | .Draw_Sorting_IB_VB _ _ _ _ _ => true
  | _ => false

/-- The `min_vertex_index` and `vertex_count` a draw event is issued with. -/
def DrawEvent.vertexRange : DrawEvent → Option (Nat × Nat)
  | .DrawIndexedPrimitive _ _ min_vertex_index vertex_count _ _ =>
      some (min_vertex_index, vertex_count)
  | .Draw_Sorting_IB_VB _ _ _ min_vertex_index vertex_count =>
      some (min_vertex_index, vertex_count)
  | _ => none

/-- The block `if (vertex_count<3) { ... }` of `Draw`: the pair `min_vertex_index`,
`vertex_count` it leaves, both `unsigned short`; `none` when the vertex count is read
through a null stream-0 buffer. -/
def resolveVertexCount (rs : RenderStateStruct) (min_vertex_index vertex_count : Nat) :
    Option (Nat × Nat) :=
  if vertex_count < 3 then
    match rs.vertex_buffer_types 0 with
    | .BUFFER_TYPE_DX8 | .BUFFER_TYPE_SORTING =>
        match rs.vertex_buffers 0 with
        | none => none
        | some vb =>
            some (0, Int.toNat (((vb.VertexCount : Int) - (rs.index_base_offset : Int) -
              (rs.vba_offset : Int) - 0) % 65536))
    | .BUFFER_TYPE_DYNAMIC_DX8 | .BUFFER_TYPE_DYNAMIC_SORTING =>
        some (0, rs.vba_count % 65536)
    | .BUFFER_TYPE_INVALID => some (0, vertex_count)
  else some (min_vertex_index, vertex_count)

/-- The nested `switch` of `Draw` on the stream-0 buffer type and the index buffer type. -/
def drawDispatch (rs : RenderStateStruct)
    (primitive_type start_index polygon_count min_vertex_index vertex_count : Nat) :
    List DrawEvent :=
  match rs.vertex_buffer_types 0 with
  | .BUFFER_TYPE_DX8 | .BUFFER_TYPE_DYNAMIC_DX8 =>
      match rs.index_buffer_type with
      | .BUFFER_TYPE_DX8 | .BUFFER_TYPE_DYNAMIC_DX8 =>
          [.DrawIndexedPrimitive primitive_type rs.index_base_offset min_vertex_index
            vertex_count ((start_index + rs.iba_offset) % 2 ^ 32) polygon_count]
      | .BUFFER_TYPE_SORTING | .BUFFER_TYPE_DYNAMIC_SORTING =>
          [.AssertFailed "VB and IB must of same type (sorting or dx8)"]
      | .BUFFER_TYPE_INVALID => [.AssertFailed "0"]
  | .BUFFER_TYPE_SORTING | .BUFFER_TYPE_DYNAMIC_SORTING =>
      match rs.index_buffer_type with
      | .BUFFER_TYPE_DX8 | .BUFFER_TYPE_DYNAMIC_DX8 =>
          [.AssertFailed "VB and IB must of same type (sorting or dx8)"]
      | .BUFFER_TYPE_SORTING | .BUFFER_TYPE_DYNAMIC_SORTING =>
          [.Draw_Sorting_IB_VB primitive_type start_index polygon_count min_vertex_index
            vertex_count]
      | .BUFFER_TYPE_INVALID => [.AssertFailed "0"]
  | .BUFFER_TYPE_INVALID => [.AssertFailed "0"]

/-- Embedding of `DX8Wrapper::Draw (primitive_type, start_index, polygon_count,
min_vertex_index, vertex_count)`: the state it leaves and the events in order. -/
def Draw (cfg : Config) (sw : DrawSwitches)
    (primitive_type start_index polygon_count min_vertex_index vertex_count : Nat)
    (w : DX8Wrapper) : DX8Wrapper × List DrawEvent :=
  if sw.DrawPolygonLowBoundLimit ≠ 0 ∧ sw.DrawPolygonLowBoundLimit ≥ polygon_count then
    (w, [])
  else
    let w1 := Apply_Render_State_Changes cfg w
    if sw.Is_Triangle_Draw_Enabled = false then (w1, [.Apply_Render_State_Changes])
    else
      match resolveVertexCount w1.render_state min_vertex_index vertex_count with
      | none => (w1, [.Apply_Render_State_Changes, .NullBufferRead])
      | some (minIndex, count) =>
          (w1, .Apply_Render_State_Changes ::
            drawDispatch w1.render_state primitive_type start_index polygon_count minIndex
              count)

/-! ## Scoped 2D state guard

Embedding of `Scoped2DStateGuard` from `Scoped2DStateGuard.h`. The guard reads and
writes stream 0, the index buffer and the viewport on the device itself; transforms,
render states and texture-stage states go through accessors of `DX8Wrapper` that are
declared in `dx8wrapper.h`. -/

/-- The render states the guard saves, and any other by its code. -/
inductive D3DRENDERSTATETYPE
  | D3DRS_ZENABLE
  | D3DRS_ZWRITEENABLE
  | D3DRS_LIGHTING
  | D3DRS_CULLMODE
  | other (code : Nat)
  deriving DecidableEq, Repr

/-- The transform slots the guard saves. -/
inductive D3DTRANSFORMSTATETYPE
  | D3DTS_WORLD
  | D3DTS_VIEW
  | D3DTS_PROJECTION
  deriving DecidableEq, Repr

/-- The texture-stage states the guard sets, and any other by its code. -/
inductive D3DTEXTURESTAGESTATETYPE
  | D3DTSS_COLOROP
  | D3DTSS_ALPHAOP
  | other (code : Nat)
  deriving DecidableEq, Repr

/-- The value `D3DTOP_DISABLE` of the Direct3D headers. -/
def D3DTOP_DISABLE : Nat := 1

/-- The state the guard works on: the device object it was built on (stream, index,
layout registers), the device's viewport, the render-state flags, texture-stage states
and transforms reached through the wrapper's accessors, and the wrapper's record.
Matrices and the viewport are opaque values. -/
structure GuardWorld where
  dev : Device
  viewport : Nat
  renderStates : D3DRENDERSTATETYPE → Nat
  textureStageStates : Nat → D3DTEXTURESTAGESTATETYPE → Nat
  transforms : D3DTRANSFORMSTATETYPE → Nat
  render_state : RenderStateStruct

/-- Modelled from the spec: `DX8Wrapper::Get_Transform`, declared in `dx8wrapper.h`;
it returns the transform of the slot, which the guard snapshots. -/
def Get_Transform (ts : D3DTRANSFORMSTATETYPE) (gw : GuardWorld) : Nat :=
  gw.transforms ts

/-- Modelled from the spec: `DX8Wrapper::Set_Transform`, declared in `dx8wrapper.h`;
it sets the transform of the slot, by which the guard restores it. -/
def Set_Transform (ts : D3DTRANSFORMSTATETYPE) (m : Nat) (gw : GuardWorld) : GuardWorld :=
  { gw with transforms := fun t => if t = ts then m else gw.transforms t }

/-- Modelled from the spec: `DX8Wrapper::Get_DX8_Render_State`, declared in
`dx8wrapper.h`; it returns the render-state flag, which the guard snapshots. -/
def Get_DX8_Render_State (state : D3DRENDERSTATETYPE) (gw : GuardWorld) : Nat :=
  gw.renderStates state

/-- Modelled from the spec: `DX8Wrapper::Set_DX8_Render_State`, declared in
`dx8wrapper.h`; it sets the render-state flag, by which the guard restores it. -/
def Set_DX8_Render_State (state : D3DRENDERSTATETYPE) (value : Nat) (gw : GuardWorld) :
    GuardWorld :=
  { gw with renderStates := fun t => if t = state then value else gw.renderStates t }

/-- Modelled from the spec: `DX8Wrapper::Set_DX8_Texture_Stage_State`, declared in
`dx8wrapper.h`; it sets one state of one texture stage. -/
def Set_DX8_Texture_Stage_State (stage : Nat) (type : D3DTEXTURESTAGESTATETYPE) (value : Nat)
    (gw : GuardWorld) : GuardWorld :=
  { gw with
    textureStageStates := fun st t =>
      if st = stage ∧ t = type then value else gw.textureStageStates st t }

/-- Modelled from the spec: `DX8Wrapper::Clear_Current_Decl`, declared in
`dx8wrapper.h`; it clears the tracked structured handle. -/
def Clear_Current_Decl (gw : GuardWorld) : GuardWorld :=
  { gw with render_state := { gw.render_state with currentDecl := 0 } }

/-- Modelled from the spec: `DX8Wrapper::Clear_Current_FVF`, declared in
`dx8wrapper.h`; it clears the tracked legacy format. -/
def Clear_Current_FVF (gw : GuardWorld) : GuardWorld :=
  { gw with render_state := { gw.render_state with currentFVF := 0 } }

/-- The members of `Scoped2DStateGuard`; `m_dev` tells whether the device pointer is
non-null. Reference counts held on the saved objects are left out. -/
structure Scoped2DStateGuard where
  m_dev : Bool
  m_savedFVF : Nat
  m_savedDecl : Nat
  m_savedVB0 : Nat
  m_savedOffset0 : Nat
  m_savedStride0 : Nat
  m_savedIB : Nat
  m_savedWorld : Nat
  m_savedView : Nat
  m_savedProjection : Nat
  m_savedViewport : Nat
  m_savedZEnable : Nat
  m_savedZWriteEnable : Nat
  m_savedLighting : Nat
  m_savedCullMode : Nat
  m_captureLocation : Option String

/-- One effect of the guard, in the order the source performs them: a call on the
device (`SetStreamSource`, `SetIndices`, `SetViewport`) or a call of a wrapper
accessor. -/
inductive GuardEffect
  | Clear_Current_Decl
  | Clear_Current_FVF
  | SetStreamSource (stream vb offset stride : Nat)
  | SetIndices (ib : Nat)
  | Set_Transform (ts : D3DTRANSFORMSTATETYPE) (m : Nat)
  | SetViewport (viewport : Nat)
  | Set_DX8_Render_State (state : D3DRENDERSTATETYPE) (value : Nat)
  | Set_DX8_Texture_Stage_State (stage : Nat) (type : D3DTEXTURESTAGESTATETYPE) (value : Nat)
  deriving DecidableEq, Repr

/-- What one effect does to the state. -/
def GuardEffect.apply (gw : GuardWorld) : GuardEffect → GuardWorld
  | .Clear_Current_Decl => DX8.Clear_Current_Decl gw
  | .Clear_Current_FVF => DX8.Clear_Current_FVF gw
  | .SetStreamSource stream vb offset stride =>
      { gw with dev := gw.dev.exec (.SetStreamSource stream vb offset stride) }
  | .SetIndices ib => { gw with dev := gw.dev.exec (.SetIndices ib) }
  | .Set_Transform ts m => DX8.Set_Transform ts m gw
  | .SetViewport viewport => { gw with viewport := viewport }
  | .Set_DX8_Render_State state value => DX8.Set_DX8_Render_State state value gw
  | .Set_DX8_Texture_Stage_State stage type value =>
      DX8.Set_DX8_Texture_Stage_State stage type value gw

/-- Perform one effect: the state follows it and it is recorded. -/
def guardDo (e : GuardEffect) (s : GuardWorld × List GuardEffect) :
    GuardWorld × List GuardEffect :=
  (e.apply s.1, s.2 ++ [e])

/-- The constructor's loop `for (stage = 0; stage < 8; stage++)`, entered at `stage`
with `n` stages left: the colour and alpha operators of each stage are disabled. -/
def disableStageOps : Nat → Nat → GuardWorld × List GuardEffect → GuardWorld × List GuardEffect
  | 0, _, s => s
  | n + 1, stage, s =>
      disableStageOps n (stage + 1)
        (guardDo (.Set_DX8_Texture_Stage_State stage .D3DTSS_ALPHAOP D3DTOP_DISABLE)
          (guardDo (.Set_DX8_Texture_Stage_State stage .D3DTSS_COLOROP D3DTOP_DISABLE) s))

/-- Embedding of the constructor `Scoped2DStateGuard (dev, location)`; `dev` tells whether
the pointer is non-null. It returns the guard, the state it leaves and its effects. -/
def Scoped2DStateGuard.construct (dev : Bool) (location : Option String) (gw : GuardWorld) :
    Scoped2DStateGuard × GuardWorld × List GuardEffect :=
  let g0 : Scoped2DStateGuard :=
    { m_dev := dev, m_savedFVF := 0, m_savedDecl := 0, m_savedVB0 := 0, m_savedOffset0 := 0,
      m_savedStride0 := 0, m_savedIB := 0, m_savedWorld := 0, m_savedView := 0,
      m_savedProjection := 0, m_savedViewport := 0, m_savedZEnable := 0,
      m_savedZWriteEnable := 0, m_savedLighting := 0, m_savedCullMode := 0,
      m_captureLocation := location }
  if dev = false then (g0, gw, [])
  else
    let g : Scoped2DStateGuard :=
      { g0 with
        m_savedFVF := gw.dev.fvf
        m_savedDecl := gw.dev.decl
        m_savedVB0 := (gw.dev.streams 0).vb
        m_savedOffset0 := (gw.dev.streams 0).offset
        m_savedStride0 := (gw.dev.streams 0).stride
        m_savedIB := gw.dev.indices
        m_savedWorld := Get_Transform .D3DTS_WORLD gw
        m_savedView := Get_Transform .D3DTS_VIEW gw
        m_savedProjection := Get_Transform .D3DTS_PROJECTION gw
        m_savedViewport := gw.viewport
        m_savedZEnable := Get_DX8_Render_State .D3DRS_ZENABLE gw
        m_savedZWriteEnable := Get_DX8_Render_State .D3DRS_ZWRITEENABLE gw
        m_savedLighting := Get_DX8_Render_State .D3DRS_LIGHTING gw
        m_savedCullMode := Get_DX8_Render_State .D3DRS_CULLMODE gw }
    (g, disableStageOps 8 0 (gw, []))

/-- Embedding of the destructor `~Scoped2DStateGuard ()`, run on the state `gw` the scope
has left: the state after it and its effects in order. -/
def Scoped2DStateGuard.destroy (g : Scoped2DStateGuard) (gw : GuardWorld) :
    GuardWorld × List GuardEffect :=
  if g.m_dev = false then (gw, [])
  else
    let s := guardDo .Clear_Current_Decl (gw, [])
    let s := guardDo .Clear_Current_FVF s
    let s := guardDo (.SetStreamSource 0 g.m_savedVB0 g.m_savedOffset0 g.m_savedStride0) s
    let s := guardDo (.SetIndices g.m_savedIB) s
    let s := guardDo (.Set_Transform .D3DTS_PROJECTION g.m_savedProjection) s
    let s := guardDo (.Set_Transform .D3DTS_VIEW g.m_savedView) s
    let s := guardDo (.Set_Transform .D3DTS_WORLD g.m_savedWorld) s
    let s := guardDo (.SetViewport g.m_savedViewport) s
    let s := guardDo (.Set_DX8_Render_State .D3DRS_ZENABLE g.m_savedZEnable) s
    let s := guardDo (.Set_DX8_Render_State .D3DRS_ZWRITEENABLE g.m_savedZWriteEnable) s
    let s := guardDo (.Set_DX8_Render_State .D3DRS_LIGHTING g.m_savedLighting) s
    guardDo (.Set_DX8_Render_State .D3DRS_CULLMODE g.m_savedCullMode) s

/-! ## Hardware instancing

Embedding of `DX8InstanceManagerClass` from `dx8instancing.h` and `dx8instancing.cpp`,
and of `DX8PolygonRendererClass::Render_Instanced` from `dx8polygonrenderer.h`. -/

/-- The enumerator `MAX_INSTANCES_PER_DRAW`. -/
def MAX_INSTANCES_PER_DRAW : Nat := 256

/-- The enumerator `MAX_CACHED_DECLS`. -/
def MAX_CACHED_DECLS : Nat := 16

/-- A `float[4]`; each float is carried as its bit pattern. -/
structure Float4 where
  f0 : Nat
  f1 : Nat
  f2 : Nat
  f3 : Nat
  deriving DecidableEq, Repr

/-- The struct `InstanceData`: three rows of a world transform. -/
structure InstanceData where
  row0 : Float4
  row1 : Float4
  row2 : Float4
  deriving DecidableEq, Repr

/-- The struct `CachedDecl`. -/
structure CachedDecl where
  fvf : Nat
  decl : Nat
  deriving DecidableEq, Repr

/-- The data members of `DX8InstanceManagerClass`. -/
structure DX8InstanceManagerClass where
  m_available : Bool
  m_enabled : Bool
  m_instanceVB : Nat
  m_instanceVS : Nat
  m_declCache : Nat → CachedDecl
  m_declCacheCount : Nat
  m_instanceBuffer : Nat → InstanceData
  m_collectedCount : Nat
  m_instancedDrawCalls : Nat
  m_instancedMeshes : Nat
  m_lastFrameInstancedDrawCalls : Nat
  m_lastFrameInstancedMeshes : Nat

/-- Embedding of `Is_Enabled ()`. -/
def DX8InstanceManagerClass.Is_Enabled (m : DX8InstanceManagerClass) : Bool :=
  m.m_enabled && m.m_available

/-- Embedding of `Reset_Collection ()`. -/
def DX8InstanceManagerClass.Reset_Collection (m : DX8InstanceManagerClass) :
    DX8InstanceManagerClass :=
  { m with m_collectedCount := 0 }

/-- Embedding of `Add_Instance_Transform (row0, row1, row2)`: the returned flag and the
manager after the call. The twelve floats are copied one by one. -/
def DX8InstanceManagerClass.Add_Instance_Transform (row0 row1 row2 : Float4)
    (m : DX8InstanceManagerClass) : Bool × DX8InstanceManagerClass :=
  if m.m_collectedCount ≥ MAX_INSTANCES_PER_DRAW then (false, m)
  else
    let inst : InstanceData :=
      { row0 := { f0 := row0.f0, f1 := row0.f1, f2 := row0.f2, f3 := row0.f3 }
        row1 := { f0 := row1.f0, f1 := row1.f1, f2 := row1.f2, f3 := row1.f3 }
        row2 := { f0 := row2.f0, f1 := row2.f1, f2 := row2.f2, f3 := row2.f3 } }
    (true,
      { m with
        m_instanceBuffer := fun i => if i = m.m_collectedCount then inst else m.m_instanceBuffer i
        m_collectedCount := (m.m_collectedCount + 1) % 2 ^ 32 })

/-- Consecutive `Add_Instance_Transform` calls, one per transform of the list, in order:
the flags returned and the manager after the last call. -/
def addInstanceTransforms :
    List InstanceData → DX8InstanceManagerClass → List Bool × DX8InstanceManagerClass
  | [], m => ([], m)
  | t :: ts, m =>
      let r := m.Add_Instance_Transform t.row0 t.row1 t.row2
      let rest := addInstanceTransforms ts r.2
      (r.1 :: rest.1, rest.2)

/-- Embedding of `Collect_Instances (render_task_head, first_renderer)`: the returned
count and the manager after the call. The task list is given by its tasks (the head
pointer is null when there is none), `first_renderer` is a pointer. -/
def DX8InstanceManagerClass.Collect_Instances {Task : Type} (render_task_head : List Task)
    (first_renderer : Nat) (m : DX8InstanceManagerClass) : Nat × DX8InstanceManagerClass :=
  let m1 := { m with m_collectedCount := 0 }
  if m1.Is_Enabled = false then (0, m1)
  else if render_task_head.isEmpty ∨ first_renderer = 0 then (0, m1)
  else (m1.m_collectedCount, m1)

/-- The values of `D3DDECLTYPE` the builders use. -/
inductive D3DDECLTYPE
  | D3DDECLTYPE_FLOAT2
  | D3DDECLTYPE_FLOAT3
  | D3DDECLTYPE_FLOAT4
  | D3DDECLTYPE_D3DCOLOR
  | D3DDECLTYPE_UNUSED
  deriving DecidableEq, Repr

/-- The values of `D3DDECLUSAGE` the builders use. -/
inductive D3DDECLUSAGE
  | D3DDECLUSAGE_POSITION
  | D3DDECLUSAGE_NORMAL
  | D3DDECLUSAGE_TEXCOORD
  | D3DDECLUSAGE_POSITIONT
  | D3DDECLUSAGE_COLOR
  deriving DecidableEq, Repr

/-- The struct `D3DVERTEXELEMENT9`, its member `Type` written `type`; `Method` is a
number (`D3DDECLMETHOD_DEFAULT` is 0). -/
structure D3DVERTEXELEMENT9 where
  Stream : Nat
  Offset : Nat
  type : D3DDECLTYPE
  Method : Nat
  Usage : D3DDECLUSAGE
  UsageIndex : Nat
  deriving DecidableEq, Repr

/-- The sentinel `D3DDECL_END ()` of the Direct3D headers. -/
def D3DDECL_END : D3DVERTEXELEMENT9 :=
  ⟨0xFF, 0, .D3DDECLTYPE_UNUSED, 0, .D3DDECLUSAGE_POSITION, 0⟩

def D3DFVF_XYZ : Nat := 0x002
def D3DFVF_XYZRHW : Nat := 0x004
def D3DFVF_NORMAL : Nat := 0x010
def D3DFVF_DIFFUSE : Nat := 0x040
def D3DFVF_SPECULAR : Nat := 0x080
def D3DFVF_TEXCOUNT_MASK : Nat := 0xf00
def D3DFVF_TEXCOUNT_SHIFT : Nat := 8

/-- The writes `elements[idx++] = ...; offset += size` of a builder: the elements written
so far, in order, and the running `WORD offset`. -/
structure DeclBuild where
  elements : List D3DVERTEXELEMENT9
  offset : Nat
  deriving DecidableEq, Repr

/-- One stream-0 element at the running offset, which then advances by `size` as a `WORD`. -/
def DeclBuild.push (b : DeclBuild) (type : D3DDECLTYPE) (usage : D3DDECLUSAGE)
    (usageIndex size : Nat) : DeclBuild :=
  { elements := b.elements ++ [⟨0, b.offset, type, 0, usage, usageIndex⟩]
    offset := (b.offset + size) % 65536 }

/-- The loop `for (int t = 0; t < texCount; ++t)` of the instancing builder, entered at
`t` with `n` rounds left. -/
def instanceTexCoords : Nat → Nat → DeclBuild → DeclBuild
  | 0, _, b => b
  | n + 1, t, b =>
      instanceTexCoords n (t + 1)
        (b.push .D3DDECLTYPE_FLOAT2 .D3DDECLUSAGE_TEXCOORD (t % 256) 8)

/-- The element array that `Get_Or_Create_Instance_Decl (geometryFVF)` fills on a cache
miss, in write order, the sentinel included. -/
def instanceDeclElements (geometryFVF : Nat) : List D3DVERTEXELEMENT9 :=
  let b : DeclBuild := ⟨[], 0⟩
  let b :=
    if geometryFVF &&& D3DFVF_XYZ ≠ 0 then
      b.push .D3DDECLTYPE_FLOAT3 .D3DDECLUSAGE_POSITION 0 12
    else if geometryFVF &&& D3DFVF_XYZRHW ≠ 0 then
      b.push .D3DDECLTYPE_FLOAT4 .D3DDECLUSAGE_POSITIONT 0 16
    else b
  let b :=
    if geometryFVF &&& D3DFVF_NORMAL ≠ 0 then
      b.push .D3DDECLTYPE_FLOAT3 .D3DDECLUSAGE_NORMAL 0 12
    else b
  let b :=
    if geometryFVF &&& D3DFVF_DIFFUSE ≠ 0 then
      b.push .D3DDECLTYPE_D3DCOLOR .D3DDECLUSAGE_COLOR 0 4
    else b
  let b :=
    if geometryFVF &&& D3DFVF_SPECULAR ≠ 0 then
      b.push .D3DDECLTYPE_D3DCOLOR .D3DDECLUSAGE_COLOR 1 4
    else b
  let texCount := (geometryFVF &&& D3DFVF_TEXCOUNT_MASK) >>> D3DFVF_TEXCOUNT_SHIFT
  let b := instanceTexCoords texCount 0 b
  b.elements ++
    [⟨1, 0, .D3DDECLTYPE_FLOAT4, 0, .D3DDECLUSAGE_TEXCOORD, 4⟩,
     ⟨1, 16, .D3DDECLTYPE_FLOAT4, 0, .D3DDECLUSAGE_TEXCOORD, 5⟩,
     ⟨1, 32, .D3DDECLTYPE_FLOAT4, 0, .D3DDECLUSAGE_TEXCOORD, 6⟩,
     D3DDECL_END]

/-- The private fields of `DX8PolygonRendererClass` that `Render_Instanced` reads. -/
structure DX8PolygonRendererClass where
  index_offset : Nat
  vertex_offset : Nat
  index_count : Nat
  min_vertex_index : Nat
  vertex_index_range : Nat
  strip : Bool
  deriving DecidableEq, Repr

/-- What the instancing code does, in order: a call on the device or on the instance
vertex buffer (queries included), a call of a helper of another class, a failed
`WWASSERT`, a write past the local `elements[20]`, or the use of a null `m_instanceVB`,
after which nothing is defined. Matrices, constants and light records are not carried:
`SetVertexShaderConstantF` keeps its start register and vector count. -/
inductive InstanceCall
  | CreateVertexDeclaration (elements : List D3DVERTEXELEMENT9)
  | Lock (OffsetToLock SizeToLock : Nat)
  | Unlock
  | GetStreamSource (stream : Nat)
  | GetIndices
  | GetFVF
  | binding (c : DeviceCall)
  | SetStreamSourceFreq (stream setting : Nat)
  | SetTransformIdentity (ts : D3DTRANSFORMSTATETYPE)
  | GetTransform (ts : D3DTRANSFORMSTATETYPE)
  | SetVertexShaderConstantF (StartRegister Vector4fCount : Nat)
  | GetRenderState (state : D3DRENDERSTATETYPE)
  | GetLightEnable (index : Nat)
  | GetLight (index : Nat)
  | GetMaterial
  | SetTextureStageState (stage : Nat) (type : D3DTEXTURESTAGESTATETYPE) (value : Nat)
  | DrawIndexedPrimitive (primitive_type BaseVertexIndex MinVertexIndex NumVertices
      startIndex primCount : Nat)
  | ShaderClass_Invalidate
  | Invalidate_Vertex_Buffer_State
  | AssertFailed (message : String)
  | ElementsOverrun
  | NullInstanceVB
  deriving DecidableEq, Repr

/-- Whether the event is the device's draw call. -/
def InstanceCall.isDraw : InstanceCall → Bool
  | .DrawIndexedPrimitive _ _ _ _ _ _ => true
  | _ => false

/-- Whether the event is a call on the device or on a device buffer. -/
def InstanceCall.isDeviceCall : InstanceCall → Bool
  | .ShaderClass_Invalidate => false
  | .Invalidate_Vertex_Buffer_State => false
  | .AssertFailed _ => false
  | .ElementsOverrun => false
  | .NullInstanceVB => false
  | _ => true

/-- What the instancing code takes from outside the manager: the outcome of the device's
`CreateVertexDeclaration` on an element array (`none` when the call fails, else the new
handle), whether `Lock` on the instance buffer succeeds, whether
`DX8Wrapper::Get_Light_Environment ()` is non-null, what `GetLightEnable` reports, and
the value `DX8Wrapper::Get_Current_FVF ()` returns. -/
structure InstancingEnv where
  CreateVertexDeclaration : List D3DVERTEXELEMENT9 → Option Nat
  LockSucceeds : Bool
  Get_Light_Environment : Bool
  GetLightEnable : Nat → Bool
  Get_Current_FVF : Nat

/-- The loop `for (i = 0; i < m_declCacheCount; ++i)` searching the layout cache, entered
at `i` with `n` rounds left: the handle of the first entry with the format. -/
def searchDeclCache (cache : Nat → CachedDecl) (geometryFVF : Nat) : Nat → Nat → Option Nat
  | 0, _ => none
  | n + 1, i =>
      if (cache i).fvf = geometryFVF then some (cache i).decl
      else searchDeclCache cache geometryFVF n (i + 1)

/-- Embedding of `Get_Or_Create_Instance_Decl (geometryFVF)`; `dev` tells whether the
device is present. It returns the handle (0 for `nullptr`), the manager and the calls. -/
def DX8InstanceManagerClass.Get_Or_Create_Instance_Decl (env : InstancingEnv) (dev : Bool)
    (geometryFVF : Nat) (m : DX8InstanceManagerClass) :
    Nat × DX8InstanceManagerClass × List InstanceCall :=
  match searchDeclCache m.m_declCache geometryFVF m.m_declCacheCount 0 with
  | some decl => (decl, m, [])
  | none =>
      if dev = false then (0, m, [])
      else
        let elements := instanceDeclElements geometryFVF
        if elements.length > 20 then (0, m, [.ElementsOverrun])
        else
          match env.CreateVertexDeclaration elements with
          | none => (0, m, [.CreateVertexDeclaration elements])
          | some newDecl =>
              if m.m_declCacheCount < MAX_CACHED_DECLS then
                (newDecl,
                  { m with
                    m_declCache := fun i =>
                      if i = m.m_declCacheCount then ⟨geometryFVF, newDecl⟩ else m.m_declCache i
                    m_declCacheCount := (m.m_declCacheCount + 1) % 2 ^ 32 },
                  [.CreateVertexDeclaration elements])
              else (newDecl, m, [.CreateVertexDeclaration elements])

/-- Embedding of `DX8PolygonRendererClass::Render_Instanced (base_vertex_offset)` on a
present device. A failed `WWASSERT (!strip)` ends the trace. -/
def DX8PolygonRendererClass.Render_Instanced (r : DX8PolygonRendererClass)
    (base_vertex_offset : Nat) : List InstanceCall :=
  if r.strip then [.AssertFailed "!strip"]
  else
    [.DrawIndexedPrimitive 4 base_vertex_offset r.min_vertex_index r.vertex_index_range
      r.index_offset (r.index_count / 3)]

/-- Perform one event of the instancing code: it is recorded, and a binding call is
issued on the wrapper's device. -/
def instDo (c : InstanceCall) (s : DX8Wrapper × List InstanceCall) :
    DX8Wrapper × List InstanceCall :=
  match c with
  | .binding dc => (DX8CALL dc s.1, s.2 ++ [c])
  | _ => (s.1, s.2 ++ [c])

/-- Perform the events of a list in order. -/
def instDoAll (cs : List InstanceCall) (s : DX8Wrapper × List InstanceCall) :
    DX8Wrapper × List InstanceCall :=
  cs.foldl (fun acc c => instDo c acc) s

/-- The binding calls among the events of a list, in order. -/
def bindingsOf : List InstanceCall → List DeviceCall
  | [] => []
  | .binding c :: cs => c :: bindingsOf cs
  | _ :: cs => bindingsOf cs

def D3DSTREAMSOURCE_INDEXEDDATA : Nat := 0x40000000
def D3DSTREAMSOURCE_INSTANCEDATA : Nat := 0x80000000
def D3DRS_AMBIENT : D3DRENDERSTATETYPE := .other 139
def D3DRS_DIFFUSEMATERIALSOURCE : D3DRENDERSTATETYPE := .other 145
def D3DRS_AMBIENTMATERIALSOURCE : D3DRENDERSTATETYPE := .other 147
def D3DRS_EMISSIVEMATERIALSOURCE : D3DRENDERSTATETYPE := .other 148

/-- The device calls of the block of `Draw_Instanced` that uploads the lighting state
into the constants c4 to c13. With a light environment the ambient colour and the
lights come from it; without one they are read from the device. -/
def lightingUploadCalls (env : InstancingEnv) : List InstanceCall :=
  (if env.Get_Light_Environment then [] else [.GetRenderState D3DRS_AMBIENT]) ++
  [.SetVertexShaderConstantF 4 1] ++
  (if env.Get_Light_Environment then []
   else
    (.GetLightEnable 0 :: (if env.GetLightEnable 0 then [.GetLight 0] else [])) ++
    (.GetLightEnable 1 :: (if env.GetLightEnable 1 then [.GetLight 1] else []))) ++
  [.SetVertexShaderConstantF 5 1, .SetVertexShaderConstantF 6 1,
   .SetVertexShaderConstantF 11 1, .SetVertexShaderConstantF 12 1,
   .GetMaterial,
   .SetVertexShaderConstantF 7 1, .SetVertexShaderConstantF 8 1,
   .SetVertexShaderConstantF 10 1,
   .GetRenderState .D3DRS_LIGHTING,
   .SetVertexShaderConstantF 9 1,
   .GetRenderState D3DRS_DIFFUSEMATERIALSOURCE,
   .GetRenderState D3DRS_AMBIENTMATERIALSOURCE,
   .GetRenderState D3DRS_EMISSIVEMATERIALSOURCE,
   .SetVertexShaderConstantF 13 1]

/-- Embedding of `Draw_Instanced (renderer, geometryFVF)`; `renderer` is `none` for a
null pointer. It returns the manager, the wrapper (whose device the binding calls are
issued on) and the events in order. -/
def DX8InstanceManagerClass.Draw_Instanced (env : InstancingEnv)
    (renderer : Option DX8PolygonRendererClass) (geometryFVF : Nat)
    (m : DX8InstanceManagerClass) (w : DX8Wrapper) :
    DX8InstanceManagerClass × DX8Wrapper × List InstanceCall :=
  match renderer with
  | none => (m, w, [])
  | some r =>
    if m.m_collectedCount < 2 then (m, w, [])
    else
      match w.D3DDevice with
      | none => (m, w, [])
      | some d =>
        let got := m.Get_Or_Create_Instance_Decl env true geometryFVF
        let instanceDecl := got.1
        let m1 := got.2.1
        if instanceDecl = 0 then (m1, w, got.2.2)
        else if m1.m_instanceVB = 0 then (m1, w, got.2.2 ++ [.NullInstanceVB])
        else
          let size := (m1.m_collectedCount * 48) % 2 ^ 32
          if env.LockSucceeds = false then (m1, w, got.2.2 ++ [.Lock 0 size])
          else
            let s : DX8Wrapper × List InstanceCall := (w, got.2.2 ++ [.Lock 0 size, .Unlock])
            let s := instDoAll [.GetStreamSource 0, .GetIndices, .GetFVF] s
            let savedVB0 := (d.streams 0).vb
            let savedOffset0 := (d.streams 0).offset
            let savedStride0 := (d.streams 0).stride
            let savedIB := d.indices
            let savedFVF := d.fvf
            let s := instDoAll
              [.binding (.SetVertexDeclaration instanceDecl),
               .binding (.SetVertexShader m1.m_instanceVS),
               .binding (.SetStreamSource 1 m1.m_instanceVB 0 48),
               .SetStreamSourceFreq 0 (D3DSTREAMSOURCE_INDEXEDDATA ||| m1.m_collectedCount),
               .SetStreamSourceFreq 1 (D3DSTREAMSOURCE_INSTANCEDATA ||| 1),
               .SetTransformIdentity .D3DTS_WORLD,
               .GetTransform .D3DTS_VIEW,
               .GetTransform .D3DTS_PROJECTION,
               .SetVertexShaderConstantF 0 4] s
            let s := instDoAll (lightingUploadCalls env) s
            let s := instDoAll
              [.SetTextureStageState 1 .D3DTSS_COLOROP D3DTOP_DISABLE,
               .SetTextureStageState 1 .D3DTSS_ALPHAOP D3DTOP_DISABLE] s
            if r.strip then (m1, s.1, s.2 ++ r.Render_Instanced 0)
            else
              let s := instDoAll (r.Render_Instanced 0) s
              let s := instDoAll
                [.SetStreamSourceFreq 0 1,
                 .SetStreamSourceFreq 1 1,
                 .binding (.SetStreamSource 1 0 0 0),
                 .binding (.SetVertexShader 0),
                 .binding (.SetVertexDeclaration 0)] s
              let s :=
                if savedVB0 ≠ 0 then
                  instDo (.binding (.SetStreamSource 0 savedVB0 savedOffset0 savedStride0)) s
                else s
              let s := if savedIB ≠ 0 then instDo (.binding (.SetIndices savedIB)) s else s
              let s :=
                if savedFVF ≠ 0 then instDo (.binding (.SetFVF savedFVF)) s
                else if env.Get_Current_FVF ≠ 0 then
                  instDo (.binding (.SetFVF env.Get_Current_FVF)) s
                else s
              let s := instDoAll [.ShaderClass_Invalidate, .Invalidate_Vertex_Buffer_State] s
              ({ m1 with
                  m_instancedDrawCalls := (m1.m_instancedDrawCalls + 1) % 2 ^ 32
                  m_instancedMeshes := (m1.m_instancedMeshes + m1.m_collectedCount) % 2 ^ 32 },
                s.1, s.2)

/-! ## Layout cache

Embedding of `VertexDeclCache` from `VertexDeclCache.h` and `VertexDeclCache.cpp`, and
of the element list of `WaterTracksDecl.h`. -/

def D3DFVF_TEX1 : Nat := 0x100
def D3DFVF_TEX2 : Nat := 0x200

/-- Embedding of `BuildDecl_XYZ_Diffuse_Tex1`: the elements and the stride. -/
def BuildDecl_XYZ_Diffuse_Tex1 : List D3DVERTEXELEMENT9 × Nat :=
  ([⟨0, 0, .D3DDECLTYPE_FLOAT3, 0, .D3DDECLUSAGE_POSITION, 0⟩,
    ⟨0, 12, .D3DDECLTYPE_D3DCOLOR, 0, .D3DDECLUSAGE_COLOR, 0⟩,
    ⟨0, 16, .D3DDECLTYPE_FLOAT2, 0, .D3DDECLUSAGE_TEXCOORD, 0⟩,
    D3DDECL_END], 24)

/-- Embedding of `BuildDecl_XYZ_Normal_Diffuse_Tex2`: the elements and the stride. -/
def BuildDecl_XYZ_Normal_Diffuse_Tex2 : List D3DVERTEXELEMENT9 × Nat :=
  ([⟨0, 0, .D3DDECLTYPE_FLOAT3, 0, .D3DDECLUSAGE_POSITION, 0⟩,
    ⟨0, 12, .D3DDECLTYPE_FLOAT3, 0, .D3DDECLUSAGE_NORMAL, 0⟩,
    ⟨0, 24, .D3DDECLTYPE_D3DCOLOR, 0, .D3DDECLUSAGE_COLOR, 0⟩,
    ⟨0, 28, .D3DDECLTYPE_FLOAT2, 0, .D3DDECLUSAGE_TEXCOORD, 0⟩,
    ⟨0, 36, .D3DDECLTYPE_FLOAT2, 0, .D3DDECLUSAGE_TEXCOORD, 1⟩,
    D3DDECL_END], 44)

/-- Embedding of `BuildDecl_XYZ_Diffuse_Tex2`: the elements and the stride. -/
def BuildDecl_XYZ_Diffuse_Tex2 : List D3DVERTEXELEMENT9 × Nat :=
  ([⟨0, 0, .D3DDECLTYPE_FLOAT3, 0, .D3DDECLUSAGE_POSITION, 0⟩,
    ⟨0, 12, .D3DDECLTYPE_D3DCOLOR, 0, .D3DDECLUSAGE_COLOR, 0⟩,
    ⟨0, 16, .D3DDECLTYPE_FLOAT2, 0, .D3DDECLUSAGE_TEXCOORD, 0⟩,
    ⟨0, 24, .D3DDECLTYPE_FLOAT2, 0, .D3DDECLUSAGE_TEXCOORD, 1⟩,
    D3DDECL_END], 32)

/-- Embedding of `VertexDeclCache::BuildDeclForFvf (fvf, outElements, outStride)`: `none`
when it returns false. -/
def BuildDeclForFvf (fvf : Nat) : Option (List D3DVERTEXELEMENT9 × Nat) :=
  if fvf = (D3DFVF_XYZ ||| D3DFVF_DIFFUSE ||| D3DFVF_TEX1) then
    some BuildDecl_XYZ_Diffuse_Tex1
  else if fvf = (D3DFVF_XYZ ||| D3DFVF_NORMAL ||| D3DFVF_DIFFUSE ||| D3DFVF_TEX2) then
    some BuildDecl_XYZ_Normal_Diffuse_Tex2
  else if fvf = (D3DFVF_XYZ ||| D3DFVF_DIFFUSE ||| D3DFVF_TEX2) then
    some BuildDecl_XYZ_Diffuse_Tex2
  else none

/-- Embedding of `GetWaterTracksDeclElements ()`. -/
def GetWaterTracksDeclElements : List D3DVERTEXELEMENT9 :=
  [⟨0, 0, .D3DDECLTYPE_FLOAT3, 0, .D3DDECLUSAGE_POSITION, 0⟩,
   ⟨0, 12, .D3DDECLTYPE_D3DCOLOR, 0, .D3DDECLUSAGE_COLOR, 0⟩,
   ⟨0, 16, .D3DDECLTYPE_FLOAT2, 0, .D3DDECLUSAGE_TEXCOORD, 0⟩,
   D3DDECL_END]

/-- Embedding of `GetWaterTracksStride ()`, which returns `WaterTrackVertex::Stride`. -/
def GetWaterTracksStride : Nat := 24

/-- The loop `for (int i = 0; i < texCount; i++)` of `FVFToDeclaration`, entered at `i`
with `n` rounds left. -/
def fvfTexCoords : Nat → Nat → DeclBuild → DeclBuild
  | 0, _, b => b
  | n + 1, i, b =>
      fvfTexCoords n (i + 1) (b.push .D3DDECLTYPE_FLOAT2 .D3DDECLUSAGE_TEXCOORD (i % 256) 8)

/-- Embedding of `FVFToDeclaration (fvf)`: the entries the function writes into its
static array `decl`, entry `k` of the list being the one written to `decl[k]`, the
sentinel included. -/
def FVFToDeclaration (fvf : Nat) : List D3DVERTEXELEMENT9 :=
  let b : DeclBuild := ⟨[], 0⟩
  let b :=
    if fvf &&& D3DFVF_XYZ ≠ 0 then
      b.push .D3DDECLTYPE_FLOAT3 .D3DDECLUSAGE_POSITION 0 12
    else if fvf &&& D3DFVF_XYZRHW ≠ 0 then
      b.push .D3DDECLTYPE_FLOAT4 .D3DDECLUSAGE_POSITIONT 0 16
    else b
  let b :=
    if fvf &&& D3DFVF_NORMAL ≠ 0 then
      b.push .D3DDECLTYPE_FLOAT3 .D3DDECLUSAGE_NORMAL 0 12
    else b
  let b :=
    if fvf &&& D3DFVF_DIFFUSE ≠ 0 then
      b.push .D3DDECLTYPE_D3DCOLOR .D3DDECLUSAGE_COLOR 0 4
    else b
  let b :=
    if fvf &&& D3DFVF_SPECULAR ≠ 0 then
      b.push .D3DDECLTYPE_D3DCOLOR .D3DDECLUSAGE_COLOR 1 4
    else b
  let texCount := (fvf &&& D3DFVF_TEXCOUNT_MASK) >>> D3DFVF_TEXCOUNT_SHIFT
  let b := fvfTexCoords texCount 0 b
  b.elements ++ [D3DDECL_END]

/-- The number of entries of the static array `decl[17]` of `FVFToDeclaration`. -/
def declCapacity : Nat := 17

/-- The byte size of a component type. -/
def D3DDECLTYPE.byteSize : D3DDECLTYPE → Nat
  | .D3DDECLTYPE_FLOAT2 => 8
  | .D3DDECLTYPE_FLOAT3 => 12
  | .D3DDECLTYPE_FLOAT4 => 16
  | .D3DDECLTYPE_D3DCOLOR => 4
  | .D3DDECLTYPE_UNUSED => 0

/-- One vertex field as the statements about the builders name it: component type,
semantic and semantic index. -/
structure VertexField where
  type : D3DDECLTYPE
  usage : D3DDECLUSAGE
  usageIndex : Nat
  deriving DecidableEq, Repr

/-- The stream-0 elements of a list of fields laid out back to back from a byte offset:
each element starts where the one before it ends. This is the comparison side of the
statements about the builders, not a translation of code. -/
def layoutFrom (offset : Nat) : List VertexField → List D3DVERTEXELEMENT9
  | [] => []
  | f :: fs =>
      ⟨0, offset, f.type, 0, f.usage, f.usageIndex⟩ :: layoutFrom (offset + f.type.byteSize) fs

/-- The total byte size of a list of fields. -/
def totalSize (fs : List VertexField) : Nat :=
  (fs.map (fun f => f.type.byteSize)).sum

/-- The fields after the position that a format code stands for, in the fixed order
normal, diffuse, specular, texture-coordinate pairs 0 to N-1, each present exactly when
its bit (or the count sub-field) says so. Comparison side, not a translation of code. -/
def fieldsAfterPosition (fvf : Nat) : List VertexField :=
  (if fvf &&& D3DFVF_NORMAL ≠ 0 then [⟨.D3DDECLTYPE_FLOAT3, .D3DDECLUSAGE_NORMAL, 0⟩] else []) ++
  (if fvf &&& D3DFVF_DIFFUSE ≠ 0 then [⟨.D3DDECLTYPE_D3DCOLOR, .D3DDECLUSAGE_COLOR, 0⟩] else []) ++
  (if fvf &&& D3DFVF_SPECULAR ≠ 0 then [⟨.D3DDECLTYPE_D3DCOLOR, .D3DDECLUSAGE_COLOR, 1⟩] else []) ++
  (List.range ((fvf &&& D3DFVF_TEXCOUNT_MASK) >>> D3DFVF_TEXCOUNT_SHIFT)).map
    (fun i => ⟨.D3DDECLTYPE_FLOAT2, .D3DDECLUSAGE_TEXCOORD, i⟩)

/-- The 3-float position field. -/
def positionXYZ : VertexField := ⟨.D3DDECLTYPE_FLOAT3, .D3DDECLUSAGE_POSITION, 0⟩

/-- The 4-float homogeneous position field. -/
def positionXYZRHW : VertexField := ⟨.D3DDECLTYPE_FLOAT4, .D3DDECLUSAGE_POSITIONT, 0⟩

/-- The builder state holds exactly the back-to-back layout of the fields `fs`. -/
def DeclBuild.holds (b : DeclBuild) (fs : List VertexField) : Prop :=
  b.elements = layoutFrom 0 fs ∧ b.offset = totalSize fs

/-- The position field a builder emits for a code: the 3-float position when the bit
0x002 is set, else the 4-float position when the bit 0x004 is set, else none. -/
def positionFieldOf (fvf : Nat) : List VertexField :=
  if fvf &&& D3DFVF_XYZ ≠ 0 then [positionXYZ]
  else if fvf &&& D3DFVF_XYZRHW ≠ 0 then [positionXYZRHW]
  else []

/-- The three stream-1 elements of the per-instance transform. -/
def instanceRowElements : List D3DVERTEXELEMENT9 :=
  [⟨1, 0, .D3DDECLTYPE_FLOAT4, 0, .D3DDECLUSAGE_TEXCOORD, 4⟩,
   ⟨1, 16, .D3DDECLTYPE_FLOAT4, 0, .D3DDECLUSAGE_TEXCOORD, 5⟩,
   ⟨1, 32, .D3DDECLTYPE_FLOAT4, 0, .D3DDECLUSAGE_TEXCOORD, 6⟩]

/-! ## Release of the instancing resources -/

/-- The loop `for (i = 0; i < m_declCacheCount; ++i)` of `Release_Resources`, entered at
`i` with `n` rounds left: a non-null cached handle is released and its entry nulled.
The state is the cache and the pointers released so far. -/
def releaseDecls : Nat → Nat → (Nat → CachedDecl) × List Nat → (Nat → CachedDecl) × List Nat
  | 0, _, s => s
  | n + 1, i, s =>
      releaseDecls n (i + 1)
        (if (s.1 i).decl ≠ 0 then
          (fun k => if k = i then ⟨(s.1 i).fvf, 0⟩ else s.1 k, s.2 ++ [(s.1 i).decl])
        else s)

/-- Embedding of `DX8InstanceManagerClass::Release_Resources ()`: the manager after it
and the pointers on which `Release` was called, in order. -/
def DX8InstanceManagerClass.Release_Resources (m : DX8InstanceManagerClass) :
    DX8InstanceManagerClass × List Nat :=
  let r1 := if m.m_instanceVB ≠ 0 then [m.m_instanceVB] else []
  let r2 := if m.m_instanceVS ≠ 0 then [m.m_instanceVS] else []
  let d := releaseDecls m.m_declCacheCount 0 (m.m_declCache, [])
  ({ m with m_instanceVB := 0, m_instanceVS := 0, m_declCache := d.1, m_declCacheCount := 0 },
    r1 ++ r2 ++ d.2)

/-- Consecutive `Get_Or_Create_Instance_Decl` calls on a present device, one per format
code of the list, in order: the handles returned and the manager after the last call. -/
def getOrCreateInstanceDecls (env : InstancingEnv) :
    List Nat → DX8InstanceManagerClass → List Nat × DX8InstanceManagerClass
  | [], m => ([], m)
  | fvf :: rest, m =>
      let r := m.Get_Or_Create_Instance_Decl env true fvf
      let more := getOrCreateInstanceDecls env rest r.2.1
      (r.1 :: more.1, more.2)

/-- The handles held by the first `n` entries of a layout cache. -/
def cachedHandles (cache : Nat → CachedDecl) (n : Nat) : List Nat :=
  (List.range n).map (fun i => (cache i).decl)

/-! ## Invalidation of the cached render states

Embedding of `DX8Wrapper::Invalidate_Cached_Render_States` from `dx8wrapper.cpp`. -/

/-- The static shadow arrays of `DX8Wrapper` that the invalidation overwrites:
`RenderStates`, `TextureStageStates`, `Textures` and `DX8Transforms` (a matrix is an
opaque value, 0 standing for the matrix whose rows are all set to zero). -/
structure ShadowState where
  RenderStates : Nat → Nat
  TextureStageStates : Nat → Nat → Nat
  Textures : Nat → Nat
  DX8Transforms : Nat → Nat

/-- What the invalidation does outside the record, in order: a call on the device, the
`Release` of a texture, or a call of a helper defined outside the source at hand. -/
inductive InvalidateCall
  | SetTexture (stage texture : Nat)
  | Release (texture : Nat)
  | SetPixelShader (shader : Nat)
  | binding (c : DeviceCall)
  | ShaderClass_Invalidate
  | Release_Render_State
  deriving DecidableEq, Repr

/-- What the invalidation takes from outside the source at hand: the constant
`MAX_TEXTURE_STAGES`, and the effect on the wrapper state of the two helpers it calls,
`ShaderClass::Invalidate ()` and `DX8Wrapper::Release_Render_State ()`. -/
structure InvalidateEnv where
  MAX_TEXTURE_STAGES : Nat
  ShaderClass_Invalidate : DX8Wrapper → DX8Wrapper
  Release_Render_State : DX8Wrapper → DX8Wrapper

/-- The value the invalidation writes into the shadow arrays. -/
def invalidMarker : Nat := 0x12345678

/-- The loop `for (a = 0; a < MAX_TEXTURE_STAGES; ++a)` of the invalidation, entered at
stage `a` with `n` stages left; `dev` tells whether the device is present. The state is
the shadow arrays and the calls made so far. -/
def invalidateStages (dev : Bool) :
    Nat → Nat → ShadowState × List InvalidateCall → ShadowState × List InvalidateCall
  | 0, _, s => s
  | n + 1, a, s =>
      let c := s.1
      let c1 : ShadowState :=
        { c with
          TextureStageStates := fun x b =>
            if x = a ∧ b < 32 then invalidMarker else c.TextureStageStates x b }
      let t1 := if dev then s.2 ++ [.SetTexture a 0] else s.2
      let t2 := if c1.Textures a ≠ 0 then t1 ++ [.Release (c1.Textures a)] else t1
      let c2 : ShadowState := { c1 with Textures := fun x => if x = a then 0 else c1.Textures x }
      invalidateStages dev n (a + 1) (c2, t2)

/-- Embedding of `DX8Wrapper::Invalidate_Cached_Render_States ()`: the shadow arrays,
the wrapper state and the calls after it. The fields `currentVS` and `currentPS` of the
record, which it nulls when the device is present, are not carried by the record here. -/
def Invalidate_Cached_Render_States (env : InvalidateEnv) (c : ShadowState) (w : DX8Wrapper) :
    ShadowState × DX8Wrapper × List InvalidateCall :=
  let w1 := { w with render_state_changed := 0 }
  let c1 : ShadowState :=
    { c with RenderStates := fun a => if a < 256 then invalidMarker else c.RenderStates a }
  let s := invalidateStages w1.D3DDevice.isSome env.MAX_TEXTURE_STAGES 0 (c1, [])
  let w2 := if w1.D3DDevice.isSome then DX8CALL (.SetVertexShader 0) w1 else w1
  let t2 :=
    if w1.D3DDevice.isSome then s.2 ++ [.SetPixelShader 0, .binding (.SetVertexShader 0)]
    else s.2
  let w3 := env.ShaderClass_Invalidate w2
  let w4 := env.Release_Render_State w3
  let c2 : ShadowState :=
    { s.1 with DX8Transforms := fun i => if i < 257 then 0 else s.1.DX8Transforms i }
  (c2, w4, t2 ++ [.ShaderClass_Invalidate, .Release_Render_State])

/-- Every bit the apply pass tests, together: the mask with every category marked. -/
def Config.allCategories (cfg : Config) : Nat :=
  cfg.WORLD_CHANGED ||| cfg.VIEW_CHANGED ||| cfg.LIGHTS_CHANGED ||| cfg.TEXTURE0_CHANGED |||
    cfg.MATERIAL_CHANGED ||| cfg.SHADER_CHANGED ||| cfg.VERTEX_BUFFER_CHANGED |||
    cfg.INDEX_BUFFER_CHANGED

/-! ## Index copy of the sorting draw

Embedding of the index-count switch and of the index-copy loop of
`DX8Wrapper::Draw_Sorting_IB_VB` from `dx8wrapper.cpp`. -/

def D3DPT_TRIANGLELIST : Nat := 4
def D3DPT_TRIANGLESTRIP : Nat := 5
def D3DPT_TRIANGLEFAN : Nat := 6

/-- The `switch (primitive_type)` that sets the `unsigned index_count`; for any other
primitive type `WWASSERT (0)` fails and the count stays 0. -/
def sortingIndexCount (primitive_type polygon_count : Nat) : Nat :=
  if primitive_type = D3DPT_TRIANGLELIST then (polygon_count * 3) % 2 ^ 32
  else if primitive_type = D3DPT_TRIANGLESTRIP then (polygon_count + 2) % 2 ^ 32
  else if primitive_type = D3DPT_TRIANGLEFAN then (polygon_count + 2) % 2 ^ 32
  else 0

/-- Where the index-copy loop stands: still running when the fuel is used up, stopped
by `WWASSERT (index < vertex_count)` after a number of completed iterations, or
finished with the indices it wrote. -/
inductive IndexCopy
  | running
  | assertFailed (iterations : Nat)
  | finished (dest : List Nat)
  deriving DecidableEq, Repr

/-- The loop `for (unsigned short i = 0; i < index_count; ++i)` of `Draw_Sorting_IB_VB`,
run for at most `fuel` tests of its condition. `i` is the 16-bit counter, `k` the number
of indices read so far (`src k` is the k-th index read), `dest` the indices written. The
subtraction `index -= min_vertex_index` is in 16 bits. -/
def indexCopyLoop (src : Nat → Nat) (min_vertex_index vertex_count index_count : Nat) :
    Nat → Nat → Nat → List Nat → IndexCopy
  | 0, _, _, _ => .running
  | fuel + 1, i, k, dest =>
      if i < index_count then
        let index := (src k % 65536 + (65536 - min_vertex_index % 65536)) % 65536
        if index < vertex_count then
          indexCopyLoop src min_vertex_index vertex_count index_count fuel
            ((i + 1) % 65536) (k + 1) (dest ++ [index])
        else .assertFailed k
      else .finished dest

/-! ## The 2D renderer

Embedding of the control flow of `Render2DClass::Render` from `render2d.cpp`: the
calls it makes, in order. State names and values of the render, texture-stage and
sampler states are kept as the source writes them. -/

/-- The members of `Render2DClass` that `Render` reads: the sizes of `Indices` and
`Vertices`, the two flags, the texture pointer and what `Peek_D3D_Texture ()` returns
for it. -/
structure Render2DClass where
  IndicesCount : Nat
  VerticesCount : Nat
  IsHidden : Bool
  IsGrayScale : Bool
  Texture : Nat
  D3D_Texture : Nat
  deriving DecidableEq, Repr

/-- What `Render` takes from outside: whether `_Get_D3D_Device8 ()` is non-null, whether
the caps report `Support_Dot3 ()`, and the handles, stride and offsets of the dynamic
vertex and index buffers it allocates. -/
structure Render2DEnv where
  device : Bool
  Support_Dot3 : Bool
  D3D_VB : Nat
  D3D_IB : Nat
  Stride : Nat
  VB_Offset : Nat
  IB_Offset : Nat
  deriving DecidableEq, Repr

/-- One step of `Render`: a call of a `DX8Wrapper` function (names with an underscore),
a call on the device (names without), the filling of a dynamic buffer, or the
construction and destruction of the state guard. -/
inductive Render2DEvent
  | GuardConstruct (location : String)
  | Get_Device_Resolution
  | SetViewport
  | Set_World_Identity
  | Set_View_Identity
  | Set_Transform_Identity (ts : D3DTRANSFORMSTATETYPE)
  | Set_DX8_Render_State (state value : String)
  | FillDynamicVB (fvf count : Nat)
  | FillDynamicIB (count : Nat)
  | BindLayoutFVF (fvf : Nat) (owner : String)
  | Set_Vertex_Buffer
  | Set_Index_Buffer (index_base_offset : Nat) (callerTag : String)
  | Set_Texture (stage texture : Nat)
  | Set_Shader (preset : String)
  | Set_DX8_Texture_Stage_State (stage : Nat) (state value : String)
  | Apply_Render_State_Changes
  | Set_Vertex_Shader (shader : Nat)
  | Set_Pixel_Shader (shader : Nat)
  | SetTexture (stage texture : Nat)
  | SetTextureStageState (stage : Nat) (state value : String)
  | SetRenderState (state value : String)
  | SetSamplerState (sampler : Nat) (state value : String)
  | SetStreamSource (stream vb offset stride : Nat)
  | SetIndices (ib : Nat)
  | DrawIndexedPrimitive (primitive_type BaseVertexIndex MinVertexIndex NumVertices
      startIndex primCount : Nat)
  | ShaderClass_Invalidate
  | GuardDestroy
  deriving DecidableEq, Repr

/-- The steps of `Render` from the guard to `Set_Texture (0, Texture)`: viewport,
identity transforms, the four 2D render states, the two dynamic buffers, the legacy
layout and the buffer bindings. -/
def render2DSetup (r : Render2DClass) : List Render2DEvent :=
  [.GuardConstruct "Render2DClass::Render",
   .Get_Device_Resolution,
   .SetViewport,
   .Set_World_Identity,
   .Set_View_Identity,
   .Set_Transform_Identity .D3DTS_PROJECTION,
   .Set_DX8_Render_State "D3DRS_ZENABLE" "FALSE",
   .Set_DX8_Render_State "D3DRS_ZWRITEENABLE" "FALSE",
   .Set_DX8_Render_State "D3DRS_LIGHTING" "FALSE",
   .Set_DX8_Render_State "D3DRS_CULLMODE" "D3DCULL_NONE",
   .FillDynamicVB 0x142 r.VerticesCount,
   .FillDynamicIB r.IndicesCount,
   .BindLayoutFVF 0x142 "Render2D",
   .Set_Vertex_Buffer,
   .Set_Index_Buffer 0 "Render2DClass::Render",
   .Set_Texture 0 r.Texture]

/-- The statement `if (IsGrayScale) { ... } else DX8Wrapper::Apply_Render_State_Changes ();`
of `Render`: the call of `Apply_Render_State_Changes` is the `else` branch, the line
`Set_Shader (Shader)` that used to stand there being commented out. -/
def render2DShaderStep (env : Render2DEnv) (r : Render2DClass) : List Render2DEvent :=
  if r.IsGrayScale then
    .Set_Shader "ShaderClass::_PresetOpaqueShader" ::
      (if env.Support_Dot3 then
        [.Set_DX8_Render_State "D3DRS_TEXTUREFACTOR" "0x80A5CA8E",
         .Set_DX8_Texture_Stage_State 0 "D3DTSS_COLORARG0" "D3DTA_TFACTOR | D3DTA_ALPHAREPLICATE",
         .Set_DX8_Texture_Stage_State 0 "D3DTSS_COLORARG1" "D3DTA_TEXTURE",
         .Set_DX8_Texture_Stage_State 0 "D3DTSS_COLORARG2" "D3DTA_TFACTOR | D3DTA_ALPHAREPLICATE",
         .Set_DX8_Texture_Stage_State 0 "D3DTSS_COLOROP" "D3DTOP_MULTIPLYADD",
         .Set_DX8_Texture_Stage_State 1 "D3DTSS_COLORARG1" "D3DTA_CURRENT",
         .Set_DX8_Texture_Stage_State 1 "D3DTSS_COLORARG2" "D3DTA_TFACTOR",
         .Set_DX8_Texture_Stage_State 1 "D3DTSS_COLOROP" "D3DTOP_DOTPRODUCT3"]
      else
        [.Set_DX8_Render_State "D3DRS_TEXTUREFACTOR" "0x60606060",
         .Set_DX8_Texture_Stage_State 0 "D3DTSS_COLORARG1" "D3DTA_TEXTURE",
         .Set_DX8_Texture_Stage_State 0 "D3DTSS_COLORARG2" "D3DTA_TFACTOR",
         .Set_DX8_Texture_Stage_State 0 "D3DTSS_COLOROP" "D3DTOP_MODULATE"])
  else [.Apply_Render_State_Changes]

/-- The direct-draw block of `Render`: shaders off, stage 0 set up for textured or
untextured drawing, blend and sampler states, then the stream, the indices and the
draw when both Direct3D buffers are present. -/
def render2DDirectDraw (env : Render2DEnv) (r : Render2DClass) : List Render2DEvent :=
  let hasTexture : Bool := decide (r.Texture ≠ 0 ∧ r.D3D_Texture ≠ 0)
  [.Set_Vertex_Shader 0, .Set_Pixel_Shader 0] ++
  (if hasTexture then [] else [.Set_Texture 0 0]) ++
  (if hasTexture then
    [.SetTexture 0 r.D3D_Texture,
     .SetTextureStageState 0 "D3DTSS_COLOROP" "D3DTOP_MODULATE",
     .SetTextureStageState 0 "D3DTSS_COLORARG1" "D3DTA_TEXTURE",
     .SetTextureStageState 0 "D3DTSS_COLORARG2" "D3DTA_DIFFUSE",
     .SetTextureStageState 0 "D3DTSS_ALPHAOP" "D3DTOP_MODULATE",
     .SetTextureStageState 0 "D3DTSS_ALPHAARG1" "D3DTA_TEXTURE",
     .SetTextureStageState 0 "D3DTSS_ALPHAARG2" "D3DTA_DIFFUSE"]
  else
    [.SetTextureStageState 0 "D3DTSS_COLOROP" "D3DTOP_SELECTARG1",
     .SetTextureStageState 0 "D3DTSS_COLORARG1" "D3DTA_DIFFUSE",
     .SetTextureStageState 0 "D3DTSS_ALPHAOP" "D3DTOP_SELECTARG1",
     .SetTextureStageState 0 "D3DTSS_ALPHAARG1" "D3DTA_DIFFUSE"]) ++
  [.SetTextureStageState 1 "D3DTSS_COLOROP" "D3DTOP_DISABLE",
   .SetTextureStageState 1 "D3DTSS_ALPHAOP" "D3DTOP_DISABLE",
   .Set_Texture 0 (if hasTexture then r.Texture else 0),
   .SetRenderState "D3DRS_ALPHABLENDENABLE" "TRUE",
   .SetRenderState "D3DRS_SRCBLEND" "D3DBLEND_SRCALPHA",
   .SetRenderState "D3DRS_DESTBLEND" "D3DBLEND_INVSRCALPHA",
   .SetSamplerState 0 "D3DSAMP_MINFILTER" "D3DTEXF_LINEAR",
   .SetSamplerState 0 "D3DSAMP_MAGFILTER" "D3DTEXF_LINEAR",
   .SetSamplerState 0 "D3DSAMP_ADDRESSU" "D3DTADDRESS_CLAMP",
   .SetSamplerState 0 "D3DSAMP_ADDRESSV" "D3DTADDRESS_CLAMP"] ++
  (if env.D3D_VB ≠ 0 ∧ env.D3D_IB ≠ 0 then
    [.SetStreamSource 0 env.D3D_VB ((env.VB_Offset * env.Stride) % 2 ^ 32) env.Stride,
     .SetIndices env.D3D_IB,
     .DrawIndexedPrimitive D3DPT_TRIANGLELIST 0 0 r.VerticesCount env.IB_Offset
       (r.IndicesCount / 3)]
  else [])

/-- Embedding of `Render2DClass::Render ()`: the calls it makes, in order. -/
def Render2DClass.Render (env : Render2DEnv) (r : Render2DClass) : List Render2DEvent :=
  if r.IndicesCount = 0 ∨ r.IsHidden then []
  else if env.device = false then []
  else
    render2DSetup r ++ render2DShaderStep env r ++ render2DDirectDraw env r ++
      (if r.IsGrayScale then [.ShaderClass_Invalidate] else []) ++ [.GuardDestroy]

/-- The steps the statement about `Render` speaks of: the two buffer bindings, the apply
pass and the draw. -/
def Render2DEvent.isKey : Render2DEvent → Bool
  | .Set_Vertex_Buffer => true
  | .Set_Index_Buffer _ _ => true
  | .Apply_Render_State_Changes => true
  | .DrawIndexedPrimitive _ _ _ _ _ _ => true
  | _ => false

/-! ## Concrete values used to run the definitions -/

/-- The record with every field null or zero, as a freshly constructed
`RenderStateStruct` has. -/
def initialRecord : RenderStateStruct where
  shader := 0
  Textures := fun _ => 0
  material := 0
  Lights := fun _ => 0
  LightEnable := fun _ => false
  world := 0
  view := 0
  vertex_buffers := fun _ => none
  vertex_buffer_types := fun _ => BufferType.BUFFER_TYPE_INVALID
  index_buffer := none
  index_buffer_type := BufferType.BUFFER_TYPE_INVALID
  vba_offset := 0
  vba_count := 0
  vba_fvf := 0
  vba_d3d_vb := 0
  iba_offset := 0
  index_base_offset := 0
  currentDecl := 0
  currentFVF := 0
  layoutOwner := none
  expectedFVF := 0
  expectedDecl := 0

/-- A device with every register modelled here null or zero. -/
def blankDevice : Device where
  fvf := 0
  decl := 0
  vertexShader := 0
  streams := fun _ => ⟨0, 0, 0⟩
  indices := 0

/-- A device on which a legacy format (XYZ, DIFFUSE, TEX1) is still set. -/
def fvfDevice : Device := { blankDevice with fvf := 0x142 }

/-- A device on which a structured layout (handle 7) is bound. -/
def declDevice : Device := { blankDevice with decl := 7 }

/-- One assignment of the constants: one bit per category in the order world, view,
four lights, eight texture stages, material, shader, vertex buffer, index buffer,
then the two identity bits; two streams; eight texture stages; vertex sizes of the
three formats the layout cache records (24, 44, 32 bytes). -/
def sampleConfig : Config where
  WORLD_CHANGED := 1 <<< 0
  VIEW_CHANGED := 1 <<< 1
  LIGHT0_CHANGED := 1 <<< 2
  LIGHTS_CHANGED := (1 <<< 2) ||| (1 <<< 3) ||| (1 <<< 4) ||| (1 <<< 5)
  TEXTURE0_CHANGED := 1 <<< 6
  MATERIAL_CHANGED := 1 <<< 14
  SHADER_CHANGED := 1 <<< 15
  VERTEX_BUFFER_CHANGED := 1 <<< 16
  INDEX_BUFFER_CHANGED := 1 <<< 17
  WORLD_IDENTITY := 1 <<< 18
  VIEW_IDENTITY := 1 <<< 19
  MAX_VERTEX_STREAMS := 2
  Max_Textures_Per_Pass := 8
  Get_FVF_Size := fun fvf =>
    if fvf = 0x142 then 24 else if fvf = 0x252 then 44 else if fvf = 0x242 then 32 else 0

/-- A wrapper on a blank device with the initial record and a clean mask. -/
def initialWrapper : DX8Wrapper where
  D3DDevice := some blankDevice
  render_state := initialRecord
  render_state_changed := 0
  calls := []

/-- A state with the vertex-buffer, index-buffer and both identity bits set. -/
def dirtyIdentityWrapper : DX8Wrapper :=
  { initialWrapper with
    render_state_changed :=
      sampleConfig.VERTEX_BUFFER_CHANGED ||| sampleConfig.INDEX_BUFFER_CHANGED |||
        sampleConfig.WORLD_IDENTITY ||| sampleConfig.VIEW_IDENTITY }

/-- An engine-owned vertex buffer of format XYZ, DIFFUSE, TEX1 (24 bytes a vertex). -/
def bufA : VertexBufferClass where
  type := BufferType.BUFFER_TYPE_DX8
  FVF := 0x142
  FVF_Size := 24
  VertexCount := 100
  d3d_vb := 11

/-- An engine-owned index buffer. -/
def ibA : IndexBufferClass where
  type := BufferType.BUFFER_TYPE_DX8
  d3d_ib := 22

/-- The initial state after `Set_Vertex_Buffer (bufA, 0)` and `Set_Index_Buffer (ibA, 0)`. -/
def buffersSetWrapper : DX8Wrapper :=
  Set_Index_Buffer sampleConfig (some ibA) 0
    (Set_Vertex_Buffer sampleConfig (some bufA) 0 initialWrapper)

/-- A dynamic vertex-buffer access of format 0x142 at vertex offset 10 whose
`Get_D3D_VB()` is null. -/
def vbaNoD3D : DynamicVBAccessClass where
  type := BufferType.BUFFER_TYPE_DYNAMIC_DX8
  FVF := 0x142
  VertexBufferOffset := 10
  VertexCount := 4
  VertexBuffer := bufA
  D3D_VB := 0

/-- The same access with a Direct3D buffer (handle 33). -/
def vbaD3D : DynamicVBAccessClass := { vbaNoD3D with D3D_VB := 33 }

/-- The initial record with only the vertex-buffer bit set, on a device that has a
structured layout bound. -/
def unresolvedWrapper : DX8Wrapper :=
  { initialWrapper with
    D3DDevice := some declDevice
    render_state_changed := sampleConfig.VERTEX_BUFFER_CHANGED }

/-- The state after binding legacy format 0x142, then layout 7 through
`BindLayoutDecl`, then a vertex buffer on stream 0: layout 7 is tracked, the device
still has legacy format 0x142, and the vertex-buffer bit is set. -/
def structuredWrapper : DX8Wrapper :=
  Set_Vertex_Buffer sampleConfig (some bufA) 0
    (BindLayoutDecl 7 none true (BindLayoutFVF sampleConfig 0x142 none initialWrapper))

/-- A sorting vertex buffer (CPU side, no Direct3D buffer) of 50 vertices. -/
def sortBuf : VertexBufferClass where
  type := BufferType.BUFFER_TYPE_SORTING
  FVF := 0x252
  FVF_Size := 44
  VertexCount := 50
  d3d_vb := 0

/-- The initial state after binding the sorting vertex buffer and the engine-owned
index buffer: mismatched buffer kinds. -/
def mismatchedWrapper : DX8Wrapper :=
  Set_Index_Buffer sampleConfig (some ibA) 0
    (Set_Vertex_Buffer sampleConfig (some sortBuf) 0 initialWrapper)

/-- The initial state after binding `bufA` (100 vertices) and the index buffer with
base vertex offset 100, so that no vertex remains after the base. -/
def exhaustedWrapper : DX8Wrapper :=
  Set_Index_Buffer sampleConfig (some ibA) 100
    (Set_Vertex_Buffer sampleConfig (some bufA) 0 initialWrapper)

/-- A state for the 2D guard: stream 0 bound to buffer 11 at offset 0 with stride 24,
index buffer 22, depth test and depth write on, lighting off, cull mode 3. -/
def sampleGuardWorld : GuardWorld :=
  { dev :=
      { blankDevice with
        fvf := 0x142
        streams := fun i => if i = 0 then ⟨11, 0, 24⟩ else ⟨0, 0, 0⟩
        indices := 22 }
    viewport := 7
    renderStates := fun st =>
      match st with
      | .D3DRS_ZENABLE => 1
      | .D3DRS_ZWRITEENABLE => 1
      | .D3DRS_LIGHTING => 0
      | .D3DRS_CULLMODE => 3
      | .other _ => 0
    textureStageStates := fun _ _ => 4
    transforms := fun ts =>
      match ts with
      | .D3DTS_WORLD => 101
      | .D3DTS_VIEW => 102
      | .D3DTS_PROJECTION => 103
    render_state := { initialRecord with currentFVF := 0x142 } }

/-- The state a 2D scope may leave behind: no stream, no index buffer, all four flags
changed, a structured layout bound. -/
def sampleGuardWorldAfter : GuardWorld :=
  { dev := { blankDevice with decl := 9 }
    viewport := 8
    renderStates := fun _ => 5
    textureStageStates := fun _ _ => 1
    transforms := fun _ => 0
    render_state := { initialRecord with currentDecl := 9 } }

/-- An initialised instance manager: available and enabled, instance buffer 31, shader
32, empty layout cache, two transforms collected. -/
def sampleManager : DX8InstanceManagerClass where
  m_available := true
  m_enabled := true
  m_instanceVB := 31
  m_instanceVS := 32
  m_declCache := fun _ => ⟨0, 0⟩
  m_declCacheCount := 0
  m_instanceBuffer := fun _ => ⟨⟨0, 0, 0, 0⟩, ⟨0, 0, 0, 0⟩, ⟨0, 0, 0, 0⟩⟩
  m_collectedCount := 2
  m_instancedDrawCalls := 0
  m_instancedMeshes := 0
  m_lastFrameInstancedDrawCalls := 0
  m_lastFrameInstancedMeshes := 0

/-- Two instance transforms (bit patterns of the floats). -/
def transformA : InstanceData := ⟨⟨1, 2, 3, 4⟩, ⟨5, 6, 7, 8⟩, ⟨9, 10, 11, 12⟩⟩

def transformB : InstanceData := ⟨⟨21, 22, 23, 24⟩, ⟨25, 26, 27, 28⟩, ⟨29, 30, 31, 32⟩⟩

/-- An environment in which layout creation yields handle 77, the lock succeeds, a light
environment is present, and the wrapper tracks the legacy format 0x142. -/
def sampleInstancingEnv : InstancingEnv where
  CreateVertexDeclaration := fun _ => some 77
  LockSucceeds := true
  Get_Light_Environment := true
  GetLightEnable := fun _ => false
  Get_Current_FVF := 0x142

/-- A triangle-list renderer of two triangles over four vertices. -/
def sampleRenderer : DX8PolygonRendererClass where
  index_offset := 0
  vertex_offset := 0
  index_count := 6
  min_vertex_index := 0
  vertex_index_range := 4
  strip := false

/-- A device with stream 0 bound to buffer 11 (stride 24), index buffer 22 and the
legacy format 0x142 set. -/
def boundDevice : Device :=
  { blankDevice with
    fvf := 0x142
    streams := fun i => if i = 0 then ⟨11, 0, 24⟩ else ⟨0, 0, 0⟩
    indices := 22 }

/-- A wrapper on `boundDevice`. -/
def boundWrapper : DX8Wrapper := { initialWrapper with D3DDevice := some boundDevice }

/-- A device with the same bindings but a zero legacy-format register (a structured
layout, handle 9, is bound). -/
def boundDeclDevice : Device :=
  { blankDevice with
    decl := 9
    streams := fun i => if i = 0 then ⟨11, 0, 24⟩ else ⟨0, 0, 0⟩
    indices := 22 }

/-- A wrapper on `boundDeclDevice`. -/
def boundDeclWrapper : DX8Wrapper := { initialWrapper with D3DDevice := some boundDeclDevice }

/-- An environment in which layout creation yields a handle that tells the element
lists apart by their length (100 plus the number of entries). -/
def countingEnv : InstancingEnv :=
  { sampleInstancingEnv with CreateVertexDeclaration := fun es => some (100 + es.length) }

/-- Seventeen format codes with 0 to 16 stream-0 elements: none, then XYZ, NORMAL,
DIFFUSE and SPECULAR added one by one, then texture counts 1 to 12. -/
def seventeenFormats : List Nat :=
  [0x000, 0x002, 0x012, 0x052, 0x0D2, 0x1D2, 0x2D2, 0x3D2, 0x4D2, 0x5D2, 0x6D2, 0x7D2,
   0x8D2, 0x9D2, 0xAD2, 0xBD2, 0xCD2]

/-- The state after `Set_Vertex_Buffer (vbaD3D)`: stream 0 holds a dynamic buffer at
vertex offset 10 with 4 vertices. -/
def dynamicStreamWrapper : DX8Wrapper :=
  Set_Vertex_Buffer_Dynamic sampleConfig vbaD3D initialWrapper

/-- Shadow arrays in which every render state and stage state is 1 and texture 5 is
bound on stage 0. -/
def sampleShadow : ShadowState where
  RenderStates := fun _ => 1
  TextureStageStates := fun _ _ => 1
  Textures := fun a => if a = 0 then 5 else 0
  DX8Transforms := fun _ => 9

/-- Eight texture stages; `ShaderClass::Invalidate` leaves the wrapper state alone and
`Release_Render_State` nulls the texture pointers of the record. -/
def sampleInvalidateEnv : InvalidateEnv where
  MAX_TEXTURE_STAGES := 8
  ShaderClass_Invalidate := fun w => w
  Release_Render_State := fun w =>
    { w with render_state := { w.render_state with Textures := fun _ => 0 } }

/-- A visible 2D renderer with one textured quad (4 vertices, 6 indices). -/
def sampleRender2D : Render2DClass where
  IndicesCount := 6
  VerticesCount := 4
  IsHidden := false
  IsGrayScale := false
  Texture := 5
  D3D_Texture := 50

/-- A present device with DOT3 support; the dynamic buffers are 33 and 44, the vertex
stride is 24, and the quad lies at vertex 10 and index 12. -/
def sampleRender2DEnv : Render2DEnv where
  device := true
  Support_Dot3 := true
  D3D_VB := 33
  D3D_IB := 44
  Stride := 24
  VB_Offset := 10
  IB_Offset := 12

/-! ## Layout-mode exclusivity -/

@[simp] theorem DX8CALL_render_state (c : DeviceCall) (w : DX8Wrapper) :
    (DX8CALL c w).render_state = w.render_state := rfl

@[simp] theorem DX8CALL_render_state_changed (c : DeviceCall) (w : DX8Wrapper) :
    (DX8CALL c w).render_state_changed = w.render_state_changed := rfl

@[simp] theorem DX8CALL_calls (c : DeviceCall) (w : DX8Wrapper) :
    (DX8CALL c w).calls = w.calls ++ [c] := rfl

@[simp] theorem DX8CALL_D3DDevice (c : DeviceCall) (w : DX8Wrapper) :
    (DX8CALL c w).D3DDevice = w.D3DDevice.map (fun d => d.exec c) := rfl

theorem LayoutCall.run_device (cfg : Config) (c : LayoutCall) (w : DX8Wrapper)
    (hdev : w.D3DDevice.isSome = true) : (c.run cfg w).D3DDevice.isSome = true := by
  obtain ⟨d, hd⟩ := Option.isSome_iff_exists.mp hdev
  cases c with
  | bindDecl decl owner hr =>
    simp only [LayoutCall.run, BindLayoutDecl, hd]
    by_cases h : w.render_state.currentDecl = decl ∧ w.render_state.currentFVF = 0
    · simp [h, hd]
    · cases hr <;> simp [h, hd]
  | bindFVF fvf owner =>
    simp only [LayoutCall.run, BindLayoutFVF, hd]
    by_cases h : fvf = 0
    · simp [h, hd]
    · simp [h, hd]
  | setDecl decl hr =>
    simp only [LayoutCall.run, Set_Vertex_Declaration, hd]
    by_cases h : decl ≠ 0 ∧ d.fvf ≠ 0
    · cases hr <;> simp [h, hd]
    · cases hr <;> simp [h, hd]

theorem LayoutCall.run_mode (cfg : Config) (c : LayoutCall) (w : DX8Wrapper)
    (hdev : w.D3DDevice.isSome = true) (hok : c.succeeds = true) (hw : notBoth w) :
    notBoth (c.run cfg w) ∧ (neither (c.run cfg w) → c.isClear = true) := by
  obtain ⟨d, hd⟩ := Option.isSome_iff_exists.mp hdev
  unfold notBoth neither at *
  cases c with
  | bindDecl decl owner hr =>
    simp only [LayoutCall.succeeds] at hok
    subst hok
    simp only [LayoutCall.run, BindLayoutDecl, hd, LayoutCall.isClear]
    by_cases h : w.render_state.currentDecl = decl ∧ w.render_state.currentFVF = 0
    · obtain ⟨h1, h2⟩ := h
      simp [h1, h2]
    · simp [h]
  | bindFVF fvf owner =>
    simp only [LayoutCall.run, BindLayoutFVF, hd, LayoutCall.isClear]
    by_cases h : fvf = 0
    · simp only [h, if_true, decide_True, implies_true, and_true]
      exact hw
    · simp [h]
  | setDecl decl hr =>
    simp only [LayoutCall.succeeds] at hok
    subst hok
    simp only [LayoutCall.run, Set_Vertex_Declaration, hd, LayoutCall.isClear]
    by_cases h : decl ≠ 0 ∧ d.fvf ≠ 0
    · simp [h]
    · simp [h]

theorem runLayoutCalls_inv (cfg : Config) (cs : List LayoutCall) (w : DX8Wrapper)
    (hdev : w.D3DDevice.isSome = true) (hok : ∀ x ∈ cs, x.succeeds = true)
    (hw : notBoth w) :
    (runLayoutCalls cfg cs w).D3DDevice.isSome = true ∧ notBoth (runLayoutCalls cfg cs w) := by
  induction cs generalizing w with
  | nil => exact ⟨hdev, hw⟩
  | cons c cs ih =>
    have hc : c.succeeds = true := hok c (List.mem_cons_self c cs)
    have hrest : ∀ x ∈ cs, x.succeeds = true := fun x hx => hok x (List.mem_cons_of_mem c hx)
    exact ih (c.run cfg w) (LayoutCall.run_device cfg c w hdev) hrest
      (LayoutCall.run_mode cfg c w hdev hc hw).1

/-- C1. After every call of any sequence of `BindLayoutDecl`, `BindLayoutFVF` and
`Set_Vertex_Declaration` calls on a present device with the device calls succeeding,
started from a record that tracks no layout or one layout (the initial record tracks
none), the tracked structured handle and the tracked legacy format are never both
set, and they are both unset only if that call was an explicit clear request. -/
theorem layout_mode_exclusive (cfg : Config) (w : DX8Wrapper) (cs : List LayoutCall)
    (c : LayoutCall) (hdev : w.D3DDevice.isSome = true) (hstart : notBoth w)
    (hok : ∀ x ∈ cs ++ [c], x.succeeds = true) :
    notBoth (runLayoutCalls cfg (cs ++ [c]) w) ∧
      (neither (runLayoutCalls cfg (cs ++ [c]) w) → c.isClear = true) := by
  have hpre : ∀ x ∈ cs, x.succeeds = true := fun x hx => hok x (List.mem_append_left _ hx)
  have hc : c.succeeds = true := hok c (List.mem_append_right _ (List.mem_singleton_self c))
  obtain ⟨hd, hn⟩ := runLayoutCalls_inv cfg cs w hdev hpre hstart
  have hrun : runLayoutCalls cfg (cs ++ [c]) w = c.run cfg (runLayoutCalls cfg cs w) := by
    simp [runLayoutCalls, List.foldl_append]
  rw [hrun]
  exact LayoutCall.run_mode cfg c _ hd hc hn

/-- Witness for C1: clear, bind a legacy format, bind a layout, clear again, all from
the initial record on a blank device. -/
theorem layout_mode_exclusive_witness :
    initialWrapper.D3DDevice.isSome = true ∧ notBoth initialWrapper ∧
    notBoth (runLayoutCalls sampleConfig
      ([LayoutCall.bindFVF 0 none, LayoutCall.bindFVF 0x142 none,
        LayoutCall.setDecl 7 true] ++ [LayoutCall.bindDecl 0 none true]) initialWrapper) ∧
    (neither (runLayoutCalls sampleConfig
      ([LayoutCall.bindFVF 0 none, LayoutCall.bindFVF 0x142 none,
        LayoutCall.setDecl 7 true] ++ [LayoutCall.bindDecl 0 none true]) initialWrapper) →
      (LayoutCall.bindDecl 0 none true).isClear = true) :=
  ⟨rfl, by simp [notBoth, initialWrapper, initialRecord],
    layout_mode_exclusive sampleConfig initialWrapper
      [LayoutCall.bindFVF 0 none, LayoutCall.bindFVF 0x142 none, LayoutCall.setDecl 7 true]
      (LayoutCall.bindDecl 0 none true) rfl
      (by simp [notBoth, initialWrapper, initialRecord])
      (by simp [LayoutCall.succeeds])⟩

/-! ## `BindLayoutFVF` -/

/-- C3, the code at the failing input: `BindLayoutFVF` with legacy format 0 returns at
its first test and changes nothing, whatever the state: no register is cleared, the
tracked layout stays and the mask is not touched. -/
theorem bindLayoutFVF_zero_ignored (cfg : Config) (owner : Option String) (w : DX8Wrapper) :
    BindLayoutFVF cfg 0 owner w = w := by
  simp [BindLayoutFVF]

/-- C3 at a concrete state: after legacy format 0x142 was bound on a device, a call
with format 0 leaves the tracked format, the device's legacy-format register and the
clean mask as they were and issues no call. -/
theorem bindLayoutFVF_zero_concrete :
    (BindLayoutFVF sampleConfig 0 none
        (BindLayoutFVF sampleConfig 0x142 none initialWrapper)).render_state.currentFVF
      = 0x142 ∧
    (BindLayoutFVF sampleConfig 0 none
        (BindLayoutFVF sampleConfig 0x142 none initialWrapper)).D3DDevice.map
      (fun d => d.fvf) = some 0x142 ∧
    (BindLayoutFVF sampleConfig 0 none
        (BindLayoutFVF sampleConfig 0x142 none initialWrapper)).render_state_changed = 0 ∧
    (BindLayoutFVF sampleConfig 0 none
        (BindLayoutFVF sampleConfig 0x142 none initialWrapper)).calls =
      (BindLayoutFVF sampleConfig 0x142 none initialWrapper).calls := by
  refine ⟨rfl, rfl, rfl, rfl⟩

/-- Counterexample to C4 as stated: binding legacy format 0x142 on a clean record
leaves the vertex-buffer bit of the mask clear. -/
theorem bindLayoutFVF_not_dirty :
    (BindLayoutFVF sampleConfig 0x142 none initialWrapper).render_state_changed &&&
      sampleConfig.VERTEX_BUFFER_CHANGED = 0 := by
  rfl

/-- C4, amended. On a present device, `BindLayoutFVF` with a non-zero legacy format
`f` leaves the tracked structured handle null and the tracked legacy format equal to
`f`, records the owner, and leaves the dirty mask as it was. -/
theorem bindLayoutFVF_tracks (cfg : Config) (w : DX8Wrapper) (f : Nat)
    (owner : Option String) (hdev : w.D3DDevice.isSome = true) (hf : f ≠ 0) :
    (BindLayoutFVF cfg f owner w).render_state.currentDecl = 0 ∧
    (BindLayoutFVF cfg f owner w).render_state.currentFVF = f ∧
    (BindLayoutFVF cfg f owner w).render_state.layoutOwner = owner ∧
    (BindLayoutFVF cfg f owner w).render_state_changed = w.render_state_changed := by
  obtain ⟨d, hd⟩ := Option.isSome_iff_exists.mp hdev
  simp [BindLayoutFVF, hd, hf]

/-- Witness for C4: format 0x142 bound from the initial state. -/
theorem bindLayoutFVF_tracks_witness :
    (BindLayoutFVF sampleConfig 0x142 (some "Render2D") initialWrapper).render_state.currentDecl
      = 0 ∧
    (BindLayoutFVF sampleConfig 0x142 (some "Render2D") initialWrapper).render_state.currentFVF
      = 0x142 ∧
    (BindLayoutFVF sampleConfig 0x142 (some "Render2D") initialWrapper).render_state.layoutOwner
      = some "Render2D" ∧
    (BindLayoutFVF sampleConfig 0x142 (some "Render2D") initialWrapper).render_state_changed
      = initialWrapper.render_state_changed :=
  bindLayoutFVF_tracks sampleConfig initialWrapper 0x142 (some "Render2D") rfl (by decide)

/-! ## The apply pass as a list of calls -/

@[simp] theorem emitAll_nil (w : DX8Wrapper) : emitAll [] w = w := rfl

@[simp] theorem emitAll_cons (c : DeviceCall) (L : List DeviceCall) (w : DX8Wrapper) :
    emitAll (c :: L) w = emitAll L (DX8CALL c w) := rfl

theorem emitAll_append (L1 L2 : List DeviceCall) (w : DX8Wrapper) :
    emitAll (L1 ++ L2) w = emitAll L2 (emitAll L1 w) := by
  simp [emitAll, List.foldl_append]

@[simp] theorem emitAll_render_state (L : List DeviceCall) (w : DX8Wrapper) :
    (emitAll L w).render_state = w.render_state := by
  induction L generalizing w with
  | nil => rfl
  | cons c L ih => simp [ih]

@[simp] theorem emitAll_render_state_changed (L : List DeviceCall) (w : DX8Wrapper) :
    (emitAll L w).render_state_changed = w.render_state_changed := by
  induction L generalizing w with
  | nil => rfl
  | cons c L ih => simp [ih]

@[simp] theorem emitAll_calls (L : List DeviceCall) (w : DX8Wrapper) :
    (emitAll L w).calls = w.calls ++ L := by
  induction L generalizing w with
  | nil => simp
  | cons c L ih => simp [ih]

@[simp] theorem emitAll_D3DDevice (L : List DeviceCall) (w : DX8Wrapper) :
    (emitAll L w).D3DDevice = w.D3DDevice.map (fun d => L.foldl Device.exec d) := by
  induction L generalizing w with
  | nil => simp
  | cons c L ih => simp [ih, Option.map_map, Function.comp_def]

theorem applyShader_eq (cfg : Config) (w : DX8Wrapper) :
    applyShader cfg w = emitAll (shaderCalls cfg w.render_state w.render_state_changed) w := by
  unfold applyShader shaderCalls
  by_cases h : w.render_state_changed &&& cfg.SHADER_CHANGED ≠ 0 <;> simp [h]

theorem applyTexture_eq (i mask : Nat) (w : DX8Wrapper) :
    applyTexture i mask w =
      emitAll (textureCall w.render_state w.render_state_changed i mask) w := by
  unfold applyTexture textureCall
  by_cases h : w.render_state_changed &&& mask ≠ 0
  · by_cases h2 : w.render_state.Textures i ≠ 0 <;> simp [h, h2]
  · simp [h]

theorem applyTextures_eq (n i mask : Nat) (w : DX8Wrapper) :
    applyTextures n i mask w =
      emitAll (textureCalls w.render_state w.render_state_changed n i mask) w := by
  induction n generalizing i mask w with
  | zero => rfl
  | succ n ih =>
    simp only [applyTextures, textureCalls, emitAll_append]
    rw [ih, applyTexture_eq]
    simp

theorem applyMaterial_eq (cfg : Config) (w : DX8Wrapper) :
    applyMaterial cfg w =
      emitAll (materialCalls cfg w.render_state w.render_state_changed) w := by
  unfold applyMaterial materialCalls
  by_cases h : w.render_state_changed &&& cfg.MATERIAL_CHANGED ≠ 0
  · by_cases h2 : w.render_state.material ≠ 0 <;> simp [h, h2]
  · simp [h]

theorem applyLight_eq (index lmask : Nat) (w : DX8Wrapper) :
    applyLight index lmask w =
      emitAll (lightCall w.render_state w.render_state_changed index lmask) w := by
  unfold applyLight lightCall
  by_cases h : w.render_state_changed &&& lmask ≠ 0
  · by_cases h2 : w.render_state.LightEnable index = true <;> simp [h, h2]
  · simp [h]

theorem applyLightLoop_eq (n index lmask : Nat) (w : DX8Wrapper) :
    applyLightLoop n index lmask w =
      emitAll (lightLoopCalls w.render_state w.render_state_changed n index lmask) w := by
  induction n generalizing index lmask w with
  | zero => rfl
  | succ n ih =>
    simp only [applyLightLoop, lightLoopCalls, emitAll_append]
    rw [ih, applyLight_eq]
    simp

theorem applyLights_eq (cfg : Config) (w : DX8Wrapper) :
    applyLights cfg w = emitAll (lightCalls cfg w.render_state w.render_state_changed) w := by
  unfold applyLights lightCalls
  by_cases h : w.render_state_changed &&& cfg.LIGHTS_CHANGED ≠ 0
  · rw [if_pos h, if_pos h]
    exact applyLightLoop_eq 4 0 cfg.LIGHT0_CHANGED w
  · simp [h]

theorem applyTransforms_eq (cfg : Config) (w : DX8Wrapper) :
    applyTransforms cfg w =
      emitAll (transformCalls cfg w.render_state w.render_state_changed) w := by
  unfold applyTransforms transformCalls
  by_cases h : w.render_state_changed &&& cfg.WORLD_CHANGED ≠ 0 <;>
    by_cases h2 : w.render_state_changed &&& cfg.VIEW_CHANGED ≠ 0 <;> simp [h, h2]

theorem applyLayout_eq (w : DX8Wrapper) :
    applyLayout w = emitAll (layoutCalls w.render_state) w := by
  obtain ⟨dev, rs, m, calls⟩ := w
  by_cases h : rs.currentDecl ≠ 0
  · simp [applyLayout, layoutCalls, h]
  · have h0 : rs.currentDecl = 0 := by simpa using h
    cases rs
    simp only at h0
    subst h0
    simp only [applyLayout, layoutCalls, DX8CALL_render_state, ne_eq, not_true_eq_false,
      if_false, emitAll_cons]
    split_ifs <;> rfl

theorem bindStream_eq (cfg : Config) (s : Nat) (w : DX8Wrapper) :
    bindStream cfg s w = emitAll (streamCall cfg w.render_state s) w := by
  unfold bindStream streamCall
  cases hvb : w.render_state.vertex_buffers s with
  | none => simp
  | some vb =>
    cases ht : w.render_state.vertex_buffer_types s <;> simp only [emitAll_nil, emitAll_cons]
    split_ifs <;> rfl

theorem bindStreams_eq (cfg : Config) (n s : Nat) (w : DX8Wrapper) :
    bindStreams cfg n s w = emitAll (streamCalls cfg w.render_state n s) w := by
  induction n generalizing s w with
  | zero => rfl
  | succ n ih =>
    simp only [bindStreams, streamCalls, emitAll_append]
    rw [ih, bindStream_eq]
    simp

theorem applyVertexBuffers_eq (cfg : Config) (w : DX8Wrapper) :
    applyVertexBuffers cfg w =
      emitAll (vertexBufferCalls cfg w.render_state w.render_state_changed) w := by
  unfold applyVertexBuffers vertexBufferCalls
  by_cases h : w.render_state_changed &&& cfg.VERTEX_BUFFER_CHANGED ≠ 0
  · rw [if_pos h, if_pos h, emitAll_append, bindStreams_eq, applyLayout_eq]
    simp
  · simp [h]

theorem applyIndexBuffer_eq (cfg : Config) (w : DX8Wrapper) :
    applyIndexBuffer cfg w =
      emitAll (indexBufferCalls cfg w.render_state w.render_state_changed) w := by
  unfold applyIndexBuffer indexBufferCalls
  by_cases h : w.render_state_changed &&& cfg.INDEX_BUFFER_CHANGED ≠ 0
  · cases hib : w.render_state.index_buffer with
    | none => simp [h]
    | some ib =>
      by_cases h2 : w.render_state.index_buffer_type = BufferType.BUFFER_TYPE_DX8 ∨
          w.render_state.index_buffer_type = BufferType.BUFFER_TYPE_DYNAMIC_DX8 <;>
        simp [h, h2]
  · simp [h]

theorem applySections_eq (cfg : Config) (w : DX8Wrapper) :
    applySections cfg w =
      emitAll (sectionCalls cfg w.render_state w.render_state_changed) w := by
  unfold applySections sectionCalls
  rw [applyIndexBuffer_eq, applyVertexBuffers_eq, applyTransforms_eq, applyLights_eq,
    applyMaterial_eq, applyTextures_eq, applyShader_eq]
  simp [emitAll_append]

/-- What one apply pass does, in one equation: nothing on a zero mask; otherwise the
calls of the sections are issued and the mask keeps its identity bits. -/
theorem Apply_Render_State_Changes_eq (cfg : Config) (w : DX8Wrapper) :
    Apply_Render_State_Changes cfg w =
      if w.render_state_changed = 0 then w
      else
        { emitAll (applyCalls cfg w) w with
          render_state_changed :=
            w.render_state_changed &&& (cfg.WORLD_IDENTITY ||| cfg.VIEW_IDENTITY) } := by
  unfold Apply_Render_State_Changes applyCalls
  by_cases h : w.render_state_changed = 0
  · simp [h]
  · simp only [h, if_false]
    rw [applySections_eq]
    simp

theorem issued_self (w : DX8Wrapper) : issued w w = [] := by
  simp [issued]

theorem issued_emitAll (L : List DeviceCall) (w : DX8Wrapper) (m : Nat) :
    issued w { emitAll L w with render_state_changed := m } = L := by
  simp [issued]

/-- The calls issued by an apply pass are the list `applyCalls`. -/
theorem issued_Apply (cfg : Config) (w : DX8Wrapper) :
    issued w (Apply_Render_State_Changes cfg w) = applyCalls cfg w := by
  rw [Apply_Render_State_Changes_eq]
  by_cases h : w.render_state_changed = 0
  · simp [h, issued_self, applyCalls]
  · rw [if_neg h]
    exact issued_emitAll _ _ _

/-! ## The mask after an apply pass -/

theorem and_or_and_left (m a b : Nat) : (m &&& (a ||| b)) &&& a = m &&& a := by
  apply Nat.eq_of_testBit_eq
  intro i
  simp only [Nat.testBit_and, Nat.testBit_or]
  cases m.testBit i <;> cases a.testBit i <;> cases b.testBit i <;> rfl

theorem and_or_and_right (m a b : Nat) : (m &&& (a ||| b)) &&& b = m &&& b := by
  apply Nat.eq_of_testBit_eq
  intro i
  simp only [Nat.testBit_and, Nat.testBit_or]
  cases m.testBit i <;> cases a.testBit i <;> cases b.testBit i <;> rfl

theorem and_and_disjoint (m ident c : Nat) (h : ident &&& c = 0) : (m &&& ident) &&& c = 0 := by
  rw [Nat.and_assoc, h, Nat.and_zero]

/-- The mask after an apply pass. -/
theorem Apply_render_state_changed (cfg : Config) (w : DX8Wrapper) :
    (Apply_Render_State_Changes cfg w).render_state_changed =
      w.render_state_changed &&& (cfg.WORLD_IDENTITY ||| cfg.VIEW_IDENTITY) := by
  rw [Apply_Render_State_Changes_eq]
  by_cases h : w.render_state_changed = 0
  · simp [h]
  · simp [h]

/-- C5. After `Apply_Render_State_Changes` the dirty mask is the prior mask restricted
to the two identity bits, `m AND (WORLD_IDENTITY OR VIEW_IDENTITY)`, for every prior
mask `m` (zero or not): each identity bit keeps its prior value, and every bit pattern
that shares no bit with the identity bits, so every category bit, is cleared. -/
theorem apply_keeps_identity_bits (cfg : Config) (w : DX8Wrapper) :
    (Apply_Render_State_Changes cfg w).render_state_changed =
        w.render_state_changed &&& (cfg.WORLD_IDENTITY ||| cfg.VIEW_IDENTITY) ∧
    (Apply_Render_State_Changes cfg w).render_state_changed &&& cfg.WORLD_IDENTITY =
        w.render_state_changed &&& cfg.WORLD_IDENTITY ∧
    (Apply_Render_State_Changes cfg w).render_state_changed &&& cfg.VIEW_IDENTITY =
        w.render_state_changed &&& cfg.VIEW_IDENTITY ∧
    ∀ c, (cfg.WORLD_IDENTITY ||| cfg.VIEW_IDENTITY) &&& c = 0 →
      (Apply_Render_State_Changes cfg w).render_state_changed &&& c = 0 := by
  have hm := Apply_render_state_changed cfg w
  refine ⟨hm, ?_, ?_, ?_⟩
  · rw [hm, and_or_and_left]
  · rw [hm, and_or_and_right]
  · intro c hc
    rw [hm]
    exact and_and_disjoint _ _ _ hc

/-! ## A second apply pass -/

theorem textureCalls_eq_nil (rs : RenderStateStruct) (m n i mask : Nat)
    (h : ∀ k, k < n → m &&& loopBit mask k = 0) : textureCalls rs m n i mask = [] := by
  induction n generalizing i mask with
  | zero => rfl
  | succ n ih =>
    have h0 : m &&& mask = 0 := h 0 (Nat.succ_pos n)
    have hrest : ∀ k, k < n → m &&& loopBit ((mask <<< 1) % 2 ^ 32) k = 0 :=
      fun k hk => h (k + 1) (Nat.succ_lt_succ hk)
    rw [textureCalls, ih _ _ hrest, textureCall, if_neg (by simp [h0])]
    rfl

theorem sectionCalls_identity (cfg : Config) (hdisj : cfg.identityDisjoint)
    (rs : RenderStateStruct) (m : Nat) :
    sectionCalls cfg rs (m &&& (cfg.WORLD_IDENTITY ||| cfg.VIEW_IDENTITY)) = [] := by
  obtain ⟨hsh, htex, hmat, hli, hwo, hvi, hvb, hib⟩ := hdisj
  have e1 := and_and_disjoint m _ _ hsh
  have e2 := and_and_disjoint m _ _ hmat
  have e3 := and_and_disjoint m _ _ hli
  have e4 := and_and_disjoint m _ _ hwo
  have e5 := and_and_disjoint m _ _ hvi
  have e6 := and_and_disjoint m _ _ hvb
  have e7 := and_and_disjoint m _ _ hib
  have e8 : textureCalls rs (m &&& (cfg.WORLD_IDENTITY ||| cfg.VIEW_IDENTITY))
      cfg.Max_Textures_Per_Pass 0 cfg.TEXTURE0_CHANGED = [] :=
    textureCalls_eq_nil rs _ _ 0 _ (fun k hk => and_and_disjoint m _ _ (htex k hk))
  simp [sectionCalls, shaderCalls, materialCalls, lightCalls, transformCalls,
    vertexBufferCalls, indexBufferCalls, e1, e2, e3, e4, e5, e6, e7, e8]

/-- C6. An `Apply_Render_State_Changes` call that immediately follows another one
returns the state it was given: it issues no call and leaves the device, the record
and the dirty mask unchanged, also when identity bits remain set in the mask. The
identity bits are assumed to share no bit with the bits an apply pass tests. -/
theorem apply_twice_is_noop (cfg : Config) (hdisj : cfg.identityDisjoint) (w : DX8Wrapper) :
    Apply_Render_State_Changes cfg (Apply_Render_State_Changes cfg w) =
        Apply_Render_State_Changes cfg w ∧
    issued (Apply_Render_State_Changes cfg w)
        (Apply_Render_State_Changes cfg (Apply_Render_State_Changes cfg w)) = [] := by
  have hm := Apply_render_state_changed cfg w
  have hcalls : applyCalls cfg (Apply_Render_State_Changes cfg w) = [] := by
    unfold applyCalls
    split_ifs
    · rfl
    · rw [hm]
      exact sectionCalls_identity cfg hdisj _ _
  have hfix : Apply_Render_State_Changes cfg (Apply_Render_State_Changes cfg w) =
      Apply_Render_State_Changes cfg w := by
    generalize hw1 : Apply_Render_State_Changes cfg w = w1 at hm hcalls
    rw [Apply_Render_State_Changes_eq, hcalls]
    by_cases h0 : w1.render_state_changed = 0
    · simp [h0]
    · rw [if_neg h0]
      have hmm : w1.render_state_changed &&& (cfg.WORLD_IDENTITY ||| cfg.VIEW_IDENTITY) =
          w1.render_state_changed := by
        rw [hm, Nat.and_assoc, Nat.and_self]
      rw [hmm]
      rfl
  refine ⟨hfix, ?_⟩
  rw [hfix]
  exact issued_self _

/-- The sample constants keep the identity bits apart from every tested bit. -/
theorem sampleConfig_identityDisjoint : sampleConfig.identityDisjoint := by
  refine ⟨by decide, ?_, by decide, by decide, by decide, by decide, by decide, by decide⟩
  intro k hk
  have hk8 : k < 8 := hk
  interval_cases k <;> decide

/-- Witness for C6: the second pass is a no-op although the identity bits stay set. -/
theorem apply_twice_is_noop_witness :
    sampleConfig.identityDisjoint ∧
    (Apply_Render_State_Changes sampleConfig dirtyIdentityWrapper).render_state_changed ≠ 0 ∧
    (Apply_Render_State_Changes sampleConfig
        (Apply_Render_State_Changes sampleConfig dirtyIdentityWrapper) =
      Apply_Render_State_Changes sampleConfig dirtyIdentityWrapper ∧
    issued (Apply_Render_State_Changes sampleConfig dirtyIdentityWrapper)
        (Apply_Render_State_Changes sampleConfig
          (Apply_Render_State_Changes sampleConfig dirtyIdentityWrapper)) = []) :=
  ⟨sampleConfig_identityDisjoint, by decide,
    apply_twice_is_noop sampleConfig sampleConfig_identityDisjoint dirtyIdentityWrapper⟩

/-! ## Order of the calls of an apply pass -/

theorem loopBit_succ (b k : Nat) : loopBit ((b <<< 1) % 2 ^ 32) k = loopBit b (k + 1) := rfl

/-- The bit tested at iteration `k` is the start bit shifted left `k` times in 32 bits;
for the lights it is the bit `LIGHT0_CHANGED << index` that `Set_Light` sets. -/
theorem loopBit_eq (b k : Nat) (hb : b < 2 ^ 32) : loopBit b k = (b <<< k) % 2 ^ 32 := by
  induction k generalizing b with
  | zero =>
    rw [loopBit, Nat.shiftLeft_zero, Nat.mod_eq_of_lt hb]
  | succ k ih =>
    rw [loopBit, ih _ (Nat.mod_lt _ (by norm_num))]
    simp only [Nat.shiftLeft_eq]
    rw [Nat.mod_mul_mod, pow_succ]
    ring_nf

/-- Every call of the texture loop is the call of one stage `i + k`, `k < n`, whose bit
is set. -/
theorem mem_textureCalls (rs : RenderStateStruct) (m n i mask : Nat) (c : DeviceCall)
    (hc : c ∈ textureCalls rs m n i mask) :
    ∃ k, k < n ∧ m &&& loopBit mask k ≠ 0 ∧
      (c = .TextureApply (i + k) (rs.Textures (i + k)) ∨ c = .TextureApplyNull (i + k)) := by
  induction n generalizing i mask with
  | zero => simp [textureCalls] at hc
  | succ n ih =>
    rw [textureCalls, List.mem_append] at hc
    rcases hc with hc | hc
    · refine ⟨0, Nat.succ_pos n, ?_⟩
      unfold textureCall at hc
      by_cases h : m &&& mask ≠ 0
      · rw [if_pos h] at hc
        refine ⟨h, ?_⟩
        by_cases h2 : rs.Textures i ≠ 0
        · rw [if_pos h2] at hc
          left
          simpa using hc
        · rw [if_neg h2] at hc
          right
          simpa using hc
      · rw [if_neg h] at hc
        simp at hc
    · obtain ⟨k, hk, hbit, hform⟩ := ih (i + 1) _ hc
      refine ⟨k + 1, Nat.succ_lt_succ hk, hbit, ?_⟩
      have e : i + (k + 1) = i + 1 + k := by omega
      rw [e]
      exact hform

theorem pairwise_textureCalls (rs : RenderStateStruct) (m n i mask : Nat) :
    (textureCalls rs m n i mask).Pairwise DeviceCall.before := by
  induction n generalizing i mask with
  | zero => simp [textureCalls]
  | succ n ih =>
    rw [textureCalls, List.pairwise_append]
    refine ⟨?_, ih _ _, ?_⟩
    · unfold textureCall
      split_ifs <;> simp
    · intro a ha b hb
      obtain ⟨k, _, _, hform⟩ := mem_textureCalls rs m n (i + 1) _ b hb
      have hbi : b.category = 1 ∧ b.index = i + 1 + k := by
        rcases hform with h | h <;> subst h <;> exact ⟨rfl, rfl⟩
      have hai : a.category = 1 ∧ a.index = i := by
        unfold textureCall at ha
        split_ifs at ha <;> simp at ha <;> subst ha <;> exact ⟨rfl, rfl⟩
      right
      exact ⟨by rw [hai.1, hbi.1], by rw [hai.2, hbi.2]; omega⟩

/-- Every call of the light loop is the call of one light `i + k`, `k < n`, whose bit is
set. -/
theorem mem_lightLoopCalls (rs : RenderStateStruct) (m n i lmask : Nat) (c : DeviceCall)
    (hc : c ∈ lightLoopCalls rs m n i lmask) :
    ∃ k light, k < n ∧ m &&& loopBit lmask k ≠ 0 ∧ c = .Set_DX8_Light (i + k) light := by
  induction n generalizing i lmask with
  | zero => simp [lightLoopCalls] at hc
  | succ n ih =>
    rw [lightLoopCalls, List.mem_append] at hc
    rcases hc with hc | hc
    · unfold lightCall at hc
      by_cases h : m &&& lmask ≠ 0
      · rw [if_pos h] at hc
        by_cases h2 : rs.LightEnable i = true
        · rw [if_pos h2] at hc
          exact ⟨0, _, Nat.succ_pos n, h, by simpa using hc⟩
        · rw [if_neg h2] at hc
          exact ⟨0, _, Nat.succ_pos n, h, by simpa using hc⟩
      · rw [if_neg h] at hc
        simp at hc
    · obtain ⟨k, light, hk, hbit, hform⟩ := ih (i + 1) _ hc
      refine ⟨k + 1, light, Nat.succ_lt_succ hk, hbit, ?_⟩
      have e : i + (k + 1) = i + 1 + k := by omega
      rw [e]
      exact hform

theorem pairwise_lightLoopCalls (rs : RenderStateStruct) (m n i lmask : Nat) :
    (lightLoopCalls rs m n i lmask).Pairwise DeviceCall.before := by
  induction n generalizing i lmask with
  | zero => simp [lightLoopCalls]
  | succ n ih =>
    rw [lightLoopCalls, List.pairwise_append]
    refine ⟨?_, ih _ _, ?_⟩
    · unfold lightCall
      split_ifs <;> simp
    · intro a ha b hb
      obtain ⟨k, light, _, _, hform⟩ := mem_lightLoopCalls rs m n (i + 1) _ b hb
      have hai : a.category = 3 ∧ a.index = i := by
        unfold lightCall at ha
        split_ifs at ha <;> simp at ha <;> subst ha <;> exact ⟨rfl, rfl⟩
      subst hform
      right
      exact ⟨hai.1, by rw [hai.2]; show i < i + 1 + k; omega⟩

/-- Every call of the stream loop binds one stream `s + k`, `k < n`. -/
theorem mem_streamCalls (cfg : Config) (rs : RenderStateStruct) (n s : Nat) (c : DeviceCall)
    (hc : c ∈ streamCalls cfg rs n s) :
    ∃ k vb off stride, k < n ∧ c = .SetStreamSource (s + k) vb off stride := by
  induction n generalizing s with
  | zero => simp [streamCalls] at hc
  | succ n ih =>
    rw [streamCalls, List.mem_append] at hc
    rcases hc with hc | hc
    · unfold streamCall at hc
      split at hc
      · exact ⟨0, _, _, _, Nat.succ_pos n, by simpa using hc⟩
      · split at hc
        · exact ⟨0, _, _, _, Nat.succ_pos n, by simpa using hc⟩
        · split_ifs at hc
          · exact ⟨0, _, _, _, Nat.succ_pos n, by simpa using hc⟩
          · simp at hc
        · simp at hc
    · obtain ⟨k, vb, off, stride, hk, hform⟩ := ih (s + 1) hc
      refine ⟨k + 1, vb, off, stride, Nat.succ_lt_succ hk, ?_⟩
      have e : s + (k + 1) = s + 1 + k := by omega
      rw [e]
      exact hform

theorem pairwise_streamCalls (cfg : Config) (rs : RenderStateStruct) (n s : Nat) :
    (streamCalls cfg rs n s).Pairwise DeviceCall.before := by
  induction n generalizing s with
  | zero => simp [streamCalls]
  | succ n ih =>
    rw [streamCalls, List.pairwise_append]
    refine ⟨?_, ih _, ?_⟩
    · unfold streamCall
      split
      · simp
      · split
        · simp
        · split_ifs <;> simp
        all_goals simp
    · intro a ha b hb
      obtain ⟨k, vb, off, stride, _, hform⟩ := mem_streamCalls cfg rs n (s + 1) b hb
      obtain ⟨k0, vb0, off0, stride0, hk0, hform0⟩ :=
        mem_streamCalls cfg rs 1 s a (by simpa [streamCalls] using ha)
      have hk00 : k0 = 0 := by omega
      subst hform hform0 hk00
      right
      exact ⟨rfl, by show s + 0 < s + 1 + k; omega⟩

theorem ordered_append (l1 l2 : List DeviceCall) (lo1 hi1 lo2 hi2 : Nat)
    (h1 : ∀ c ∈ l1, lo1 ≤ c.category ∧ c.category ≤ hi1) (p1 : l1.Pairwise DeviceCall.before)
    (h2 : ∀ c ∈ l2, lo2 ≤ c.category ∧ c.category ≤ hi2) (p2 : l2.Pairwise DeviceCall.before)
    (hlt : hi1 < lo2) (hlo : lo1 ≤ lo2) (hhi : hi1 ≤ hi2) :
    (∀ c ∈ l1 ++ l2, lo1 ≤ c.category ∧ c.category ≤ hi2) ∧
      (l1 ++ l2).Pairwise DeviceCall.before := by
  constructor
  · intro c hc
    rcases List.mem_append.mp hc with h | h
    · exact ⟨(h1 c h).1, le_trans (h1 c h).2 hhi⟩
    · exact ⟨le_trans hlo (h2 c h).1, (h2 c h).2⟩
  · rw [List.pairwise_append]
    refine ⟨p1, p2, ?_⟩
    intro a ha b hb
    left
    exact lt_of_le_of_lt (h1 a ha).2 (lt_of_lt_of_le hlt (h2 b hb).1)

theorem shaderCalls_ok (cfg : Config) (rs : RenderStateStruct) (m : Nat) :
    (∀ c ∈ shaderCalls cfg rs m, (0 ≤ c.category ∧ c.category ≤ 0) ∧ c.gated cfg m) ∧
      (shaderCalls cfg rs m).Pairwise DeviceCall.before := by
  unfold shaderCalls
  by_cases h : m &&& cfg.SHADER_CHANGED ≠ 0
  · rw [if_pos h]
    refine ⟨?_, by simp⟩
    intro c hc
    have e : c = .ShaderApply rs.shader := by simpa using hc
    subst e
    exact ⟨⟨le_refl _, le_refl _⟩, h⟩
  · rw [if_neg h]
    simp

theorem textureCalls_ok (cfg : Config) (rs : RenderStateStruct) (m : Nat) :
    (∀ c ∈ textureCalls rs m cfg.Max_Textures_Per_Pass 0 cfg.TEXTURE0_CHANGED,
        (1 ≤ c.category ∧ c.category ≤ 1) ∧ c.gated cfg m) ∧
      (textureCalls rs m cfg.Max_Textures_Per_Pass 0 cfg.TEXTURE0_CHANGED).Pairwise
        DeviceCall.before := by
  refine ⟨?_, pairwise_textureCalls _ _ _ _ _⟩
  intro c hc
  obtain ⟨k, hk, hbit, hform⟩ := mem_textureCalls rs m _ 0 _ c hc
  rw [Nat.zero_add] at hform
  rcases hform with h | h <;> subst h <;> exact ⟨⟨le_refl _, le_refl _⟩, hk, hbit⟩

theorem materialCalls_ok (cfg : Config) (rs : RenderStateStruct) (m : Nat) :
    (∀ c ∈ materialCalls cfg rs m, (2 ≤ c.category ∧ c.category ≤ 2) ∧ c.gated cfg m) ∧
      (materialCalls cfg rs m).Pairwise DeviceCall.before := by
  unfold materialCalls
  by_cases h : m &&& cfg.MATERIAL_CHANGED ≠ 0
  · rw [if_pos h]
    by_cases h2 : rs.material ≠ 0
    · rw [if_pos h2]
      refine ⟨?_, by simp⟩
      intro c hc
      have e : c = .MaterialApply rs.material := by simpa using hc
      subst e
      exact ⟨⟨le_refl _, le_refl _⟩, h⟩
    · rw [if_neg h2]
      refine ⟨?_, by simp⟩
      intro c hc
      have e : c = .MaterialApplyNull := by simpa using hc
      subst e
      exact ⟨⟨le_refl _, le_refl _⟩, h⟩
  · rw [if_neg h]
    simp

theorem lightCalls_ok (cfg : Config) (rs : RenderStateStruct) (m : Nat) :
    (∀ c ∈ lightCalls cfg rs m, (3 ≤ c.category ∧ c.category ≤ 3) ∧ c.gated cfg m) ∧
      (lightCalls cfg rs m).Pairwise DeviceCall.before := by
  unfold lightCalls
  by_cases h : m &&& cfg.LIGHTS_CHANGED ≠ 0
  · rw [if_pos h]
    refine ⟨?_, pairwise_lightLoopCalls _ _ _ _ _⟩
    intro c hc
    obtain ⟨k, light, hk, hbit, hform⟩ := mem_lightLoopCalls rs m 4 0 _ c hc
    rw [Nat.zero_add] at hform
    subst hform
    exact ⟨⟨le_refl _, le_refl _⟩, hk, h, hbit⟩
  · rw [if_neg h]
    simp

theorem transformCalls_ok (cfg : Config) (rs : RenderStateStruct) (m : Nat) :
    (∀ c ∈ transformCalls cfg rs m, (4 ≤ c.category ∧ c.category ≤ 5) ∧ c.gated cfg m) ∧
      (transformCalls cfg rs m).Pairwise DeviceCall.before := by
  unfold transformCalls
  by_cases h : m &&& cfg.WORLD_CHANGED ≠ 0 <;> by_cases h2 : m &&& cfg.VIEW_CHANGED ≠ 0
  · rw [if_pos h, if_pos h2]
    refine ⟨?_, ?_⟩
    · intro c hc
      have e : c = .Set_DX8_Transform .D3DTS_WORLD rs.world ∨
          c = .Set_DX8_Transform .D3DTS_VIEW rs.view := by simpa using hc
      rcases e with e | e <;> subst e
      · exact ⟨⟨le_refl _, show (4 : Nat) ≤ 5 by decide⟩, h⟩
      · exact ⟨⟨show (4 : Nat) ≤ 5 by decide, le_refl _⟩, h2⟩
    · simp [DeviceCall.before, DeviceCall.category]
  · rw [if_pos h, if_neg h2]
    refine ⟨?_, by simp⟩
    intro c hc
    have e : c = .Set_DX8_Transform .D3DTS_WORLD rs.world := by simpa using hc
    subst e
    exact ⟨⟨le_refl _, show (4 : Nat) ≤ 5 by decide⟩, h⟩
  · rw [if_neg h, if_pos h2]
    refine ⟨?_, by simp⟩
    intro c hc
    have e : c = .Set_DX8_Transform .D3DTS_VIEW rs.view := by simpa using hc
    subst e
    exact ⟨⟨show (4 : Nat) ≤ 5 by decide, le_refl _⟩, h2⟩
  · rw [if_neg h, if_neg h2]
    simp

theorem layoutCalls_ok (rs : RenderStateStruct) :
    (∀ c ∈ layoutCalls rs, c.category = 6 ∧
        (c = .SetVertexDeclaration rs.currentDecl ∨ c = .SetFVF 0 ∨
          (c = .Set_Vertex_Shader (resolveFVF rs) ∧ resolveFVF rs ≠ 0))) ∧
      (layoutCalls rs).Pairwise DeviceCall.before := by
  unfold layoutCalls
  by_cases h : rs.currentDecl ≠ 0
  · rw [if_pos h]
    refine ⟨?_, ?_⟩
    · intro c hc
      have e : c = .SetVertexDeclaration rs.currentDecl ∨ c = .SetFVF 0 := by simpa using hc
      rcases e with e | e <;> subst e
      · exact ⟨rfl, Or.inl rfl⟩
      · exact ⟨rfl, Or.inr (Or.inl rfl)⟩
    · simp [DeviceCall.before, DeviceCall.category, DeviceCall.index]
  · rw [if_neg h]
    have h0 : rs.currentDecl = 0 := by simpa using h
    by_cases h2 : resolveFVF rs ≠ 0
    · rw [if_pos h2]
      refine ⟨?_, ?_⟩
      · intro c hc
        have e : c = .SetVertexDeclaration 0 ∨ c = .Set_Vertex_Shader (resolveFVF rs) := by
          simpa using hc
        rcases e with e | e <;> subst e
        · exact ⟨rfl, Or.inl (by rw [h0])⟩
        · exact ⟨rfl, Or.inr (Or.inr ⟨rfl, h2⟩)⟩
      · simp [DeviceCall.before, DeviceCall.category, DeviceCall.index]
    · rw [if_neg h2]
      refine ⟨?_, by simp⟩
      intro c hc
      have e : c = .SetVertexDeclaration 0 := by simpa using hc
      subst e
      exact ⟨rfl, Or.inl (by rw [h0])⟩

theorem layoutCalls_gated (cfg : Config) (rs : RenderStateStruct) (m : Nat)
    (h : m &&& cfg.VERTEX_BUFFER_CHANGED ≠ 0) (c : DeviceCall) (hc : c ∈ layoutCalls rs) :
    c.gated cfg m := by
  rcases ((layoutCalls_ok rs).1 c hc).2 with e | e | ⟨e, _⟩ <;> subst e <;> exact h

theorem vertexBufferCalls_ok (cfg : Config) (rs : RenderStateStruct) (m : Nat) :
    (∀ c ∈ vertexBufferCalls cfg rs m, (6 ≤ c.category ∧ c.category ≤ 7) ∧ c.gated cfg m) ∧
      (vertexBufferCalls cfg rs m).Pairwise DeviceCall.before := by
  unfold vertexBufferCalls
  by_cases h : m &&& cfg.VERTEX_BUFFER_CHANGED ≠ 0
  · rw [if_pos h]
    have hl : ∀ c ∈ layoutCalls rs, 6 ≤ c.category ∧ c.category ≤ 6 := fun c hc => by
      rw [((layoutCalls_ok rs).1 c hc).1]
      exact ⟨le_refl _, le_refl _⟩
    have hs : ∀ c ∈ streamCalls cfg rs cfg.MAX_VERTEX_STREAMS 0,
        7 ≤ c.category ∧ c.category ≤ 7 := fun c hc => by
      obtain ⟨k, vb, off, stride, _, e⟩ := mem_streamCalls cfg rs _ 0 c hc
      subst e
      exact ⟨le_refl _, le_refl _⟩
    obtain ⟨hcat, hpw⟩ := ordered_append _ _ 6 6 7 7 hl (layoutCalls_ok rs).2 hs
      (pairwise_streamCalls cfg rs _ 0) (by decide) (by decide) (by decide)
    refine ⟨fun c hc => ⟨hcat c hc, ?_⟩, hpw⟩
    rcases List.mem_append.mp hc with hc | hc
    · exact layoutCalls_gated cfg rs m h c hc
    · obtain ⟨k, vb, off, stride, hk, e⟩ := mem_streamCalls cfg rs _ 0 c hc
      rw [Nat.zero_add] at e
      subst e
      exact ⟨hk, h⟩
  · rw [if_neg h]
    simp

theorem indexBufferCalls_ok (cfg : Config) (rs : RenderStateStruct) (m : Nat) :
    (∀ c ∈ indexBufferCalls cfg rs m, (8 ≤ c.category ∧ c.category ≤ 8) ∧ c.gated cfg m) ∧
      (indexBufferCalls cfg rs m).Pairwise DeviceCall.before := by
  unfold indexBufferCalls
  by_cases h : m &&& cfg.INDEX_BUFFER_CHANGED ≠ 0
  · rw [if_pos h]
    have key : ∀ ib, (∀ c ∈ [DeviceCall.SetIndices ib],
        (8 ≤ c.category ∧ c.category ≤ 8) ∧ c.gated cfg m) ∧
        ([DeviceCall.SetIndices ib]).Pairwise DeviceCall.before := by
      intro ib
      refine ⟨?_, by simp⟩
      intro c hc
      have e : c = .SetIndices ib := by simpa using hc
      subst e
      exact ⟨⟨le_refl _, le_refl _⟩, h⟩
    split
    · split_ifs
      · exact key _
      · exact key _
    · exact key _
  · rw [if_neg h]
    simp

theorem sectionCalls_ok (cfg : Config) (rs : RenderStateStruct) (m : Nat) :
    (∀ c ∈ sectionCalls cfg rs m, c.gated cfg m) ∧
      (sectionCalls cfg rs m).Pairwise DeviceCall.before := by
  have a0 := shaderCalls_ok cfg rs m
  have a1 := textureCalls_ok cfg rs m
  have a2 := materialCalls_ok cfg rs m
  have a3 := lightCalls_ok cfg rs m
  have a4 := transformCalls_ok cfg rs m
  have a5 := vertexBufferCalls_ok cfg rs m
  have a6 := indexBufferCalls_ok cfg rs m
  have b1 := ordered_append _ _ 0 0 1 1 (fun c hc => (a0.1 c hc).1) a0.2
    (fun c hc => (a1.1 c hc).1) a1.2 (by decide) (by decide) (by decide)
  have b2 := ordered_append _ _ 0 1 2 2 b1.1 b1.2
    (fun c hc => (a2.1 c hc).1) a2.2 (by decide) (by decide) (by decide)
  have b3 := ordered_append _ _ 0 2 3 3 b2.1 b2.2
    (fun c hc => (a3.1 c hc).1) a3.2 (by decide) (by decide) (by decide)
  have b4 := ordered_append _ _ 0 3 4 5 b3.1 b3.2
    (fun c hc => (a4.1 c hc).1) a4.2 (by decide) (by decide) (by decide)
  have b5 := ordered_append _ _ 0 5 6 7 b4.1 b4.2
    (fun c hc => (a5.1 c hc).1) a5.2 (by decide) (by decide) (by decide)
  have b6 := ordered_append _ _ 0 7 8 8 b5.1 b5.2
    (fun c hc => (a6.1 c hc).1) a6.2 (by decide) (by decide) (by decide)
  refine ⟨?_, b6.2⟩
  intro c hc
  unfold sectionCalls at hc
  simp only [List.mem_append] at hc
  rcases hc with (((((hc | hc) | hc) | hc) | hc) | hc) | hc
  · exact (a0.1 c hc).2
  · exact (a1.1 c hc).2
  · exact (a2.1 c hc).2
  · exact (a3.1 c hc).2
  · exact (a4.1 c hc).2
  · exact (a5.1 c hc).2
  · exact (a6.1 c hc).2

/-- C7. The calls one `Apply_Render_State_Changes` issues are strictly increasing in
(category, index): shader, textures by ascending stage, material, lights by ascending
index, world transform, view transform, vertex layout, stream bindings by ascending
stream, index buffer; so each stage, light and stream is visited at most once and in
order. Each call is issued only if its dirty bit is set in the mask the pass started
from: the category bit, the bit of the stage for a texture, and both `LIGHTS_CHANGED`
and its own bit for a light. -/
theorem apply_call_order (cfg : Config) (w : DX8Wrapper) :
    (Apply_Render_State_Changes cfg w).calls =
        w.calls ++ issued w (Apply_Render_State_Changes cfg w) ∧
    (issued w (Apply_Render_State_Changes cfg w)).Pairwise DeviceCall.before ∧
    ∀ c ∈ issued w (Apply_Render_State_Changes cfg w), c.gated cfg w.render_state_changed := by
  rw [issued_Apply]
  refine ⟨?_, ?_, ?_⟩
  · rw [Apply_Render_State_Changes_eq]
    by_cases h : w.render_state_changed = 0
    · simp [h, applyCalls]
    · simp [h]
  · unfold applyCalls
    by_cases h : w.render_state_changed = 0
    · simp [h]
    · rw [if_neg h]
      exact (sectionCalls_ok cfg _ _).2
  · unfold applyCalls
    by_cases h : w.render_state_changed = 0
    · simp [h]
    · rw [if_neg h]
      exact (sectionCalls_ok cfg _ _).1

/-! ## The end-to-end scenario: one vertex buffer, one index buffer -/

/-- Counterexample to C8 as stated: from the clean initial state, after
`Set_Vertex_Buffer (bufA, 0)` and `Set_Index_Buffer (ibA)`, one apply pass issues five
calls, not two: the declaration is nulled and the buffer's format set, both streams
are bound (stream 1 to null), then the index buffer. -/
theorem apply_after_setters_calls :
    issued buffersSetWrapper (Apply_Render_State_Changes sampleConfig buffersSetWrapper) =
      [DeviceCall.SetVertexDeclaration 0, DeviceCall.Set_Vertex_Shader 0x142,
        DeviceCall.SetStreamSource 0 11 0 24, DeviceCall.SetStreamSource 1 0 0 0,
        DeviceCall.SetIndices 22] ∧
    (issued buffersSetWrapper
      (Apply_Render_State_Changes sampleConfig buffersSetWrapper)).length ≠ 2 := by
  constructor
  · rfl
  · decide

theorem streamCalls_succ_index (cfg : Config) (rs : RenderStateStruct) (n s : Nat) :
    (∀ c ∈ streamCalls cfg rs n (s + 1), c.category = 7 ∧ 1 ≤ c.index) ∧
      (streamCalls cfg rs n (s + 1)).length ≤ n := by
  constructor
  · intro c hc
    obtain ⟨k, vb, off, stride, _, e⟩ := mem_streamCalls cfg rs n (s + 1) c hc
    subst e
    exact ⟨rfl, by show 1 ≤ s + 1 + k; omega⟩
  · generalize s + 1 = t
    induction n generalizing t with
    | zero => simp [streamCalls]
    | succ n ih =>
      rw [streamCalls, List.length_append]
      have h1 : (streamCall cfg rs t).length ≤ 1 := by
        unfold streamCall
        split
        · simp
        · split
          · simp
          · split_ifs <;> simp
          all_goals simp
      have h2 := ih (t + 1)
      omega

/-- C8, amended. From a clean record, after `Set_Vertex_Buffer (bufA, 0)` and
`Set_Index_Buffer (ibA)` with engine-owned buffers, one apply pass issues, in this
order: at least one layout call; exactly one bind of stream 0, with `bufA`'s Direct3D
buffer, byte offset 0 and stride equal to `bufA`'s declared format size; at most one
bind for each further stream; exactly one index-buffer bind, with `ibA`'s Direct3D
buffer. No call of another category is issued. The vertex-buffer and index-buffer bits
are assumed to be set bits apart from the other tested bits. -/
theorem apply_after_setters (cfg : Config) (hcfg : cfg.buffersDisjoint) (w : DX8Wrapper)
    (bA : VertexBufferClass) (iA : IndexBufferClass) (base : Nat)
    (hclean : w.render_state_changed = 0)
    (hA : bA.type = BufferType.BUFFER_TYPE_DX8) (hI : iA.type = BufferType.BUFFER_TYPE_DX8) :
    ∃ layout rest,
      issued (Set_Index_Buffer cfg (some iA) base (Set_Vertex_Buffer cfg (some bA) 0 w))
          (Apply_Render_State_Changes cfg
            (Set_Index_Buffer cfg (some iA) base (Set_Vertex_Buffer cfg (some bA) 0 w))) =
        layout ++ [DeviceCall.SetStreamSource 0 bA.d3d_vb 0 bA.FVF_Size] ++ rest ++
          [DeviceCall.SetIndices iA.d3d_ib] ∧
      layout ≠ [] ∧ (∀ c ∈ layout, c.category = 6) ∧
      (∀ c ∈ rest, c.category = 7 ∧ 1 ≤ c.index) ∧
      rest.length ≤ cfg.MAX_VERTEX_STREAMS - 1 := by
  obtain ⟨hsh, htex, hmat, hli, hwo, hvi, hvb, hib, hstreams⟩ := hcfg
  obtain ⟨n, hn⟩ : ∃ n, cfg.MAX_VERTEX_STREAMS = n + 1 := ⟨cfg.MAX_VERTEX_STREAMS - 1, by omega⟩
  generalize hw' : Set_Index_Buffer cfg (some iA) base (Set_Vertex_Buffer cfg (some bA) 0 w) = w'
  have hmask : w'.render_state_changed =
      cfg.VERTEX_BUFFER_CHANGED ||| cfg.INDEX_BUFFER_CHANGED := by
    rw [← hw']
    simp [Set_Index_Buffer, Set_Vertex_Buffer, hclean]
  have hvb0 : w'.render_state.vertex_buffers 0 = some bA := by
    rw [← hw']
    simp [Set_Index_Buffer, Set_Vertex_Buffer]
  have hty0 : w'.render_state.vertex_buffer_types 0 = BufferType.BUFFER_TYPE_DX8 := by
    rw [← hw']
    simp [Set_Index_Buffer, Set_Vertex_Buffer, hA]
  have hibuf : w'.render_state.index_buffer = some iA := by
    rw [← hw']
    simp [Set_Index_Buffer, Set_Vertex_Buffer]
  have hibty : w'.render_state.index_buffer_type = BufferType.BUFFER_TYPE_DX8 := by
    rw [← hw']
    simp [Set_Index_Buffer, Set_Vertex_Buffer, hI]
  have hne : w'.render_state_changed ≠ 0 := by
    rw [hmask]
    intro h0
    rw [h0] at hvb
    simp at hvb
  have htexnil : textureCalls w'.render_state
      (cfg.VERTEX_BUFFER_CHANGED ||| cfg.INDEX_BUFFER_CHANGED)
      cfg.Max_Textures_Per_Pass 0 cfg.TEXTURE0_CHANGED = [] :=
    textureCalls_eq_nil _ _ _ 0 _ htex
  have hstream0 : streamCall cfg w'.render_state 0 =
      [DeviceCall.SetStreamSource 0 bA.d3d_vb 0 bA.FVF_Size] := by
    simp [streamCall, hvb0, hty0]
  have hcalls : applyCalls cfg w' =
      layoutCalls w'.render_state ++ [DeviceCall.SetStreamSource 0 bA.d3d_vb 0 bA.FVF_Size] ++
        streamCalls cfg w'.render_state n (0 + 1) ++ [DeviceCall.SetIndices iA.d3d_ib] := by
    unfold applyCalls
    rw [if_neg hne, hmask]
    unfold sectionCalls
    rw [htexnil]
    simp only [shaderCalls, materialCalls, lightCalls, transformCalls, vertexBufferCalls,
      indexBufferCalls, hsh, hmat, hli, hwo, hvi, ne_eq, not_true_eq_false, if_false,
      List.nil_append, List.append_nil]
    rw [if_pos hvb, if_pos hib, hn, streamCalls, hstream0, hibuf]
    simp [hibty]
  refine ⟨layoutCalls w'.render_state, streamCalls cfg w'.render_state n (0 + 1), ?_, ?_, ?_,
    ?_, ?_⟩
  · rw [issued_Apply, hcalls]
  · unfold layoutCalls
    split_ifs <;> simp
  · exact fun c hc => ((layoutCalls_ok _).1 c hc).1
  · exact (streamCalls_succ_index cfg _ n 0).1
  · rw [hn]
    exact (streamCalls_succ_index cfg _ n 0).2

/-- The sample constants keep the two buffer bits apart from the other tested bits. -/
theorem sampleConfig_buffersDisjoint : sampleConfig.buffersDisjoint := by
  refine ⟨by decide, ?_, by decide, by decide, by decide, by decide, by decide, by decide,
    by decide⟩
  intro k hk
  have hk8 : k < 8 := hk
  interval_cases k <;> decide

/-- Witness for C8: the scenario run from the initial state with the sample buffers. -/
theorem apply_after_setters_witness :
    sampleConfig.buffersDisjoint ∧ initialWrapper.render_state_changed = 0 ∧
    bufA.type = BufferType.BUFFER_TYPE_DX8 ∧ ibA.type = BufferType.BUFFER_TYPE_DX8 ∧
    ∃ layout rest,
      issued (Set_Index_Buffer sampleConfig (some ibA) 0
            (Set_Vertex_Buffer sampleConfig (some bufA) 0 initialWrapper))
          (Apply_Render_State_Changes sampleConfig
            (Set_Index_Buffer sampleConfig (some ibA) 0
              (Set_Vertex_Buffer sampleConfig (some bufA) 0 initialWrapper))) =
        layout ++ [DeviceCall.SetStreamSource 0 bufA.d3d_vb 0 bufA.FVF_Size] ++ rest ++
          [DeviceCall.SetIndices ibA.d3d_ib] ∧
      layout ≠ [] ∧ (∀ c ∈ layout, c.category = 6) ∧
      (∀ c ∈ rest, c.category = 7 ∧ 1 ≤ c.index) ∧
      rest.length ≤ sampleConfig.MAX_VERTEX_STREAMS - 1 :=
  ⟨sampleConfig_buffersDisjoint, rfl, rfl, rfl,
    apply_after_setters sampleConfig sampleConfig_buffersDisjoint initialWrapper bufA ibA 0
      rfl rfl rfl⟩

/-! ## Stream bindings -/

theorem filter_isStream_of_category (s : Nat) (L : List DeviceCall)
    (h : ∀ c ∈ L, c.category ≠ 7) : L.filter (DeviceCall.isStream s) = [] := by
  rw [List.filter_eq_nil_iff]
  intro c hc hst
  apply h c hc
  cases c <;> first | rfl | simp [DeviceCall.isStream] at hst

theorem filter_streamCall (cfg : Config) (rs : RenderStateStruct) (s t : Nat) :
    (streamCall cfg rs t).filter (DeviceCall.isStream s) =
      if t = s then streamCall cfg rs t else [] := by
  have key : ∀ c ∈ streamCall cfg rs t, ∃ vb off stride, c = .SetStreamSource t vb off stride := by
    intro c hc
    obtain ⟨k, vb, off, stride, hk, e⟩ :=
      mem_streamCalls cfg rs 1 t c (by simpa [streamCalls] using hc)
    have hk0 : k = 0 := by omega
    subst hk0
    exact ⟨vb, off, stride, e⟩
  by_cases hts : t = s
  · rw [if_pos hts, List.filter_eq_self]
    intro c hc
    obtain ⟨vb, off, stride, e⟩ := key c hc
    subst e
    simp [DeviceCall.isStream, hts]
  · rw [if_neg hts, List.filter_eq_nil_iff]
    intro c hc
    obtain ⟨vb, off, stride, e⟩ := key c hc
    subst e
    simp [DeviceCall.isStream, hts]

theorem filter_streamCalls (cfg : Config) (rs : RenderStateStruct) (n t s : Nat) :
    (streamCalls cfg rs n t).filter (DeviceCall.isStream s) =
      if t ≤ s ∧ s < t + n then streamCall cfg rs s else [] := by
  induction n generalizing t with
  | zero =>
    have : ¬ (t ≤ s ∧ s < t + 0) := by omega
    simp [streamCalls, this]
  | succ n ih =>
    rw [streamCalls, List.filter_append, filter_streamCall, ih]
    by_cases hts : t = s
    · subst hts
      have h1 : ¬ (t + 1 ≤ t ∧ t < t + 1 + n) := by omega
      have h2 : t ≤ t ∧ t < t + (n + 1) := by omega
      simp [h1, h2]
    · by_cases h3 : t + 1 ≤ s ∧ s < t + 1 + n
      · have h4 : t ≤ s ∧ s < t + (n + 1) := by omega
        simp [hts, h3, h4]
      · have h4 : ¬ (t ≤ s ∧ s < t + (n + 1)) := by omega
        simp [hts, h3, h4]

/-- Among the calls of an apply pass whose vertex-buffer bit is set, the binds of
stream `s` are the calls of the loop body for `s`. -/
theorem filter_isStream_issued (cfg : Config) (w : DX8Wrapper) (s : Nat)
    (hdirty : w.render_state_changed &&& cfg.VERTEX_BUFFER_CHANGED ≠ 0)
    (hs : s < cfg.MAX_VERTEX_STREAMS) :
    (issued w (Apply_Render_State_Changes cfg w)).filter (DeviceCall.isStream s) =
      streamCall cfg w.render_state s := by
  have hne : w.render_state_changed ≠ 0 := by
    intro h0
    rw [h0] at hdirty
    simp at hdirty
  have cat : ∀ (L : List DeviceCall) (lo hi : Nat),
      (∀ c ∈ L, (lo ≤ c.category ∧ c.category ≤ hi) ∧ c.gated cfg w.render_state_changed) →
      (hi < 7 ∨ 7 < lo) → L.filter (DeviceCall.isStream s) = [] := by
    intro L lo hi h hr
    apply filter_isStream_of_category
    intro c hc h7
    have := (h c hc).1
    omega
  have hlay : (layoutCalls w.render_state).filter (DeviceCall.isStream s) = [] :=
    filter_isStream_of_category s _ (fun c hc => by
      rw [((layoutCalls_ok _).1 c hc).1]
      decide)
  rw [issued_Apply]
  unfold applyCalls
  rw [if_neg hne]
  unfold sectionCalls
  simp only [List.filter_append]
  rw [cat _ 0 0 (shaderCalls_ok cfg _ _).1 (Or.inl (by decide)),
    cat _ 1 1 (textureCalls_ok cfg _ _).1 (Or.inl (by decide)),
    cat _ 2 2 (materialCalls_ok cfg _ _).1 (Or.inl (by decide)),
    cat _ 3 3 (lightCalls_ok cfg _ _).1 (Or.inl (by decide)),
    cat _ 4 5 (transformCalls_ok cfg _ _).1 (Or.inl (by decide)),
    cat _ 8 8 (indexBufferCalls_ok cfg _ _).1 (Or.inr (by decide))]
  unfold vertexBufferCalls
  rw [if_pos hdirty, List.filter_append, hlay, filter_streamCalls]
  have hin : 0 ≤ s ∧ s < 0 + cfg.MAX_VERTEX_STREAMS := by omega
  rw [if_pos hin]
  simp

/-- Counterexample to C9 as stated: after `Set_Vertex_Buffer` with a dynamic access of
format 0x142 whose Direct3D buffer is null, stream 0 holds a dynamic buffer with a
recorded non-zero format, yet the apply pass issues no bind for stream 0. -/
theorem dynamic_stream_without_d3d_not_bound :
    (Set_Vertex_Buffer_Dynamic sampleConfig vbaNoD3D initialWrapper).render_state.vertex_buffer_types 0
      = BufferType.BUFFER_TYPE_DYNAMIC_DX8 ∧
    (Set_Vertex_Buffer_Dynamic sampleConfig vbaNoD3D initialWrapper).render_state.vba_fvf
      = 0x142 ∧
    (issued (Set_Vertex_Buffer_Dynamic sampleConfig vbaNoD3D initialWrapper)
        (Apply_Render_State_Changes sampleConfig
          (Set_Vertex_Buffer_Dynamic sampleConfig vbaNoD3D initialWrapper))).filter
      (DeviceCall.isStream 0) = [] := by
  refine ⟨rfl, rfl, ?_⟩
  decide

/-- C9, amended. In an apply pass whose vertex-buffer bit is set, for every stream `s`
below `MAX_VERTEX_STREAMS` the binds of stream `s` are: for a stream without a buffer,
exactly `(s, null, 0, 0)`; for an engine-owned buffer (`BUFFER_TYPE_DX8`), exactly one
bind of its Direct3D buffer at byte offset 0 with stride equal to the buffer's own format
size; for a dynamic buffer (`BUFFER_TYPE_DYNAMIC_DX8`) with a recorded non-zero format
and a recorded non-null Direct3D buffer, exactly one bind of that buffer with stride
equal to the byte size of the recorded format and byte offset `vba_offset` times that
stride as a 32-bit product, which is the exact product when both factors are below
`2 ^ 16`; for a dynamic buffer whose recorded format is zero or whose recorded
Direct3D buffer is null, none. -/
theorem stream_binding (cfg : Config) (w : DX8Wrapper) (s : Nat)
    (hdirty : w.render_state_changed &&& cfg.VERTEX_BUFFER_CHANGED ≠ 0)
    (hs : s < cfg.MAX_VERTEX_STREAMS) :
    (w.render_state.vertex_buffers s = none →
      (issued w (Apply_Render_State_Changes cfg w)).filter (DeviceCall.isStream s) =
        [DeviceCall.SetStreamSource s 0 0 0]) ∧
    (∀ vb, w.render_state.vertex_buffers s = some vb →
      w.render_state.vertex_buffer_types s = BufferType.BUFFER_TYPE_DX8 →
      (issued w (Apply_Render_State_Changes cfg w)).filter (DeviceCall.isStream s) =
        [DeviceCall.SetStreamSource s vb.d3d_vb 0 vb.FVF_Size]) ∧
    (∀ vb, w.render_state.vertex_buffers s = some vb →
      w.render_state.vertex_buffer_types s = BufferType.BUFFER_TYPE_DYNAMIC_DX8 →
      w.render_state.vba_fvf ≠ 0 → w.render_state.vba_d3d_vb ≠ 0 →
      (issued w (Apply_Render_State_Changes cfg w)).filter (DeviceCall.isStream s) =
          [DeviceCall.SetStreamSource s w.render_state.vba_d3d_vb
            ((w.render_state.vba_offset * cfg.Get_FVF_Size w.render_state.vba_fvf) % 2 ^ 32)
            (cfg.Get_FVF_Size w.render_state.vba_fvf)] ∧
        (w.render_state.vba_offset < 2 ^ 16 →
          cfg.Get_FVF_Size w.render_state.vba_fvf < 2 ^ 16 →
          (w.render_state.vba_offset * cfg.Get_FVF_Size w.render_state.vba_fvf) % 2 ^ 32 =
            w.render_state.vba_offset * cfg.Get_FVF_Size w.render_state.vba_fvf)) ∧
    (∀ vb, w.render_state.vertex_buffers s = some vb →
      w.render_state.vertex_buffer_types s = BufferType.BUFFER_TYPE_DYNAMIC_DX8 →
      (w.render_state.vba_fvf = 0 ∨ w.render_state.vba_d3d_vb = 0) →
      (issued w (Apply_Render_State_Changes cfg w)).filter (DeviceCall.isStream s) = []) := by
  rw [filter_isStream_issued cfg w s hdirty hs]
  refine ⟨?_, ?_, ?_, ?_⟩
  · intro h
    simp [streamCall, h]
  · intro vb h ht
    simp [streamCall, h, ht]
  · intro vb h ht hf hd
    refine ⟨by simp [streamCall, h, ht, hf, hd], ?_⟩
    intro ho hsz
    apply Nat.mod_eq_of_lt
    calc w.render_state.vba_offset * cfg.Get_FVF_Size w.render_state.vba_fvf
        < 2 ^ 16 * 2 ^ 16 := Nat.mul_lt_mul'' ho hsz
      _ = 2 ^ 32 := by norm_num
  · intro vb h ht hz
    rcases hz with hz | hz <;> simp [streamCall, h, ht, hz]

/-- Witness for C9: a dynamic access of format 0x142 (24 bytes a vertex) at vertex
offset 10 with Direct3D buffer 33 is bound at byte offset 240 with stride 24. -/
theorem stream_binding_witness :
    (Set_Vertex_Buffer_Dynamic sampleConfig vbaD3D initialWrapper).render_state_changed &&&
        sampleConfig.VERTEX_BUFFER_CHANGED ≠ 0 ∧
    0 < sampleConfig.MAX_VERTEX_STREAMS ∧
    (issued (Set_Vertex_Buffer_Dynamic sampleConfig vbaD3D initialWrapper)
        (Apply_Render_State_Changes sampleConfig
          (Set_Vertex_Buffer_Dynamic sampleConfig vbaD3D initialWrapper))).filter
      (DeviceCall.isStream 0) = [DeviceCall.SetStreamSource 0 33 240 24] :=
  ⟨by decide, by decide,
    ((stream_binding sampleConfig (Set_Vertex_Buffer_Dynamic sampleConfig vbaD3D initialWrapper)
      0 (by decide) (by decide)).2.2.1 bufA rfl rfl (by decide) (by decide)).1⟩

/-! ## The unresolved-layout path -/

theorem exec_layout_free (d : Device) (c : DeviceCall) (h : c.category ≠ 6) :
    (d.exec c).decl = d.decl ∧ (d.exec c).fvf = d.fvf := by
  cases c <;> first | exact ⟨rfl, rfl⟩ | exact absurd rfl h

theorem foldl_exec_layout_free (L : List DeviceCall) (d : Device)
    (h : ∀ c ∈ L, c.category ≠ 6) :
    (L.foldl Device.exec d).decl = d.decl ∧ (L.foldl Device.exec d).fvf = d.fvf := by
  induction L generalizing d with
  | nil => exact ⟨rfl, rfl⟩
  | cons c L ih =>
    have hc := exec_layout_free d c (h c (List.mem_cons_self c L))
    have hL := ih (d.exec c) (fun x hx => h x (List.mem_cons_of_mem c hx))
    rw [List.foldl_cons]
    exact ⟨hL.1.trans hc.1, hL.2.trans hc.2⟩

/-- In a pass whose vertex-buffer bit is set, the layout calls are preceded and
followed by calls of other categories only. -/
theorem applyCalls_split (cfg : Config) (w : DX8Wrapper)
    (hdirty : w.render_state_changed &&& cfg.VERTEX_BUFFER_CHANGED ≠ 0) :
    ∃ pre post, applyCalls cfg w = pre ++ layoutCalls w.render_state ++ post ∧
      (∀ c ∈ pre, c.category ≠ 6) ∧ (∀ c ∈ post, c.category ≠ 6) := by
  have hne : w.render_state_changed ≠ 0 := by
    intro h0
    rw [h0] at hdirty
    simp at hdirty
  refine ⟨shaderCalls cfg w.render_state w.render_state_changed ++
      textureCalls w.render_state w.render_state_changed cfg.Max_Textures_Per_Pass 0
        cfg.TEXTURE0_CHANGED ++
      materialCalls cfg w.render_state w.render_state_changed ++
      lightCalls cfg w.render_state w.render_state_changed ++
      transformCalls cfg w.render_state w.render_state_changed,
    streamCalls cfg w.render_state cfg.MAX_VERTEX_STREAMS 0 ++
      indexBufferCalls cfg w.render_state w.render_state_changed, ?_, ?_, ?_⟩
  · unfold applyCalls
    rw [if_neg hne]
    unfold sectionCalls vertexBufferCalls
    rw [if_pos hdirty]
    simp
  · intro c hc
    simp only [List.mem_append] at hc
    rcases hc with (((hc | hc) | hc) | hc) | hc
    · have := ((shaderCalls_ok cfg _ _).1 c hc).1
      omega
    · have := ((textureCalls_ok cfg _ _).1 c hc).1
      omega
    · have := ((materialCalls_ok cfg _ _).1 c hc).1
      omega
    · have := ((lightCalls_ok cfg _ _).1 c hc).1
      omega
    · have := ((transformCalls_ok cfg _ _).1 c hc).1
      omega
  · intro c hc
    rcases List.mem_append.mp hc with hc | hc
    · obtain ⟨k, vb, off, stride, _, e⟩ := mem_streamCalls cfg _ _ 0 c hc
      subst e
      show (7 : Nat) ≠ 6
      decide
    · have := ((indexBufferCalls_ok cfg _ _).1 c hc).1
      omega

/-- With no tracked layout and no format from stream 0, the fixed-function path
resolves to format 0. -/
theorem resolveFVF_eq_zero (rs : RenderStateStruct) (hfvf : rs.currentFVF = 0)
    (hengine : ∀ vb, rs.vertex_buffers 0 = some vb →
      rs.vertex_buffer_types 0 = BufferType.BUFFER_TYPE_DX8 → vb.FVF = 0)
    (hdynamic : ¬ ((rs.vertex_buffer_types 0 = BufferType.BUFFER_TYPE_DYNAMIC_DX8 ∨
      rs.vertex_buffer_types 0 = BufferType.BUFFER_TYPE_DYNAMIC_SORTING) ∧ rs.vba_fvf ≠ 0)) :
    resolveFVF rs = 0 := by
  unfold resolveFVF
  simp only [hfvf, if_true]
  have h1 : (match rs.vertex_buffers 0 with
      | some vb0 =>
          if rs.vertex_buffer_types 0 = BufferType.BUFFER_TYPE_DX8 then vb0.FVF else 0
      | none => 0) = 0 := by
    cases hvb : rs.vertex_buffers 0 with
    | none => rfl
    | some vb =>
      by_cases ht : rs.vertex_buffer_types 0 = BufferType.BUFFER_TYPE_DX8
      · simp [ht, hengine vb hvb ht]
      · simp [ht]
  rw [h1]
  simp only [if_true]
  rw [if_neg hdynamic]

/-- Counterexample to C10 as stated: the device has structured layout 7 bound, the
record tracks no layout and stream 0 supplies no format; the apply pass issues
`SetVertexDeclaration (null)` and the device's structured-layout register goes from 7
to null. -/
theorem unresolved_layout_nulls_declaration :
    unresolvedWrapper.D3DDevice.map (fun d => d.decl) = some 7 ∧
    issued unresolvedWrapper (Apply_Render_State_Changes sampleConfig unresolvedWrapper) =
      [DeviceCall.SetVertexDeclaration 0, DeviceCall.SetStreamSource 0 0 0 0,
        DeviceCall.SetStreamSource 1 0 0 0] ∧
    (Apply_Render_State_Changes sampleConfig unresolvedWrapper).D3DDevice.map
      (fun d => d.decl) = some 0 := by
  refine ⟨rfl, ?_, ?_⟩
  · decide
  · rfl

/-- C10, amended. When an apply pass processes a dirty vertex-buffer category and no
layout can be resolved (no structured handle tracked, tracked legacy format 0, stream 0
not an engine-owned buffer with a format, no dynamic-buffer format), it issues no call
that sets the legacy-format register, so that register keeps its value; it does issue
`SetVertexDeclaration (null)`, so the device's structured-layout register ends null. -/
theorem unresolved_layout (cfg : Config) (w : DX8Wrapper) (d : Device)
    (hd : w.D3DDevice = some d)
    (hdirty : w.render_state_changed &&& cfg.VERTEX_BUFFER_CHANGED ≠ 0)
    (hdecl : w.render_state.currentDecl = 0) (hfvf : w.render_state.currentFVF = 0)
    (hengine : ∀ vb, w.render_state.vertex_buffers 0 = some vb →
      w.render_state.vertex_buffer_types 0 = BufferType.BUFFER_TYPE_DX8 → vb.FVF = 0)
    (hdynamic : ¬ ((w.render_state.vertex_buffer_types 0 = BufferType.BUFFER_TYPE_DYNAMIC_DX8 ∨
        w.render_state.vertex_buffer_types 0 = BufferType.BUFFER_TYPE_DYNAMIC_SORTING) ∧
      w.render_state.vba_fvf ≠ 0)) :
    (∀ c ∈ issued w (Apply_Render_State_Changes cfg w), c.setsFVF = false) ∧
    DeviceCall.SetVertexDeclaration 0 ∈ issued w (Apply_Render_State_Changes cfg w) ∧
    (Apply_Render_State_Changes cfg w).D3DDevice.map (fun x => (x.decl, x.fvf)) =
      some (0, d.fvf) := by
  have hne : w.render_state_changed ≠ 0 := by
    intro h0
    rw [h0] at hdirty
    simp at hdirty
  have hres := resolveFVF_eq_zero w.render_state hfvf hengine hdynamic
  have hlay : layoutCalls w.render_state = [DeviceCall.SetVertexDeclaration 0] := by
    simp [layoutCalls, hdecl, hres]
  obtain ⟨pre, post, hsplit0, hpre, hpost⟩ := applyCalls_split cfg w hdirty
  have hsplit : applyCalls cfg w = pre ++ DeviceCall.SetVertexDeclaration 0 :: post := by
    rw [hsplit0, hlay]
    simp
  have hcat : ∀ c : DeviceCall, c.category ≠ 6 → c.setsFVF = false := by
    intro c hc
    cases c <;> first | rfl | exact absurd rfl hc
  rw [issued_Apply, hsplit]
  refine ⟨?_, by simp, ?_⟩
  · intro c hc
    rcases List.mem_append.mp hc with hc | hc
    · exact hcat c (hpre c hc)
    · rcases List.mem_cons.mp hc with hc | hc
      · subst hc
        rfl
      · exact hcat c (hpost c hc)
  · rw [Apply_Render_State_Changes_eq, if_neg hne]
    simp only [emitAll_D3DDevice, hd, Option.map_some', hsplit, List.foldl_append,
      List.foldl_cons]
    have h1 := foldl_exec_layout_free pre d hpre
    have h2 := foldl_exec_layout_free post
      ((List.foldl Device.exec d pre).exec (DeviceCall.SetVertexDeclaration 0)) hpost
    rw [h2.1, h2.2]
    simp [Device.exec, h1.2]

/-- Witness for C10: the initial record with the vertex-buffer bit set, on a device
that has layout 7 bound. -/
theorem unresolved_layout_witness :
    (∀ c ∈ issued unresolvedWrapper (Apply_Render_State_Changes sampleConfig unresolvedWrapper),
      c.setsFVF = false) ∧
    DeviceCall.SetVertexDeclaration 0 ∈
      issued unresolvedWrapper (Apply_Render_State_Changes sampleConfig unresolvedWrapper) ∧
    (Apply_Render_State_Changes sampleConfig unresolvedWrapper).D3DDevice.map
      (fun x => (x.decl, x.fvf)) = some (0, declDevice.fvf) :=
  unresolved_layout sampleConfig unresolvedWrapper declDevice rfl (by decide) rfl rfl
    (by intro vb h; exact absurd h (by simp [unresolvedWrapper, initialWrapper, initialRecord]))
    (by simp [unresolvedWrapper, initialWrapper, initialRecord])

/-! ## Device registers around a structured bind -/

/-- Counterexample to C2 as stated: after a legacy format was bound, `BindLayoutDecl`
binds layout 7 with one `SetVertexDeclaration` call and no `SetFVF` call, and the
device is left with the layout bound and the legacy format 0x142 still set. -/
theorem bindLayoutDecl_keeps_device_fvf :
    (BindLayoutDecl 7 none true
        (BindLayoutFVF sampleConfig 0x142 none initialWrapper)).calls =
      [DeviceCall.SetVertexShader 0, DeviceCall.SetVertexDeclaration 0,
        DeviceCall.SetFVF 0x142, DeviceCall.SetVertexDeclaration 7] ∧
    (BindLayoutDecl 7 none true
        (BindLayoutFVF sampleConfig 0x142 none initialWrapper)).D3DDevice.map
      (fun d => (d.decl, d.fvf)) = some (7, 0x142) := by
  constructor <;> rfl

/-- C2, amended. Binding a non-null layout on a present device:
`Set_Vertex_Declaration` zeroes a non-zero legacy-format register before its
`SetVertexDeclaration` call, issues nothing after it, and ends with the layout bound and
the register zero; `BindLayoutDecl`, when it does not return on its idempotency test,
issues the single call `SetVertexDeclaration`, leaves the legacy-format register as it
was and binds the layout; an apply pass with the vertex-buffer bit set and a tracked
layout ends with that layout bound and the legacy-format register zero. -/
theorem structured_bind_registers (cfg : Config) (w : DX8Wrapper) (d : Device) (decl : Nat)
    (owner : Option String) (hd : w.D3DDevice = some d) (hdecl : decl ≠ 0) :
    ((Set_Vertex_Declaration cfg decl true w).calls =
        w.calls ++ (if d.fvf ≠ 0 then [DeviceCall.SetFVF 0] else []) ++
          [DeviceCall.SetVertexDeclaration decl] ∧
      (Set_Vertex_Declaration cfg decl true w).D3DDevice.map (fun x => (x.decl, x.fvf)) =
        some (decl, 0)) ∧
    (¬ (w.render_state.currentDecl = decl ∧ w.render_state.currentFVF = 0) →
      (BindLayoutDecl decl owner true w).calls =
          w.calls ++ [DeviceCall.SetVertexDeclaration decl] ∧
        (BindLayoutDecl decl owner true w).D3DDevice.map (fun x => (x.decl, x.fvf)) =
          some (decl, d.fvf)) ∧
    (w.render_state.currentDecl = decl →
      w.render_state_changed &&& cfg.VERTEX_BUFFER_CHANGED ≠ 0 →
      (Apply_Render_State_Changes cfg w).D3DDevice.map (fun x => (x.decl, x.fvf)) =
        some (decl, 0)) := by
  refine ⟨?_, ?_, ?_⟩
  · simp only [Set_Vertex_Declaration, hd]
    by_cases h : d.fvf ≠ 0
    · simp [hdecl, h, hd, Device.exec]
    · have h0 : d.fvf = 0 := by simpa using h
      simp [hdecl, h0, hd, Device.exec]
  · intro hidem
    simp only [BindLayoutDecl, hd]
    simp [hidem, hd, Device.exec]
  · intro hcur hdirty
    have hne : w.render_state_changed ≠ 0 := by
      intro h0
      rw [h0] at hdirty
      simp at hdirty
    obtain ⟨pre, post, hsplit, hpre, hpost⟩ := applyCalls_split cfg w hdirty
    have hlay : layoutCalls w.render_state =
        [DeviceCall.SetVertexDeclaration decl, DeviceCall.SetFVF 0] := by
      simp [layoutCalls, hcur, hdecl]
    rw [Apply_Render_State_Changes_eq, if_neg hne]
    simp only [emitAll_D3DDevice, hd, Option.map_some', hsplit, hlay, List.foldl_append,
      List.foldl_cons, List.foldl_nil]
    have h2 := foldl_exec_layout_free post
      (((List.foldl Device.exec d pre).exec (DeviceCall.SetVertexDeclaration decl)).exec
        (DeviceCall.SetFVF 0)) hpost
    rw [h2.1, h2.2]
    simp [Device.exec]

/-- Witness for C2: layout 7 bound on a device that still has legacy format 0x142, by
`Set_Vertex_Declaration`, by `BindLayoutDecl`, and by an apply pass after
`BindLayoutDecl`. -/
theorem structured_bind_registers_witness :
    ((Set_Vertex_Declaration sampleConfig 7 true
          { initialWrapper with D3DDevice := some fvfDevice }).calls =
        [DeviceCall.SetFVF 0, DeviceCall.SetVertexDeclaration 7] ∧
      (Set_Vertex_Declaration sampleConfig 7 true
          { initialWrapper with D3DDevice := some fvfDevice }).D3DDevice.map
        (fun x => (x.decl, x.fvf)) = some (7, 0)) ∧
    ((BindLayoutDecl 7 none true { initialWrapper with D3DDevice := some fvfDevice }).calls =
        [DeviceCall.SetVertexDeclaration 7] ∧
      (BindLayoutDecl 7 none true
          { initialWrapper with D3DDevice := some fvfDevice }).D3DDevice.map
        (fun x => (x.decl, x.fvf)) = some (7, 0x142)) ∧
    (structuredWrapper.D3DDevice.map (fun x => (x.decl, x.fvf)) = some (7, 0x142) ∧
      (Apply_Render_State_Changes sampleConfig structuredWrapper).D3DDevice.map
        (fun x => (x.decl, x.fvf)) = some (7, 0)) :=
  ⟨(structured_bind_registers sampleConfig { initialWrapper with D3DDevice := some fvfDevice }
      fvfDevice 7 none rfl (by decide)).1,
   (structured_bind_registers sampleConfig { initialWrapper with D3DDevice := some fvfDevice }
      fvfDevice 7 none rfl (by decide)).2.1
      (by simp [initialWrapper, initialRecord]),
   rfl,
   (structured_bind_registers sampleConfig structuredWrapper
      { blankDevice with fvf := 0x142, decl := 7 } 7 none rfl (by decide)).2.2 rfl
      (by decide)⟩

/-! ## Draw dispatch -/

/-- An apply pass leaves the record as it was. -/
theorem Apply_render_state (cfg : Config) (w : DX8Wrapper) :
    (Apply_Render_State_Changes cfg w).render_state = w.render_state := by
  rw [Apply_Render_State_Changes_eq]
  by_cases h : w.render_state_changed = 0
  · simp [h]
  · simp [h]

/-- The dispatch issues at most one event, and a draw event carries the vertex range it
was given. -/
theorem drawDispatch_spec (rs : RenderStateStruct)
    (primitive_type start_index polygon_count min_vertex_index vertex_count : Nat) :
    ∃ e, drawDispatch rs primitive_type start_index polygon_count min_vertex_index
        vertex_count = [e] ∧ e ≠ DrawEvent.Apply_Render_State_Changes ∧
      (e.isDraw = true → e.vertexRange = some (min_vertex_index, vertex_count)) := by
  unfold drawDispatch
  cases rs.vertex_buffer_types 0 <;> cases rs.index_buffer_type <;>
    exact ⟨_, rfl, by simp, by simp [DrawEvent.isDraw, DrawEvent.vertexRange]⟩

/-- With mismatched buffer kinds the dispatch is the failed assertion. -/
theorem drawDispatch_mismatched (rs : RenderStateStruct)
    (primitive_type start_index polygon_count min_vertex_index vertex_count : Nat)
    (hmis :
      ((rs.vertex_buffer_types 0 = BufferType.BUFFER_TYPE_SORTING ∨
          rs.vertex_buffer_types 0 = BufferType.BUFFER_TYPE_DYNAMIC_SORTING) ∧
        (rs.index_buffer_type = BufferType.BUFFER_TYPE_DX8 ∨
          rs.index_buffer_type = BufferType.BUFFER_TYPE_DYNAMIC_DX8)) ∨
      ((rs.vertex_buffer_types 0 = BufferType.BUFFER_TYPE_DX8 ∨
          rs.vertex_buffer_types 0 = BufferType.BUFFER_TYPE_DYNAMIC_DX8) ∧
        (rs.index_buffer_type = BufferType.BUFFER_TYPE_SORTING ∨
          rs.index_buffer_type = BufferType.BUFFER_TYPE_DYNAMIC_SORTING))) :
    drawDispatch rs primitive_type start_index polygon_count min_vertex_index vertex_count =
      [DrawEvent.AssertFailed "VB and IB must of same type (sorting or dx8)"] := by
  unfold drawDispatch
  rcases hmis with ⟨hv | hv, hi | hi⟩ | ⟨hv | hv, hi | hi⟩ <;> rw [hv, hi]

/-- Counterexample to C12 as stated: a sorting vertex buffer with an engine-owned index
buffer, drawn with `DrawPolygonLowBoundLimit` 5 and 2 polygons: `Draw` returns before the
type dispatch and no assertion fails. -/
theorem draw_mismatched_without_assertion :
    mismatchedWrapper.render_state.vertex_buffer_types 0 = BufferType.BUFFER_TYPE_SORTING ∧
    mismatchedWrapper.render_state.index_buffer_type = BufferType.BUFFER_TYPE_DX8 ∧
    (Draw sampleConfig ⟨5, true⟩ 4 0 2 0 6 mismatchedWrapper).2 = [] := by
  refine ⟨rfl, rfl, rfl⟩

/-- C12, amended. When `Draw` is invoked with mismatched buffer kinds (a sorting or
dynamic-sorting stream-0 buffer with an engine or dynamic index buffer, or the reverse)
it issues no draw in any case; and unless it returns early (low-bound limit reached, or
triangle drawing disabled), with the stream-0 buffer present, it applies the pending
changes and then fails the assertion "VB and IB must of same type". -/
theorem draw_mismatched (cfg : Config) (sw : DrawSwitches)
    (primitive_type start_index polygon_count min_vertex_index vertex_count : Nat)
    (w : DX8Wrapper)
    (hmis :
      ((w.render_state.vertex_buffer_types 0 = BufferType.BUFFER_TYPE_SORTING ∨
          w.render_state.vertex_buffer_types 0 = BufferType.BUFFER_TYPE_DYNAMIC_SORTING) ∧
        (w.render_state.index_buffer_type = BufferType.BUFFER_TYPE_DX8 ∨
          w.render_state.index_buffer_type = BufferType.BUFFER_TYPE_DYNAMIC_DX8)) ∨
      ((w.render_state.vertex_buffer_types 0 = BufferType.BUFFER_TYPE_DX8 ∨
          w.render_state.vertex_buffer_types 0 = BufferType.BUFFER_TYPE_DYNAMIC_DX8) ∧
        (w.render_state.index_buffer_type = BufferType.BUFFER_TYPE_SORTING ∨
          w.render_state.index_buffer_type = BufferType.BUFFER_TYPE_DYNAMIC_SORTING))) :
    (∀ e ∈ (Draw cfg sw primitive_type start_index polygon_count min_vertex_index
        vertex_count w).2, e.isDraw = false) ∧
    (¬ (sw.DrawPolygonLowBoundLimit ≠ 0 ∧ sw.DrawPolygonLowBoundLimit ≥ polygon_count) →
      sw.Is_Triangle_Draw_Enabled = true →
      w.render_state.vertex_buffers 0 ≠ none →
      (Draw cfg sw primitive_type start_index polygon_count min_vertex_index vertex_count
          w).2 =
        [DrawEvent.Apply_Render_State_Changes,
          DrawEvent.AssertFailed "VB and IB must of same type (sorting or dx8)"]) := by
  have hrs := Apply_render_state cfg w
  refine ⟨?_, ?_⟩
  · intro e he
    unfold Draw at he
    by_cases hg : sw.DrawPolygonLowBoundLimit ≠ 0 ∧ sw.DrawPolygonLowBoundLimit ≥ polygon_count
    · rw [if_pos hg] at he
      simp at he
    · rw [if_neg hg] at he
      by_cases hen : sw.Is_Triangle_Draw_Enabled = false
      · rw [if_pos hen] at he
        have : e = DrawEvent.Apply_Render_State_Changes := by simpa using he
        subst this
        rfl
      · rw [if_neg hen] at he
        cases hres : resolveVertexCount (Apply_Render_State_Changes cfg w).render_state
            min_vertex_index vertex_count with
        | none =>
          rw [hres] at he
          have : e = DrawEvent.Apply_Render_State_Changes ∨ e = DrawEvent.NullBufferRead := by
            simpa using he
          rcases this with h | h <;> subst h <;> rfl
        | some pr =>
          rw [hres] at he
          simp only [hrs] at he
          rw [drawDispatch_mismatched _ _ _ _ _ _ hmis] at he
          have : e = DrawEvent.Apply_Render_State_Changes ∨
              e = DrawEvent.AssertFailed "VB and IB must of same type (sorting or dx8)" := by
            simpa using he
          rcases this with h | h <;> subst h <;> rfl
  · intro hg hen hbuf
    unfold Draw
    rw [if_neg hg, if_neg (by simp [hen])]
    obtain ⟨vb, hvb⟩ := Option.ne_none_iff_exists'.mp hbuf
    have hsome : ∃ pr, resolveVertexCount (Apply_Render_State_Changes cfg w).render_state
        min_vertex_index vertex_count = some pr := by
      rw [hrs]
      unfold resolveVertexCount
      by_cases hvc : vertex_count < 3
      · rw [if_pos hvc, hvb]
        cases w.render_state.vertex_buffer_types 0 <;> exact ⟨_, rfl⟩
      · rw [if_neg hvc]
        exact ⟨_, rfl⟩
    obtain ⟨pr, hpr⟩ := hsome
    rw [hpr]
    simp only [hrs]
    rw [drawDispatch_mismatched _ _ _ _ _ _ hmis]

/-- Witness for C12: the mismatched state drawn with the limit off. -/
theorem draw_mismatched_witness :
    (∀ e ∈ (Draw sampleConfig ⟨0, true⟩ 4 0 2 0 6 mismatchedWrapper).2, e.isDraw = false) ∧
    (Draw sampleConfig ⟨0, true⟩ 4 0 2 0 6 mismatchedWrapper).2 =
      [DrawEvent.Apply_Render_State_Changes,
        DrawEvent.AssertFailed "VB and IB must of same type (sorting or dx8)"] :=
  ⟨(draw_mismatched sampleConfig ⟨0, true⟩ 4 0 2 0 6 mismatchedWrapper
      (Or.inl ⟨Or.inl rfl, Or.inl rfl⟩)).1,
   (draw_mismatched sampleConfig ⟨0, true⟩ 4 0 2 0 6 mismatchedWrapper
      (Or.inl ⟨Or.inl rfl, Or.inl rfl⟩)).2 (by decide) rfl
      (by simp [mismatchedWrapper, Set_Index_Buffer, Set_Vertex_Buffer])⟩

/-- Counterexample to C13 as stated: `bufA` holds 100 vertices and the index buffer is
bound with base vertex offset 100; a draw with `vertex_count` 0 is issued with the
remaining length, which is 0: the passed count of 0 is drawn as zero vertices. -/
theorem draw_zero_count_drawn_as_zero :
    (Draw sampleConfig ⟨0, true⟩ 4 0 2 0 0 exhaustedWrapper).2 =
      [DrawEvent.Apply_Render_State_Changes,
        DrawEvent.DrawIndexedPrimitive 4 100 0 0 0 2] := by
  rfl

/-- C13, amended. For every `Draw` call with `vertex_count < 3`, every draw it issues
(the indexed draw or the sorting path) has `min_vertex_index` 0 and `vertex_count`
replaced by the remaining length of the bound buffer: for an engine-owned or sorting
stream-0 buffer, buffer vertex count minus `index_base_offset` minus `vba_offset` in
16-bit unsigned arithmetic; for a dynamic or dynamic-sorting stream-0 buffer, the recorded
`vba_count` (as a 16-bit value). The passed count is never used, so a passed 0 is drawn
as zero vertices only when that remaining length is itself 0. -/
theorem draw_small_vertex_count (cfg : Config) (sw : DrawSwitches)
    (primitive_type start_index polygon_count min_vertex_index vertex_count : Nat)
    (w : DX8Wrapper) (hvc : vertex_count < 3) :
    ∀ e ∈ (Draw cfg sw primitive_type start_index polygon_count min_vertex_index
        vertex_count w).2,
      ∀ minIndex count, e.vertexRange = some (minIndex, count) →
        minIndex = 0 ∧
        w.render_state.vertex_buffer_types 0 ≠ BufferType.BUFFER_TYPE_INVALID ∧
        ((w.render_state.vertex_buffer_types 0 = BufferType.BUFFER_TYPE_DX8 ∨
            w.render_state.vertex_buffer_types 0 = BufferType.BUFFER_TYPE_SORTING) →
          ∃ vb, w.render_state.vertex_buffers 0 = some vb ∧
            count = Int.toNat (((vb.VertexCount : Int) -
              (w.render_state.index_base_offset : Int) -
              (w.render_state.vba_offset : Int)) % 65536)) ∧
        ((w.render_state.vertex_buffer_types 0 = BufferType.BUFFER_TYPE_DYNAMIC_DX8 ∨
            w.render_state.vertex_buffer_types 0 = BufferType.BUFFER_TYPE_DYNAMIC_SORTING) →
          count = w.render_state.vba_count % 65536) := by
  have hrs := Apply_render_state cfg w
  intro e he minIndex count hrange
  unfold Draw at he
  by_cases hg : sw.DrawPolygonLowBoundLimit ≠ 0 ∧ sw.DrawPolygonLowBoundLimit ≥ polygon_count
  · rw [if_pos hg] at he
    simp at he
  · rw [if_neg hg] at he
    by_cases hen : sw.Is_Triangle_Draw_Enabled = false
    · rw [if_pos hen] at he
      have : e = DrawEvent.Apply_Render_State_Changes := by simpa using he
      subst this
      simp [DrawEvent.vertexRange] at hrange
    · rw [if_neg hen, hrs] at he
      cases hres : resolveVertexCount w.render_state min_vertex_index vertex_count with
      | none =>
        rw [hres] at he
        have : e = DrawEvent.Apply_Render_State_Changes ∨ e = DrawEvent.NullBufferRead := by
          simpa using he
        rcases this with h | h <;> subst h <;> simp [DrawEvent.vertexRange] at hrange
      | some pr =>
        rw [hres] at he
        simp only [hrs] at he
        rcases List.mem_cons.mp he with h | h
        · subst h
          simp [DrawEvent.vertexRange] at hrange
        · -- the event of the dispatch carries the resolved pair
          have hdraw : e.isDraw = true := by
            cases e <;> simp [DrawEvent.vertexRange] at hrange <;> rfl
          have hpair : pr = (minIndex, count) ∧
              w.render_state.vertex_buffer_types 0 ≠ BufferType.BUFFER_TYPE_INVALID := by
            constructor
            · obtain ⟨e', he', _, hr'⟩ := drawDispatch_spec w.render_state primitive_type
                start_index polygon_count pr.1 pr.2
              rw [he'] at h
              have hee : e = e' := by simpa using h
              subst hee
              have := hr' hdraw
              rw [hrange] at this
              simp only [Option.some.injEq] at this
              exact this.symm
            · intro hinv
              unfold drawDispatch at h
              rw [hinv] at h
              have hee : e = DrawEvent.AssertFailed "0" := by simpa using h
              subst hee
              simp [DrawEvent.isDraw] at hdraw
          obtain ⟨hpr, hinv⟩ := hpair
          subst hpr
          unfold resolveVertexCount at hres
          rw [if_pos hvc] at hres
          cases hvt : w.render_state.vertex_buffer_types 0 <;> rw [hvt] at hres
          all_goals first
            | exact absurd hvt hinv
            | (cases hvb : w.render_state.vertex_buffers 0 with
               | none => rw [hvb] at hres; simp at hres
               | some vb =>
                 rw [hvb] at hres
                 simp only [Option.some.injEq, Prod.mk.injEq] at hres
                 refine ⟨hres.1.symm, by simp, fun _ => ⟨vb, rfl, ?_⟩, fun h => ?_⟩
                 · rw [← hres.2]
                   simp
                 · rcases h with h | h <;> simp at h)
            | (simp only [Option.some.injEq, Prod.mk.injEq] at hres
               refine ⟨hres.1.symm, by simp, fun h => ?_, fun _ => hres.2.symm⟩
               rcases h with h | h <;> simp at h)

/-- Witness for C13: `bufA` (100 vertices) with base vertex offset 10, drawn with a
passed count of 0, is drawn with 90 vertices from `min_vertex_index` 0. -/
theorem draw_small_vertex_count_witness :
    (Draw sampleConfig ⟨0, true⟩ 4 0 2 5 0
        (Set_Index_Buffer sampleConfig (some ibA) 10
          (Set_Vertex_Buffer sampleConfig (some bufA) 0 initialWrapper))).2 =
      [DrawEvent.Apply_Render_State_Changes,
        DrawEvent.DrawIndexedPrimitive 4 10 0 90 0 2] ∧
    ∀ e ∈ (Draw sampleConfig ⟨0, true⟩ 4 0 2 5 0
        (Set_Index_Buffer sampleConfig (some ibA) 10
          (Set_Vertex_Buffer sampleConfig (some bufA) 0 initialWrapper))).2,
      ∀ minIndex count, e.vertexRange = some (minIndex, count) → minIndex = 0 :=
  ⟨rfl, fun e he minIndex count h =>
    (draw_small_vertex_count sampleConfig ⟨0, true⟩ 4 0 2 5 0
      (Set_Index_Buffer sampleConfig (some ibA) 10
        (Set_Vertex_Buffer sampleConfig (some bufA) 0 initialWrapper))
      (by decide) e he minIndex count h).1⟩

/-! ## Scoped 2D state guard -/

theorem guardDo_fst (e : GuardEffect) (s : GuardWorld × List GuardEffect) :
    (guardDo e s).1 = e.apply s.1 := rfl

theorem guardDo_snd (e : GuardEffect) (s : GuardWorld × List GuardEffect) :
    (guardDo e s).2 = s.2 ++ [e] := rfl

/-- C14: a guard built on a non-null device in any state `before`, destroyed in any
state `scopeEnd` that the mutations of the scope have produced, leaves the device with
the stream-0 binding (buffer, offset, stride), the index buffer and the flags ZENABLE,
ZWRITEENABLE, LIGHTING and CULLMODE of `before`, null bindings included. -/
theorem guard_restores (location : Option String) (before scopeEnd : GuardWorld) :
    let g := (Scoped2DStateGuard.construct true location before).1
    let after := (g.destroy scopeEnd).1
    after.dev.streams 0 = before.dev.streams 0 ∧
    after.dev.indices = before.dev.indices ∧
    after.renderStates .D3DRS_ZENABLE = before.renderStates .D3DRS_ZENABLE ∧
    after.renderStates .D3DRS_ZWRITEENABLE = before.renderStates .D3DRS_ZWRITEENABLE ∧
    after.renderStates .D3DRS_LIGHTING = before.renderStates .D3DRS_LIGHTING ∧
    after.renderStates .D3DRS_CULLMODE = before.renderStates .D3DRS_CULLMODE := by
  simp [Scoped2DStateGuard.construct, Scoped2DStateGuard.destroy, guardDo, GuardEffect.apply,
    Clear_Current_Decl, Clear_Current_FVF, Set_Transform, Set_DX8_Render_State,
    Get_Transform, Get_DX8_Render_State, Device.exec]

/-- C15: the destructor of a guard holding a non-null device performs exactly these
effects, in this order: clear the tracked structured handle, clear the tracked legacy
format, rebind the saved stream-0 buffer, offset and stride, rebind the saved index
buffer, restore the projection, the view and the world transform, restore the viewport,
restore ZENABLE, ZWRITEENABLE, LIGHTING and CULLMODE. The state it leaves is the state
it was given with these twelve effects carried out one after the other: stream 0, the
index buffer and the viewport of the device hold the saved values (the other streams
and both layout registers of the device are left as they are), the tracked handle and
format are zero, the three transforms and the four flags hold the saved values, and
the texture-stage states are untouched. -/
theorem guard_destroy_order (g : Scoped2DStateGuard) (gw : GuardWorld) (h : g.m_dev = true) :
    (g.destroy gw).2 =
      [.Clear_Current_Decl, .Clear_Current_FVF,
       .SetStreamSource 0 g.m_savedVB0 g.m_savedOffset0 g.m_savedStride0,
       .SetIndices g.m_savedIB,
       .Set_Transform .D3DTS_PROJECTION g.m_savedProjection,
       .Set_Transform .D3DTS_VIEW g.m_savedView,
       .Set_Transform .D3DTS_WORLD g.m_savedWorld,
       .SetViewport g.m_savedViewport,
       .Set_DX8_Render_State .D3DRS_ZENABLE g.m_savedZEnable,
       .Set_DX8_Render_State .D3DRS_ZWRITEENABLE g.m_savedZWriteEnable,
       .Set_DX8_Render_State .D3DRS_LIGHTING g.m_savedLighting,
       .Set_DX8_Render_State .D3DRS_CULLMODE g.m_savedCullMode] ∧
    (g.destroy gw).1 = (g.destroy gw).2.foldl (fun s e => e.apply s) gw ∧
    (g.destroy gw).1.dev.streams 0 = ⟨g.m_savedVB0, g.m_savedOffset0, g.m_savedStride0⟩ ∧
    (∀ i, i ≠ 0 → (g.destroy gw).1.dev.streams i = gw.dev.streams i) ∧
    (g.destroy gw).1.dev.indices = g.m_savedIB ∧
    (g.destroy gw).1.dev.fvf = gw.dev.fvf ∧
    (g.destroy gw).1.dev.decl = gw.dev.decl ∧
    (g.destroy gw).1.viewport = g.m_savedViewport ∧
    (g.destroy gw).1.render_state.currentDecl = 0 ∧
    (g.destroy gw).1.render_state.currentFVF = 0 ∧
    (g.destroy gw).1.transforms .D3DTS_PROJECTION = g.m_savedProjection ∧
    (g.destroy gw).1.transforms .D3DTS_VIEW = g.m_savedView ∧
    (g.destroy gw).1.transforms .D3DTS_WORLD = g.m_savedWorld ∧
    (g.destroy gw).1.renderStates .D3DRS_ZENABLE = g.m_savedZEnable ∧
    (g.destroy gw).1.renderStates .D3DRS_ZWRITEENABLE = g.m_savedZWriteEnable ∧
    (g.destroy gw).1.renderStates .D3DRS_LIGHTING = g.m_savedLighting ∧
    (g.destroy gw).1.renderStates .D3DRS_CULLMODE = g.m_savedCullMode ∧
    (g.destroy gw).1.textureStageStates = gw.textureStageStates := by
  have hd : g.m_dev ≠ false := by rw [h]; decide
  have htrace : (g.destroy gw).2 =
      [.Clear_Current_Decl, .Clear_Current_FVF,
       .SetStreamSource 0 g.m_savedVB0 g.m_savedOffset0 g.m_savedStride0,
       .SetIndices g.m_savedIB,
       .Set_Transform .D3DTS_PROJECTION g.m_savedProjection,
       .Set_Transform .D3DTS_VIEW g.m_savedView,
       .Set_Transform .D3DTS_WORLD g.m_savedWorld,
       .SetViewport g.m_savedViewport,
       .Set_DX8_Render_State .D3DRS_ZENABLE g.m_savedZEnable,
       .Set_DX8_Render_State .D3DRS_ZWRITEENABLE g.m_savedZWriteEnable,
       .Set_DX8_Render_State .D3DRS_LIGHTING g.m_savedLighting,
       .Set_DX8_Render_State .D3DRS_CULLMODE g.m_savedCullMode] := by
    unfold Scoped2DStateGuard.destroy
    rw [if_neg hd]
    rfl
  have hstate : (g.destroy gw).1 = (g.destroy gw).2.foldl (fun s e => e.apply s) gw := by
    rw [htrace]
    unfold Scoped2DStateGuard.destroy
    rw [if_neg hd]
    rfl
  refine ⟨htrace, hstate, ?_⟩
  rw [hstate, htrace]
  refine ⟨?_, ?_, ?_, ?_, ?_, ?_, ?_, ?_, ?_, ?_, ?_, ?_, ?_, ?_, ?_, ?_⟩
  · simp [GuardEffect.apply, Clear_Current_Decl, Clear_Current_FVF, Set_Transform,
      Set_DX8_Render_State, Device.exec]
  · intro i hi
    simp [GuardEffect.apply, Clear_Current_Decl, Clear_Current_FVF, Set_Transform,
      Set_DX8_Render_State, Device.exec, hi]
  all_goals
    simp [GuardEffect.apply, Clear_Current_Decl, Clear_Current_FVF, Set_Transform,
      Set_DX8_Render_State, Device.exec]

/-- Witness for C15: the guard built on the sample state, destroyed in the state the
scope left (no stream, no index buffer, flags changed, a layout tracked), replays the
saved values in the stated order and leaves them in the state. -/
theorem guard_destroy_order_witness :
    (Scoped2DStateGuard.construct true none sampleGuardWorld).1.m_dev = true ∧
    ((Scoped2DStateGuard.construct true none sampleGuardWorld).1.destroy
        sampleGuardWorldAfter).2 =
      [.Clear_Current_Decl, .Clear_Current_FVF,
       .SetStreamSource 0 11 0 24,
       .SetIndices 22,
       .Set_Transform .D3DTS_PROJECTION 103,
       .Set_Transform .D3DTS_VIEW 102,
       .Set_Transform .D3DTS_WORLD 101,
       .SetViewport 7,
       .Set_DX8_Render_State .D3DRS_ZENABLE 1,
       .Set_DX8_Render_State .D3DRS_ZWRITEENABLE 1,
       .Set_DX8_Render_State .D3DRS_LIGHTING 0,
       .Set_DX8_Render_State .D3DRS_CULLMODE 3] ∧
    sampleGuardWorldAfter.dev.streams 0 = ⟨0, 0, 0⟩ ∧
    ((Scoped2DStateGuard.construct true none sampleGuardWorld).1.destroy
        sampleGuardWorldAfter).1.dev.streams 0 = ⟨11, 0, 24⟩ ∧
    ((Scoped2DStateGuard.construct true none sampleGuardWorld).1.destroy
        sampleGuardWorldAfter).1.dev.indices = 22 ∧
    ((Scoped2DStateGuard.construct true none sampleGuardWorld).1.destroy
        sampleGuardWorldAfter).1.viewport = 7 ∧
    sampleGuardWorldAfter.render_state.currentDecl = 9 ∧
    ((Scoped2DStateGuard.construct true none sampleGuardWorld).1.destroy
        sampleGuardWorldAfter).1.render_state.currentDecl = 0 ∧
    ((Scoped2DStateGuard.construct true none sampleGuardWorld).1.destroy
        sampleGuardWorldAfter).1.renderStates .D3DRS_CULLMODE = 3 :=
  ⟨rfl,
   (guard_destroy_order (Scoped2DStateGuard.construct true none sampleGuardWorld).1
      sampleGuardWorldAfter rfl).1,
   rfl,
   (guard_destroy_order (Scoped2DStateGuard.construct true none sampleGuardWorld).1
      sampleGuardWorldAfter rfl).2.2.1,
   (guard_destroy_order (Scoped2DStateGuard.construct true none sampleGuardWorld).1
      sampleGuardWorldAfter rfl).2.2.2.2.1,
   (guard_destroy_order (Scoped2DStateGuard.construct true none sampleGuardWorld).1
      sampleGuardWorldAfter rfl).2.2.2.2.2.2.2.1,
   rfl,
   (guard_destroy_order (Scoped2DStateGuard.construct true none sampleGuardWorld).1
      sampleGuardWorldAfter rfl).2.2.2.2.2.2.2.2.1,
   (guard_destroy_order (Scoped2DStateGuard.construct true none sampleGuardWorld).1
      sampleGuardWorldAfter rfl).2.2.2.2.2.2.2.2.2.2.2.2.2.2.2.2.1⟩

/-! ## Hardware instancing -/

theorem Add_Instance_Transform_full (row0 row1 row2 : Float4) (m : DX8InstanceManagerClass)
    (h : m.m_collectedCount ≥ MAX_INSTANCES_PER_DRAW) :
    m.Add_Instance_Transform row0 row1 row2 = (false, m) := by
  unfold DX8InstanceManagerClass.Add_Instance_Transform
  rw [if_pos h]

theorem Add_Instance_Transform_room (t : InstanceData) (m : DX8InstanceManagerClass)
    (h : m.m_collectedCount < 256) :
    m.Add_Instance_Transform t.row0 t.row1 t.row2 =
      (true,
        { m with
          m_instanceBuffer := fun i => if i = m.m_collectedCount then t else m.m_instanceBuffer i
          m_collectedCount := m.m_collectedCount + 1 }) := by
  unfold DX8InstanceManagerClass.Add_Instance_Transform
  have h1 : ¬ m.m_collectedCount ≥ MAX_INSTANCES_PER_DRAW := by
    simp only [MAX_INSTANCES_PER_DRAW]; omega
  have h2 : (m.m_collectedCount + 1) % 2 ^ 32 = m.m_collectedCount + 1 :=
    Nat.mod_eq_of_lt (by omega)
  rw [if_neg h1, h2]

theorem addInstanceTransforms_spec (ts : List InstanceData) :
    ∀ m : DX8InstanceManagerClass, m.m_collectedCount ≤ 256 →
      (addInstanceTransforms ts m).1 =
          (List.range ts.length).map (fun k => decide (m.m_collectedCount + k < 256)) ∧
      (addInstanceTransforms ts m).2.m_collectedCount =
          min (m.m_collectedCount + ts.length) 256 ∧
      (∀ i, m.m_collectedCount ≤ i → i < min (m.m_collectedCount + ts.length) 256 →
          some ((addInstanceTransforms ts m).2.m_instanceBuffer i) =
            ts[i - m.m_collectedCount]?) ∧
      (∀ i, (i < m.m_collectedCount ∨ min (m.m_collectedCount + ts.length) 256 ≤ i) →
          (addInstanceTransforms ts m).2.m_instanceBuffer i = m.m_instanceBuffer i) ∧
      (addInstanceTransforms ts m).2 =
        { m with
          m_instanceBuffer := (addInstanceTransforms ts m).2.m_instanceBuffer
          m_collectedCount := (addInstanceTransforms ts m).2.m_collectedCount } := by
  induction ts with
  | nil =>
    intro m hm
    refine ⟨rfl, ?_, ?_, ?_, rfl⟩
    · simp [addInstanceTransforms]; omega
    · intro i h1 h2
      simp at h2
      omega
    · intro i _
      rfl
  | cons t ts ih =>
    intro m hm
    by_cases hc : m.m_collectedCount < 256
    · have hadd := Add_Instance_Transform_room t m hc
      obtain ⟨ih1, ih2, ih3, ih4, ih5⟩ := ih
        { m with
          m_instanceBuffer := fun i => if i = m.m_collectedCount then t else m.m_instanceBuffer i
          m_collectedCount := m.m_collectedCount + 1 } (by show m.m_collectedCount + 1 ≤ 256; omega)
      simp only [addInstanceTransforms, hadd]
      simp only at ih1 ih2 ih3 ih4 ih5
      refine ⟨?_, ?_, ?_, ?_, ?_⟩
      · rw [ih1, List.length_cons, List.range_succ_eq_map, List.map_cons, List.map_map]
        simp only [Nat.add_zero, hc, decide_True, List.cons.injEq, true_and]
        apply List.map_congr_left
        intro k _
        simp only [Function.comp, Nat.succ_eq_add_one]
        congr 1
        apply propext
        constructor <;> intro h <;> omega
      · rw [ih2, List.length_cons]
        congr 1
        omega
      · intro i h1 h2
        rw [List.length_cons] at h2
        by_cases hi : i = m.m_collectedCount
        · subst hi
          rw [ih4 _ (Or.inl (Nat.lt_succ_self _))]
          simp
        · have h3 := ih3 i (by omega) (by
            have : m.m_collectedCount + 1 + ts.length = m.m_collectedCount + (ts.length + 1) := by
              omega
            rw [this]; exact h2)
          rw [h3]
          have : i - m.m_collectedCount = (i - (m.m_collectedCount + 1)) + 1 := by omega
          rw [this, List.getElem?_cons_succ]
      · intro i h
        rw [List.length_cons] at h
        rw [ih4 i (by
          rcases h with h | h
          · exact Or.inl (by omega)
          · exact Or.inr (by
              have : m.m_collectedCount + 1 + ts.length = m.m_collectedCount + (ts.length + 1) := by
                omega
              rw [this]; exact h))]
        have hne : i ≠ m.m_collectedCount := by
          rcases h with h | h
          · omega
          · have : m.m_collectedCount < min (m.m_collectedCount + (ts.length + 1)) 256 := by
              simp only [Nat.lt_min]; omega
            omega
        simp [hne]
      · rw [ih5]
    · have hfull : m.m_collectedCount ≥ MAX_INSTANCES_PER_DRAW := by
        simp only [MAX_INSTANCES_PER_DRAW]; omega
      have hadd := Add_Instance_Transform_full t.row0 t.row1 t.row2 m hfull
      obtain ⟨ih1, ih2, ih3, ih4, ih5⟩ := ih m hm
      simp only [addInstanceTransforms, hadd]
      refine ⟨?_, ?_, ?_, ?_, ?_⟩
      · rw [ih1, List.length_cons, List.range_succ_eq_map, List.map_cons, List.map_map]
        have hd : decide (m.m_collectedCount + 0 < 256) = false := by simp; omega
        rw [hd]
        congr 1
        apply List.map_congr_left
        intro k _
        simp only [Function.comp, Nat.succ_eq_add_one]
        congr 1
        apply propext
        constructor <;> intro h <;> omega
      · rw [ih2, List.length_cons]
        have : m.m_collectedCount = 256 := by omega
        rw [this]
        simp
      · intro i h1 h2
        rw [List.length_cons] at h2
        have : min (m.m_collectedCount + (ts.length + 1)) 256 ≤ 256 := Nat.min_le_right _ _
        omega
      · intro i _
        apply ih4
        by_cases h : i < m.m_collectedCount
        · exact Or.inl h
        · refine Or.inr ?_
          have : min (m.m_collectedCount + ts.length) 256 ≤ 256 := Nat.min_le_right _ _
          omega
      · exact ih5

/-- C16: after `Reset_Collection` the collected count is 0; of the next `n` consecutive
`Add_Instance_Transform` calls the k-th (counted from 1) returns true exactly when
`k ≤ MAX_INSTANCES_PER_DRAW`; afterwards the count is `min n 256`, entry `i` of the
buffer is the i-th transform for every `i` below that count, every other entry and every
other member is as before, and a call on a full buffer returns false and changes
nothing. -/
theorem add_instance_capacity (m : DX8InstanceManagerClass) (ts : List InstanceData) :
    m.Reset_Collection.m_collectedCount = 0 ∧
    (addInstanceTransforms ts m.Reset_Collection).1 =
      (List.range ts.length).map (fun k => decide (k + 1 ≤ MAX_INSTANCES_PER_DRAW)) ∧
    (addInstanceTransforms ts m.Reset_Collection).2.m_collectedCount =
      min ts.length MAX_INSTANCES_PER_DRAW ∧
    (∀ i, i < min ts.length MAX_INSTANCES_PER_DRAW →
      some ((addInstanceTransforms ts m.Reset_Collection).2.m_instanceBuffer i) = ts[i]?) ∧
    (∀ i, min ts.length MAX_INSTANCES_PER_DRAW ≤ i →
      (addInstanceTransforms ts m.Reset_Collection).2.m_instanceBuffer i =
        m.m_instanceBuffer i) ∧
    (addInstanceTransforms ts m.Reset_Collection).2 =
      { m with
        m_instanceBuffer := (addInstanceTransforms ts m.Reset_Collection).2.m_instanceBuffer
        m_collectedCount := (addInstanceTransforms ts m.Reset_Collection).2.m_collectedCount } ∧
    (∀ (full : DX8InstanceManagerClass) (row0 row1 row2 : Float4),
      full.m_collectedCount ≥ MAX_INSTANCES_PER_DRAW →
        full.Add_Instance_Transform row0 row1 row2 = (false, full)) := by
  have hz : m.Reset_Collection.m_collectedCount = 0 := rfl
  obtain ⟨h1, h2, h3, h4, h5⟩ :=
    addInstanceTransforms_spec ts m.Reset_Collection (by rw [hz]; omega)
  rw [hz] at h1 h2 h3 h4
  simp only [Nat.zero_add, Nat.sub_zero] at h1 h2 h3 h4
  refine ⟨rfl, ?_, h2, ?_, ?_, ?_, ?_⟩
  · rw [h1]
    apply List.map_congr_left
    intro k _
    simp only [MAX_INSTANCES_PER_DRAW]
    rfl
  · intro i hi
    exact h3 i (Nat.zero_le _) hi
  · intro i hi
    exact h4 i (Or.inr hi)
  · rw [h5]
    rfl
  · intro full row0 row1 row2 hfull
    exact Add_Instance_Transform_full row0 row1 row2 full hfull

/-- Witness for C16: two transforms added after a reset are both accepted and stored in
call order; a manager holding 256 instances rejects the next one unchanged. -/
theorem add_instance_capacity_witness :
    (addInstanceTransforms [transformA, transformB] sampleManager.Reset_Collection).1 =
      [true, true] ∧
    (addInstanceTransforms [transformA, transformB]
      sampleManager.Reset_Collection).2.m_collectedCount = 2 ∧
    some ((addInstanceTransforms [transformA, transformB]
      sampleManager.Reset_Collection).2.m_instanceBuffer 1) = some transformB ∧
    { sampleManager with m_collectedCount := 256 }.Add_Instance_Transform
        transformA.row0 transformA.row1 transformA.row2 =
      (false, { sampleManager with m_collectedCount := 256 }) :=
  ⟨(add_instance_capacity sampleManager [transformA, transformB]).2.1,
   (add_instance_capacity sampleManager [transformA, transformB]).2.2.1,
   (add_instance_capacity sampleManager [transformA, transformB]).2.2.2.1 1 (by decide),
   (add_instance_capacity sampleManager [transformA, transformB]).2.2.2.2.2.2
      { sampleManager with m_collectedCount := 256 }
      transformA.row0 transformA.row1 transformA.row2 (by decide)⟩

theorem Collect_Instances_zero {Task : Type} (render_task_head : List Task)
    (first_renderer : Nat) (m : DX8InstanceManagerClass) :
    m.Collect_Instances render_task_head first_renderer =
      (0, { m with m_collectedCount := 0 }) := by
  unfold DX8InstanceManagerClass.Collect_Instances
  by_cases h1 : ({ m with m_collectedCount := 0 } : DX8InstanceManagerClass).Is_Enabled = false
  · simp [h1]
  · by_cases h2 : render_task_head.isEmpty ∨ first_renderer = 0
    · simp [h1, h2]
    · simp [h1, h2]

/-- C17 fails in the code: on the enabled and available manager, with a task list of one
eligible object (its renderer is 7) and the renderer 7, `Collect_Instances` returns 0
and leaves the collected count 0; it never looks at the list beyond its head pointer. -/
theorem collect_instances_single_eligible :
    sampleManager.Is_Enabled = true ∧
    (sampleManager.Collect_Instances [7] 7).1 = 0 ∧
    (sampleManager.Collect_Instances [7] 7).2.m_collectedCount = 0 := by
  refine ⟨rfl, ?_, ?_⟩ <;> rw [Collect_Instances_zero]

/-- C18: with fewer than 2 collected instances, or a null renderer, `Draw_Instanced`
issues no call at all (no draw, no binding change, no query): the trace is empty, the
wrapper with its device is unchanged, and the manager (collection, layout cache,
statistics) is unchanged. -/
theorem draw_instanced_noop (env : InstancingEnv) (renderer : Option DX8PolygonRendererClass)
    (geometryFVF : Nat) (m : DX8InstanceManagerClass) (w : DX8Wrapper)
    (h : m.m_collectedCount < 2 ∨ renderer = none) :
    m.Draw_Instanced env renderer geometryFVF w = (m, w, []) := by
  unfold DX8InstanceManagerClass.Draw_Instanced
  cases renderer with
  | none => rfl
  | some r =>
    have hc : m.m_collectedCount < 2 := by
      rcases h with h | h
      · exact h
      · cases h
    simp only [hc, if_true]

/-- Witness for C18: one collected instance and a valid renderer. -/
theorem draw_instanced_noop_witness :
    { sampleManager with m_collectedCount := 1 }.Draw_Instanced sampleInstancingEnv
        (some sampleRenderer) 0x142 boundWrapper =
      ({ sampleManager with m_collectedCount := 1 }, boundWrapper, []) :=
  draw_instanced_noop sampleInstancingEnv (some sampleRenderer) 0x142
    { sampleManager with m_collectedCount := 1 } boundWrapper (Or.inl (by decide))

theorem instDo_eq (c : InstanceCall) (s : DX8Wrapper × List InstanceCall) :
    instDo c s = (emitAll (bindingsOf [c]) s.1, s.2 ++ [c]) := by
  cases c <;> rfl

theorem instDoAll_eq (cs : List InstanceCall) (s : DX8Wrapper × List InstanceCall) :
    instDoAll cs s = (emitAll (bindingsOf cs) s.1, s.2 ++ cs) := by
  induction cs generalizing s with
  | nil => simp [instDoAll, bindingsOf]
  | cons c cs ih =>
    have step : instDoAll (c :: cs) s = instDoAll cs (instDo c s) := rfl
    rw [step, ih, instDo_eq]
    cases c <;> simp [bindingsOf]

theorem bindingsOf_lighting (env : InstancingEnv) :
    bindingsOf (lightingUploadCalls env) = [] := by
  unfold lightingUploadCalls
  cases env.Get_Light_Environment <;> cases env.GetLightEnable 0 <;>
    cases env.GetLightEnable 1 <;> rfl

theorem Get_Or_Create_Instance_Decl_instanceVB (env : InstancingEnv) (dev : Bool)
    (geometryFVF : Nat) (m : DX8InstanceManagerClass) :
    (m.Get_Or_Create_Instance_Decl env dev geometryFVF).2.1.m_instanceVB = m.m_instanceVB ∧
    (m.Get_Or_Create_Instance_Decl env dev geometryFVF).2.1.m_collectedCount =
      m.m_collectedCount := by
  unfold DX8InstanceManagerClass.Get_Or_Create_Instance_Decl
  cases searchDeclCache m.m_declCache geometryFVF m.m_declCacheCount 0 with
  | some decl => exact ⟨rfl, rfl⟩
  | none =>
    cases dev with
    | false => exact ⟨rfl, rfl⟩
    | true =>
      by_cases hlen : (instanceDeclElements geometryFVF).length > 20
      · simp [hlen]
      · cases hc : env.CreateVertexDeclaration (instanceDeclElements geometryFVF) with
        | none => simp [hlen, hc]
        | some newDecl =>
          by_cases hfull : m.m_declCacheCount < MAX_CACHED_DECLS
          · simp [hlen, hc, hfull]
          · simp [hlen, hc, hfull]

theorem lightingUploadCalls_no_draw (env : InstancingEnv) :
    (lightingUploadCalls env).filter InstanceCall.isDraw = [] := by
  unfold lightingUploadCalls
  cases env.Get_Light_Environment <;> cases env.GetLightEnable 0 <;>
    cases env.GetLightEnable 1 <;> rfl

theorem Get_Or_Create_Instance_Decl_no_draw (env : InstancingEnv) (dev : Bool)
    (geometryFVF : Nat) (m : DX8InstanceManagerClass) :
    (m.Get_Or_Create_Instance_Decl env dev geometryFVF).2.2.filter InstanceCall.isDraw = [] := by
  unfold DX8InstanceManagerClass.Get_Or_Create_Instance_Decl
  cases searchDeclCache m.m_declCache geometryFVF m.m_declCacheCount 0 with
  | some decl => rfl
  | none =>
    cases dev with
    | false => rfl
    | true =>
      by_cases hlen : (instanceDeclElements geometryFVF).length > 20
      · simp [hlen, InstanceCall.isDraw]
      · cases hc : env.CreateVertexDeclaration (instanceDeclElements geometryFVF) with
        | none => simp [hlen, hc, InstanceCall.isDraw]
        | some newDecl =>
          by_cases hfull : m.m_declCacheCount < MAX_CACHED_DECLS
          · simp [hlen, hc, hfull, InstanceCall.isDraw]
          · simp [hlen, hc, hfull, InstanceCall.isDraw]

/-- Counterexample to C19 as stated: the device's legacy-format register is 0 at the
snapshot (a structured layout is bound) while the wrapper tracks the format 0x142; the
instanced draw proceeds, and on return the register holds 0x142, not the snapshotted 0. -/
theorem draw_instanced_sets_tracked_fvf :
    boundDeclWrapper.D3DDevice.map (fun d => d.fvf) = some 0 ∧
    (sampleManager.Draw_Instanced sampleInstancingEnv (some sampleRenderer) 0x142
        boundDeclWrapper).2.2.filter InstanceCall.isDraw =
      [.DrawIndexedPrimitive 4 0 0 4 0 2] ∧
    (sampleManager.Draw_Instanced sampleInstancingEnv (some sampleRenderer) 0x142
        boundDeclWrapper).2.1.D3DDevice.map (fun d => d.fvf) = some 0x142 := by
  refine ⟨rfl, ?_, ?_⟩
  · rfl
  · rfl

/-- C19, amended. When `Draw_Instanced` proceeds to its draw (at least 2 instances, a
triangle-list renderer, device present, layout resolved, instance buffer present and
locked), on return the device's stream-0 binding (buffer, offset, stride) and index
buffer are those of the snapshot, and the legacy-format register is the snapshotted
format when that is non-zero, else the format `DX8Wrapper::Get_Current_FVF ()` returns;
the draw was issued once, with the renderer's index range. -/
theorem draw_instanced_restores (env : InstancingEnv) (r : DX8PolygonRendererClass)
    (geometryFVF : Nat) (m : DX8InstanceManagerClass) (w : DX8Wrapper) (d : Device)
    (hcount : 2 ≤ m.m_collectedCount) (hstrip : r.strip = false)
    (hdev : w.D3DDevice = some d)
    (hdecl : (m.Get_Or_Create_Instance_Decl env true geometryFVF).1 ≠ 0)
    (hvb : m.m_instanceVB ≠ 0) (hlock : env.LockSucceeds = true) :
    ∃ d', (m.Draw_Instanced env (some r) geometryFVF w).2.1.D3DDevice = some d' ∧
      d'.streams 0 = d.streams 0 ∧
      d'.indices = d.indices ∧
      d'.fvf = (if d.fvf ≠ 0 then d.fvf else env.Get_Current_FVF) ∧
      (m.Draw_Instanced env (some r) geometryFVF w).2.2.filter InstanceCall.isDraw =
        [.DrawIndexedPrimitive 4 0 r.min_vertex_index r.vertex_index_range r.index_offset
          (r.index_count / 3)] := by
  have hvb1 := (Get_Or_Create_Instance_Decl_instanceVB env true geometryFVF m).1
  have hnd := Get_Or_Create_Instance_Decl_no_draw env true geometryFVF m
  have hld := lightingUploadCalls_no_draw env
  have hc : ¬ m.m_collectedCount < 2 := by omega
  have hvb2 : (m.Get_Or_Create_Instance_Decl env true geometryFVF).2.1.m_instanceVB ≠ 0 := by
    rw [hvb1]; exact hvb
  unfold DX8InstanceManagerClass.Draw_Instanced
  simp only [if_neg hc, hdev, if_neg hdecl, if_neg hvb2, hlock, hstrip,
    Bool.true_eq_false, Bool.false_eq_true, if_false, instDoAll_eq, instDo_eq,
    bindingsOf_lighting]
  by_cases h1 : (d.streams 0).vb = 0 <;> by_cases h2 : d.indices = 0 <;>
    by_cases h3 : d.fvf = 0 <;> by_cases h4 : env.Get_Current_FVF = 0 <;>
    simp [h1, h2, h3, h4, bindingsOf, hdev, Device.exec,
      DX8PolygonRendererClass.Render_Instanced, hstrip, InstanceCall.isDraw, hnd, hld,
      List.filter_append]

/-- Witness for C19: two instances drawn on a device with stream 0, index buffer and
legacy format 0x142 bound; all three are as before on return. -/
theorem draw_instanced_restores_witness :
    ∃ d', (sampleManager.Draw_Instanced sampleInstancingEnv (some sampleRenderer) 0x142
        boundWrapper).2.1.D3DDevice = some d' ∧
      d'.streams 0 = boundDevice.streams 0 ∧
      d'.indices = boundDevice.indices ∧
      d'.fvf = (if boundDevice.fvf ≠ 0 then boundDevice.fvf
        else sampleInstancingEnv.Get_Current_FVF) ∧
      (sampleManager.Draw_Instanced sampleInstancingEnv (some sampleRenderer) 0x142
          boundWrapper).2.2.filter InstanceCall.isDraw =
        [.DrawIndexedPrimitive 4 0 sampleRenderer.min_vertex_index
          sampleRenderer.vertex_index_range sampleRenderer.index_offset
          (sampleRenderer.index_count / 3)] :=
  draw_instanced_restores sampleInstancingEnv sampleRenderer 0x142 sampleManager boundWrapper
    boundDevice (by decide) rfl rfl (show (77 : Nat) ≠ 0 by decide)
    (show (31 : Nat) ≠ 0 by decide) rfl

/-! ## Layout cache -/

theorem layoutFrom_append (fs gs : List VertexField) (off : Nat) :
    layoutFrom off (fs ++ gs) = layoutFrom off fs ++ layoutFrom (off + totalSize fs) gs := by
  induction fs generalizing off with
  | nil => simp [layoutFrom, totalSize]
  | cons f fs ih =>
    have h := ih (off + f.type.byteSize)
    show layoutFrom off (f :: (fs ++ gs)) = _
    simp only [layoutFrom, h, totalSize, List.map_cons, List.sum_cons, List.cons_append,
      Nat.add_assoc]

theorem totalSize_append (fs gs : List VertexField) :
    totalSize (fs ++ gs) = totalSize fs + totalSize gs := by
  simp [totalSize]

theorem layoutFrom_length (fs : List VertexField) (off : Nat) :
    (layoutFrom off fs).length = fs.length := by
  induction fs generalizing off with
  | nil => rfl
  | cons f fs ih => simp [layoutFrom, ih]

theorem layoutFrom_offset (fs : List VertexField) :
    ∀ (off k : Nat) (e : D3DVERTEXELEMENT9), (layoutFrom off fs)[k]? = some e →
      e.Offset = off + (((layoutFrom off fs).take k).map (fun x => x.type.byteSize)).sum := by
  induction fs with
  | nil => intro off k e h; simp [layoutFrom] at h
  | cons f fs ih =>
    intro off k e h
    cases k with
    | zero =>
      simp [layoutFrom] at h
      subst h
      simp
    | succ k =>
      simp only [layoutFrom, List.getElem?_cons_succ] at h
      have := ih _ k e h
      rw [this]
      simp only [layoutFrom, List.take_succ_cons, List.map_cons, List.sum_cons]
      omega

theorem push_layout (b : DeclBuild) (fs : List VertexField) (f : VertexField)
    (he : b.elements = layoutFrom 0 fs) (ho : b.offset = totalSize fs)
    (hlt : totalSize fs + f.type.byteSize < 65536) :
    (b.push f.type f.usage f.usageIndex f.type.byteSize).elements = layoutFrom 0 (fs ++ [f]) ∧
    (b.push f.type f.usage f.usageIndex f.type.byteSize).offset = totalSize (fs ++ [f]) := by
  refine ⟨?_, ?_⟩
  · simp [DeclBuild.push, layoutFrom_append, he, ho, layoutFrom]
  · simp only [DeclBuild.push, totalSize_append, ho]
    rw [Nat.mod_eq_of_lt]
    · simp [totalSize]
    · simpa [totalSize] using hlt

theorem fvfTexCoords_layout (n : Nat) :
    ∀ (i : Nat) (b : DeclBuild) (fs : List VertexField),
      b.elements = layoutFrom 0 fs → b.offset = totalSize fs →
      totalSize fs + 8 * n < 65536 → i + n ≤ 256 →
      (fvfTexCoords n i b).elements =
        layoutFrom 0 (fs ++ (List.range n).map
          (fun j => ⟨.D3DDECLTYPE_FLOAT2, .D3DDECLUSAGE_TEXCOORD, i + j⟩)) ∧
      (fvfTexCoords n i b).offset = totalSize fs + 8 * n := by
  induction n with
  | zero =>
    intro i b fs he ho _ _
    simp [fvfTexCoords, he, ho]
  | succ n ih =>
    intro i b fs he ho hlt hi
    have hmod : i % 256 = i := Nat.mod_eq_of_lt (by omega)
    obtain ⟨h1, h2⟩ := push_layout b fs ⟨.D3DDECLTYPE_FLOAT2, .D3DDECLUSAGE_TEXCOORD, i⟩ he ho
      (by simp [D3DDECLTYPE.byteSize]; omega)
    simp only [D3DDECLTYPE.byteSize] at h1 h2
    have hts : totalSize (fs ++ [(⟨.D3DDECLTYPE_FLOAT2, .D3DDECLUSAGE_TEXCOORD, i⟩ : VertexField)]) =
        totalSize fs + 8 := by
      simp [totalSize, D3DDECLTYPE.byteSize]
    obtain ⟨g1, g2⟩ := ih (i + 1)
      (b.push .D3DDECLTYPE_FLOAT2 .D3DDECLUSAGE_TEXCOORD i 8) _ h1 h2
      (by rw [hts]; omega) (by omega)
    simp only [fvfTexCoords, hmod]
    refine ⟨?_, ?_⟩
    · rw [g1, List.range_succ_eq_map, List.map_cons, List.map_map, List.append_assoc]
      simp only [List.singleton_append, Nat.add_zero]
      congr 3
      apply List.map_congr_left
      intro j _
      simp only [Function.comp, Nat.succ_eq_add_one]
      congr 1
      omega
    · rw [g2, hts]; omega


theorem holds_push_if (c : Prop) [Decidable c] (b : DeclBuild) (fs : List VertexField)
    (f : VertexField) (B : Nat) (h : b.holds fs) (hb : totalSize fs ≤ B)
    (hB : B + f.type.byteSize < 65536) :
    (if c then b.push f.type f.usage f.usageIndex f.type.byteSize else b).holds
        (fs ++ if c then [f] else []) ∧
    totalSize (fs ++ if c then [f] else []) ≤ B + f.type.byteSize := by
  by_cases hc : c
  · simp only [hc, if_true]
    refine ⟨push_layout b fs f h.1 h.2 (by omega), ?_⟩
    rw [totalSize_append]
    have : totalSize [f] = f.type.byteSize := by simp [totalSize]
    omega
  · simp only [hc, if_false, List.append_nil]
    exact ⟨h, by omega⟩

theorem texCount_le (fvf : Nat) :
    (fvf &&& D3DFVF_TEXCOUNT_MASK) >>> D3DFVF_TEXCOUNT_SHIFT ≤ 15 := by
  have h : fvf &&& D3DFVF_TEXCOUNT_MASK ≤ D3DFVF_TEXCOUNT_MASK := Nat.and_le_right
  simp only [D3DFVF_TEXCOUNT_MASK, D3DFVF_TEXCOUNT_SHIFT, Nat.shiftRight_eq_div_pow] at h ⊢
  omega

theorem FVFToDeclaration_layout (fvf : Nat) :
    FVFToDeclaration fvf =
      layoutFrom 0 (positionFieldOf fvf ++ fieldsAfterPosition fvf) ++ [D3DDECL_END] := by
  have h0 : (⟨[], 0⟩ : DeclBuild).holds [] := ⟨rfl, rfl⟩
  have hp : ∃ b1 : DeclBuild,
      b1 = (if fvf &&& D3DFVF_XYZ ≠ 0 then
          (⟨[], 0⟩ : DeclBuild).push .D3DDECLTYPE_FLOAT3 .D3DDECLUSAGE_POSITION 0 12
        else if fvf &&& D3DFVF_XYZRHW ≠ 0 then
          (⟨[], 0⟩ : DeclBuild).push .D3DDECLTYPE_FLOAT4 .D3DDECLUSAGE_POSITIONT 0 16
        else ⟨[], 0⟩) ∧
      b1.holds (positionFieldOf fvf) ∧ totalSize (positionFieldOf fvf) ≤ 16 := by
    refine ⟨_, rfl, ?_⟩
    unfold positionFieldOf
    by_cases h1 : fvf &&& D3DFVF_XYZ ≠ 0
    · rw [if_pos h1, if_pos h1]
      exact ⟨push_layout _ [] positionXYZ h0.1 h0.2 (by decide), by decide⟩
    · rw [if_neg h1, if_neg h1]
      by_cases h2 : fvf &&& D3DFVF_XYZRHW ≠ 0
      · rw [if_pos h2, if_pos h2]
        exact ⟨push_layout _ [] positionXYZRHW h0.1 h0.2 (by decide), by decide⟩
      · rw [if_neg h2, if_neg h2]
        exact ⟨h0, by decide⟩
  obtain ⟨b1, hb1, hh1, hs1⟩ := hp
  obtain ⟨hh2, hs2⟩ := holds_push_if (fvf &&& D3DFVF_NORMAL ≠ 0) b1 _
    ⟨.D3DDECLTYPE_FLOAT3, .D3DDECLUSAGE_NORMAL, 0⟩ 16 hh1 hs1 (by decide)
  obtain ⟨hh3, hs3⟩ := holds_push_if (fvf &&& D3DFVF_DIFFUSE ≠ 0) _ _
    ⟨.D3DDECLTYPE_D3DCOLOR, .D3DDECLUSAGE_COLOR, 0⟩ _ hh2 hs2 (by decide)
  obtain ⟨hh4, hs4⟩ := holds_push_if (fvf &&& D3DFVF_SPECULAR ≠ 0) _ _
    ⟨.D3DDECLTYPE_D3DCOLOR, .D3DDECLUSAGE_COLOR, 1⟩ _ hh3 hs3 (by decide)
  have htc := texCount_le fvf
  obtain ⟨hh5, _⟩ := fvfTexCoords_layout
    ((fvf &&& D3DFVF_TEXCOUNT_MASK) >>> D3DFVF_TEXCOUNT_SHIFT) 0 _ _ hh4.1 hh4.2
    (by simp only [D3DDECLTYPE.byteSize] at hs4; omega) (by omega)
  unfold FVFToDeclaration
  simp only [← hb1]
  simp only [D3DDECLTYPE.byteSize] at hh5
  rw [hh5]
  simp [fieldsAfterPosition, List.append_assoc]


theorem layoutFrom_stream (fs : List VertexField) :
    ∀ (off k : Nat) (e : D3DVERTEXELEMENT9), (layoutFrom off fs)[k]? = some e →
      e.Stream = 0 := by
  induction fs with
  | nil => intro off k e h; simp [layoutFrom] at h
  | cons f fs ih =>
    intro off k e h
    cases k with
    | zero =>
      simp [layoutFrom] at h
      subst h
      rfl
    | succ k =>
      simp only [layoutFrom, List.getElem?_cons_succ] at h
      exact ih _ k e h

theorem positionFieldOf_cases (fvf : Nat) :
    (positionFieldOf fvf = [] ∨ positionFieldOf fvf = [positionXYZ] ∨
      positionFieldOf fvf = [positionXYZRHW]) ∧
    (positionFieldOf fvf = [] ↔ (fvf &&& D3DFVF_XYZ = 0 ∧ fvf &&& D3DFVF_XYZRHW = 0)) := by
  unfold positionFieldOf
  by_cases h1 : fvf &&& D3DFVF_XYZ = 0 <;> by_cases h2 : fvf &&& D3DFVF_XYZRHW = 0 <;>
    simp [h1, h2]

theorem fieldsAfterPosition_length (fvf : Nat) : (fieldsAfterPosition fvf).length ≤ 18 := by
  have htc := texCount_le fvf
  have l1 : ∀ (c : Prop) [Decidable c] (f : VertexField),
      (if c then [f] else []).length ≤ 1 := by
    intro c _ f
    split <;> simp
  have a1 := l1 (fvf &&& D3DFVF_NORMAL ≠ 0) ⟨.D3DDECLTYPE_FLOAT3, .D3DDECLUSAGE_NORMAL, 0⟩
  have a2 := l1 (fvf &&& D3DFVF_DIFFUSE ≠ 0) ⟨.D3DDECLTYPE_D3DCOLOR, .D3DDECLUSAGE_COLOR, 0⟩
  have a3 := l1 (fvf &&& D3DFVF_SPECULAR ≠ 0) ⟨.D3DDECLTYPE_D3DCOLOR, .D3DDECLUSAGE_COLOR, 1⟩
  unfold fieldsAfterPosition
  simp only [List.length_append, List.length_map, List.length_range]
  omega

theorem instanceTexCoords_eq (n : Nat) :
    ∀ (i : Nat) (b : DeclBuild), instanceTexCoords n i b = fvfTexCoords n i b := by
  induction n with
  | zero => intro i b; rfl
  | succ n ih => intro i b; simp only [instanceTexCoords, fvfTexCoords, ih]

theorem instanceDeclElements_eq (fvf : Nat) :
    instanceDeclElements fvf =
      (FVFToDeclaration fvf).dropLast ++ instanceRowElements ++ [D3DDECL_END] := by
  unfold instanceDeclElements FVFToDeclaration
  simp only [instanceTexCoords_eq, List.dropLast_concat, instanceRowElements,
    List.append_assoc, List.cons_append, List.nil_append]

/-- C21: for every format code `FVFToDeclaration` writes the stream-0 elements of an
optional position (3-float of 12 bytes or 4-float of 16 bytes, present exactly when a
position bit is set), then normal (12), diffuse (4), specular (4) and the texture
pairs 0 to N-1 (8 each), each present exactly when its bit or the count field says so,
laid out back to back; every element's offset is the sum of the sizes of the elements
before it; the last entry is the end sentinel. -/
theorem fvfToDeclaration_order (fvf : Nat) :
    ∃ pos : List VertexField,
      (pos = [] ∨ pos = [positionXYZ] ∨ pos = [positionXYZRHW]) ∧
      (pos = [] ↔ (fvf &&& D3DFVF_XYZ = 0 ∧ fvf &&& D3DFVF_XYZRHW = 0)) ∧
      FVFToDeclaration fvf = layoutFrom 0 (pos ++ fieldsAfterPosition fvf) ++ [D3DDECL_END] ∧
      (∀ k e, k + 1 < (FVFToDeclaration fvf).length → (FVFToDeclaration fvf)[k]? = some e →
        e.Stream = 0 ∧
        e.Offset =
          (((FVFToDeclaration fvf).take k).map (fun x => x.type.byteSize)).sum) ∧
      (FVFToDeclaration fvf).getLast? = some D3DDECL_END := by
  have hl := FVFToDeclaration_layout fvf
  obtain ⟨hc1, hc2⟩ := positionFieldOf_cases fvf
  refine ⟨positionFieldOf fvf, hc1, hc2, hl, ?_, ?_⟩
  · intro k e hk he
    rw [hl] at hk he ⊢
    simp only [List.length_append, List.length_singleton] at hk
    have hk' : k < (layoutFrom 0 (positionFieldOf fvf ++ fieldsAfterPosition fvf)).length := by
      omega
    rw [List.getElem?_append_left hk'] at he
    refine ⟨layoutFrom_stream _ 0 k e he, ?_⟩
    rw [List.take_append_of_le_length (Nat.le_of_lt hk')]
    have := layoutFrom_offset _ 0 k e he
    omega
  · rw [hl]
    simp

/-- Witness for C21: in the declaration of 0x142 (XYZ, DIFFUSE, TEX1) the second
element, the diffuse colour, starts at byte 12, the size of the position before it. -/
theorem fvfToDeclaration_order_witness :
    (FVFToDeclaration 0x142)[1]? =
        some ⟨0, 12, .D3DDECLTYPE_D3DCOLOR, 0, .D3DDECLUSAGE_COLOR, 0⟩ ∧
    (12 : Nat) = (((FVFToDeclaration 0x142).take 1).map (fun x => x.type.byteSize)).sum :=
  ⟨rfl, (fvfToDeclaration_order 0x142).elim fun _ h =>
    (h.2.2.2.1 1 ⟨0, 12, .D3DDECLTYPE_D3DCOLOR, 0, .D3DDECLUSAGE_COLOR, 0⟩
      (by decide) rfl).2⟩

/-- Counterexample to C22 as stated: the code 0x006 has the bit 0x004 set (and the bit
0x002 as well); both builders start its declaration with the 3-float position. -/
theorem xyzrhw_bit_with_xyz_bit :
    (0x006 &&& D3DFVF_XYZRHW ≠ 0) ∧
    FVFToDeclaration 0x006 =
      [⟨0, 0, .D3DDECLTYPE_FLOAT3, 0, .D3DDECLUSAGE_POSITION, 0⟩, D3DDECL_END] ∧
    instanceDeclElements 0x006 =
      [⟨0, 0, .D3DDECLTYPE_FLOAT3, 0, .D3DDECLUSAGE_POSITION, 0⟩,
       ⟨1, 0, .D3DDECLTYPE_FLOAT4, 0, .D3DDECLUSAGE_TEXCOORD, 4⟩,
       ⟨1, 16, .D3DDECLTYPE_FLOAT4, 0, .D3DDECLUSAGE_TEXCOORD, 5⟩,
       ⟨1, 32, .D3DDECLTYPE_FLOAT4, 0, .D3DDECLUSAGE_TEXCOORD, 6⟩,
       D3DDECL_END] := by
  refine ⟨by decide, rfl, rfl⟩

/-- C22, amended. The declaration built by `FVFToDeclaration`, and the one built by the
instancing builder, starts with the 4-float homogeneous position (16 bytes: the next
stream-0 element starts at byte 16) exactly for the codes whose bit 0x004 is set and
whose bit 0x002 is clear; whenever the bit 0x002 is set it starts with the 3-float
position (12 bytes), whatever the bit 0x004. -/
theorem xyzrhw_position (fvf : Nat) :
    (fvf &&& D3DFVF_XYZRHW ≠ 0 → fvf &&& D3DFVF_XYZ = 0 →
      FVFToDeclaration fvf =
        ⟨0, 0, .D3DDECLTYPE_FLOAT4, 0, .D3DDECLUSAGE_POSITIONT, 0⟩ ::
          (layoutFrom 16 (fieldsAfterPosition fvf) ++ [D3DDECL_END]) ∧
      instanceDeclElements fvf =
        ⟨0, 0, .D3DDECLTYPE_FLOAT4, 0, .D3DDECLUSAGE_POSITIONT, 0⟩ ::
          (layoutFrom 16 (fieldsAfterPosition fvf) ++ instanceRowElements ++ [D3DDECL_END])) ∧
    (fvf &&& D3DFVF_XYZ ≠ 0 →
      FVFToDeclaration fvf =
        ⟨0, 0, .D3DDECLTYPE_FLOAT3, 0, .D3DDECLUSAGE_POSITION, 0⟩ ::
          (layoutFrom 12 (fieldsAfterPosition fvf) ++ [D3DDECL_END]) ∧
      instanceDeclElements fvf =
        ⟨0, 0, .D3DDECLTYPE_FLOAT3, 0, .D3DDECLUSAGE_POSITION, 0⟩ ::
          (layoutFrom 12 (fieldsAfterPosition fvf) ++ instanceRowElements ++ [D3DDECL_END])) := by
  have hl := FVFToDeclaration_layout fvf
  have hi := instanceDeclElements_eq fvf
  refine ⟨?_, ?_⟩
  · intro h4 h2
    have hp : positionFieldOf fvf = [positionXYZRHW] := by
      unfold positionFieldOf
      simp [h2, h4]
    rw [hp] at hl
    have hl' : FVFToDeclaration fvf =
        ⟨0, 0, .D3DDECLTYPE_FLOAT4, 0, .D3DDECLUSAGE_POSITIONT, 0⟩ ::
          (layoutFrom 16 (fieldsAfterPosition fvf) ++ [D3DDECL_END]) := hl
    refine ⟨hl', ?_⟩
    rw [hi, hl', ← List.cons_append, List.dropLast_concat]
    simp only [List.cons_append, List.append_assoc]
  · intro h2
    have hp : positionFieldOf fvf = [positionXYZ] := by
      unfold positionFieldOf
      simp [h2]
    rw [hp] at hl
    have hl' : FVFToDeclaration fvf =
        ⟨0, 0, .D3DDECLTYPE_FLOAT3, 0, .D3DDECLUSAGE_POSITION, 0⟩ ::
          (layoutFrom 12 (fieldsAfterPosition fvf) ++ [D3DDECL_END]) := hl
    refine ⟨hl', ?_⟩
    rw [hi, hl', ← List.cons_append, List.dropLast_concat]
    simp only [List.cons_append, List.append_assoc]

/-- Witness for C22: the code 0x144 (XYZRHW, DIFFUSE, TEX1). -/
theorem xyzrhw_position_witness :
    FVFToDeclaration 0x144 =
      ⟨0, 0, .D3DDECLTYPE_FLOAT4, 0, .D3DDECLUSAGE_POSITIONT, 0⟩ ::
        (layoutFrom 16 (fieldsAfterPosition 0x144) ++ [D3DDECL_END]) ∧
    FVFToDeclaration 0x144 =
      [⟨0, 0, .D3DDECLTYPE_FLOAT4, 0, .D3DDECLUSAGE_POSITIONT, 0⟩,
       ⟨0, 16, .D3DDECLTYPE_D3DCOLOR, 0, .D3DDECLUSAGE_COLOR, 0⟩,
       ⟨0, 20, .D3DDECLTYPE_FLOAT2, 0, .D3DDECLUSAGE_TEXCOORD, 0⟩,
       D3DDECL_END] :=
  ⟨((xyzrhw_position 0x144).1 (by decide) (by decide)).1, rfl⟩

/-- C23: for every geometry format code the element list of the instancing builder is
the list `FVFToDeclaration` builds for that code without its sentinel, followed by the
three stream-1 4-float TEXCOORD elements with usage indices 4, 5, 6 at byte offsets
0, 16, 32, followed by the end sentinel. -/
theorem instance_decl_extends_fvf_decl (fvf : Nat) :
    (FVFToDeclaration fvf).getLast? = some D3DDECL_END ∧
    instanceDeclElements fvf =
      (FVFToDeclaration fvf).dropLast ++
        [⟨1, 0, .D3DDECLTYPE_FLOAT4, 0, .D3DDECLUSAGE_TEXCOORD, 4⟩,
         ⟨1, 16, .D3DDECLTYPE_FLOAT4, 0, .D3DDECLUSAGE_TEXCOORD, 5⟩,
         ⟨1, 32, .D3DDECLTYPE_FLOAT4, 0, .D3DDECLUSAGE_TEXCOORD, 6⟩] ++
        [D3DDECL_END] := by
  refine ⟨?_, instanceDeclElements_eq fvf⟩
  rw [FVFToDeclaration_layout]
  simp

theorem FVFToDeclaration_length_le (fvf : Nat) : (FVFToDeclaration fvf).length ≤ 20 := by
  rw [FVFToDeclaration_layout]
  have h1 := fieldsAfterPosition_length fvf
  have h2 : (positionFieldOf fvf).length ≤ 1 := by
    rcases (positionFieldOf_cases fvf).1 with h | h | h <;> rw [h] <;> simp
  simp only [List.length_append, layoutFrom_length, List.length_singleton]
  omega

theorem FVFToDeclaration_length_tex (fvf : Nat) :
    (FVFToDeclaration fvf).length ≤
      5 + (fvf &&& D3DFVF_TEXCOUNT_MASK) >>> D3DFVF_TEXCOUNT_SHIFT := by
  rw [FVFToDeclaration_layout]
  have l1 : ∀ (c : Prop) [Decidable c] (f : VertexField),
      (if c then [f] else []).length ≤ 1 := by
    intro c _ f
    split <;> simp
  have a1 := l1 (fvf &&& D3DFVF_NORMAL ≠ 0) ⟨.D3DDECLTYPE_FLOAT3, .D3DDECLUSAGE_NORMAL, 0⟩
  have a2 := l1 (fvf &&& D3DFVF_DIFFUSE ≠ 0) ⟨.D3DDECLTYPE_D3DCOLOR, .D3DDECLUSAGE_COLOR, 0⟩
  have a3 := l1 (fvf &&& D3DFVF_SPECULAR ≠ 0) ⟨.D3DDECLTYPE_D3DCOLOR, .D3DDECLUSAGE_COLOR, 1⟩
  have h2 : (positionFieldOf fvf).length ≤ 1 := by
    rcases (positionFieldOf_cases fvf).1 with h | h | h <;> rw [h] <;> simp
  unfold fieldsAfterPosition
  simp only [List.length_append, layoutFrom_length, List.length_singleton, List.length_map,
    List.length_range]
  omega

/-- Counterexample to C26 as stated: for the 32-bit code 0xFD2 (XYZ, NORMAL, DIFFUSE,
SPECULAR, texture-count field 15) `FVFToDeclaration` writes 19 elements and the
sentinel, 20 entries, into its array of 17: the write index reaches 17, 18 and 19. -/
theorem fvfToDeclaration_overrun :
    declCapacity = 17 ∧
    (0xFD2 &&& D3DFVF_TEXCOUNT_MASK) >>> D3DFVF_TEXCOUNT_SHIFT = 15 ∧
    (FVFToDeclaration 0xFD2).length = 20 ∧
    (FVFToDeclaration 0xFD2)[17]? =
      some ⟨0, 136, .D3DDECLTYPE_FLOAT2, 0, .D3DDECLUSAGE_TEXCOORD, 13⟩ ∧
    (FVFToDeclaration 0xFD2)[19]? = some D3DDECL_END := by
  refine ⟨rfl, by decide, rfl, rfl, rfl⟩

/-- C26, amended. `FVFToDeclaration` writes at most 4 elements plus one per texture
pair plus the sentinel. For every code whose texture-count field is at most 8, the
largest count of a legal code (`D3DFVF_TEX8`), that is at most 12 elements and the
sentinel, 13 entries; for every code whose count is at most 12 it is at most 16
elements and the sentinel, so every entry written lies within the 17-entry array and
no write index reaches 17. For an arbitrary 32-bit code the bound is 19 elements and
the sentinel, 20 entries. -/
theorem fvfToDeclaration_within_array (fvf : Nat) :
    (FVFToDeclaration fvf).length ≤
      5 + (fvf &&& D3DFVF_TEXCOUNT_MASK) >>> D3DFVF_TEXCOUNT_SHIFT ∧
    ((fvf &&& D3DFVF_TEXCOUNT_MASK) >>> D3DFVF_TEXCOUNT_SHIFT ≤ 8 →
      (FVFToDeclaration fvf).length ≤ 13) ∧
    ((fvf &&& D3DFVF_TEXCOUNT_MASK) >>> D3DFVF_TEXCOUNT_SHIFT ≤ 12 →
      (FVFToDeclaration fvf).length ≤ declCapacity ∧
      ∀ k, k < (FVFToDeclaration fvf).length → k < declCapacity) ∧
    (FVFToDeclaration fvf).length ≤ 20 := by
  have h := FVFToDeclaration_length_tex fvf
  have htc := texCount_le fvf
  refine ⟨h, ?_, ?_, ?_⟩
  · intro h8
    omega
  · intro h12
    have hle : (FVFToDeclaration fvf).length ≤ declCapacity := by
      simp only [declCapacity]
      omega
    exact ⟨hle, fun k hk => Nat.lt_of_lt_of_le hk hle⟩
  · omega

/-- Witness for C26: the code 0x252 (XYZ, NORMAL, DIFFUSE, two texture pairs) has
texture count 2 and is written in 6 entries. -/
theorem fvfToDeclaration_within_array_witness :
    (0x252 &&& D3DFVF_TEXCOUNT_MASK) >>> D3DFVF_TEXCOUNT_SHIFT = 2 ∧
    (FVFToDeclaration 0x252).length = 6 ∧
    (FVFToDeclaration 0x252).length ≤ 13 ∧
    (FVFToDeclaration 0x252).length ≤ declCapacity :=
  ⟨by decide, rfl, (fvfToDeclaration_within_array 0x252).2.1 (by decide),
   ((fvfToDeclaration_within_array 0x252).2.2.1 (by decide)).1⟩

/-- C28: for the three codes `VertexDeclCache` recognises, the element list of
`BuildDeclForFvf` (and, for 0x142, the list of `GetWaterTracksDeclElements`) is the
list `FVFToDeclaration` builds for the code, and the recorded stride (24, 44, 32) is
the sum of the element byte sizes. -/
theorem known_decls_match_builder :
    BuildDeclForFvf (D3DFVF_XYZ ||| D3DFVF_DIFFUSE ||| D3DFVF_TEX1) =
      some (FVFToDeclaration (D3DFVF_XYZ ||| D3DFVF_DIFFUSE ||| D3DFVF_TEX1), 24) ∧
    GetWaterTracksDeclElements =
      FVFToDeclaration (D3DFVF_XYZ ||| D3DFVF_DIFFUSE ||| D3DFVF_TEX1) ∧
    GetWaterTracksStride = 24 ∧
    BuildDeclForFvf (D3DFVF_XYZ ||| D3DFVF_NORMAL ||| D3DFVF_DIFFUSE ||| D3DFVF_TEX2) =
      some (FVFToDeclaration (D3DFVF_XYZ ||| D3DFVF_NORMAL ||| D3DFVF_DIFFUSE ||| D3DFVF_TEX2),
        44) ∧
    BuildDeclForFvf (D3DFVF_XYZ ||| D3DFVF_DIFFUSE ||| D3DFVF_TEX2) =
      some (FVFToDeclaration (D3DFVF_XYZ ||| D3DFVF_DIFFUSE ||| D3DFVF_TEX2), 32) ∧
    ((FVFToDeclaration (D3DFVF_XYZ ||| D3DFVF_DIFFUSE ||| D3DFVF_TEX1)).map
      (fun e => e.type.byteSize)).sum = 24 ∧
    ((FVFToDeclaration (D3DFVF_XYZ ||| D3DFVF_NORMAL ||| D3DFVF_DIFFUSE ||| D3DFVF_TEX2)).map
      (fun e => e.type.byteSize)).sum = 44 ∧
    ((FVFToDeclaration (D3DFVF_XYZ ||| D3DFVF_DIFFUSE ||| D3DFVF_TEX2)).map
      (fun e => e.type.byteSize)).sum = 32 := by
  refine ⟨rfl, rfl, rfl, rfl, rfl, rfl, rfl, rfl⟩

/-! ## Ownership of the instancing layouts -/

theorem Get_Or_Create_Instance_Decl_full (env : InstancingEnv) (geometryFVF newDecl : Nat)
    (m : DX8InstanceManagerClass)
    (hmiss : searchDeclCache m.m_declCache geometryFVF m.m_declCacheCount 0 = none)
    (hlen : (instanceDeclElements geometryFVF).length ≤ 20)
    (hcreate : env.CreateVertexDeclaration (instanceDeclElements geometryFVF) = some newDecl)
    (hfull : MAX_CACHED_DECLS ≤ m.m_declCacheCount) :
    m.Get_Or_Create_Instance_Decl env true geometryFVF =
      (newDecl, m, [.CreateVertexDeclaration (instanceDeclElements geometryFVF)]) := by
  unfold DX8InstanceManagerClass.Get_Or_Create_Instance_Decl
  have h1 : ¬ (instanceDeclElements geometryFVF).length > 20 := by omega
  have h2 : ¬ m.m_declCacheCount < MAX_CACHED_DECLS := by omega
  simp [hmiss, h1, hcreate, h2]

/-- C24 fails in the code: seventeen distinct format codes are requested from a manager
with an empty layout cache, on a device that compiles every layout. All seventeen calls
return a new handle (104 to 120); the cache keeps the first sixteen; the seventeenth
handle, 120, is returned to the caller but held by no cache entry, and
`Release_Resources` releases the instance buffer, the shader and the sixteen cached
handles, never 120. -/
theorem instance_decl_outside_cache :
    (getOrCreateInstanceDecls countingEnv seventeenFormats sampleManager).1 =
      [104, 105, 106, 107, 108, 109, 110, 111, 112, 113, 114, 115, 116, 117, 118, 119, 120] ∧
    (getOrCreateInstanceDecls countingEnv seventeenFormats sampleManager).2.m_declCacheCount =
      16 ∧
    cachedHandles
        (getOrCreateInstanceDecls countingEnv seventeenFormats sampleManager).2.m_declCache 16 =
      [104, 105, 106, 107, 108, 109, 110, 111, 112, 113, 114, 115, 116, 117, 118, 119] ∧
    (getOrCreateInstanceDecls countingEnv seventeenFormats
        sampleManager).2.Release_Resources.2 =
      [31, 32, 104, 105, 106, 107, 108, 109, 110, 111, 112, 113, 114, 115, 116, 117, 118,
        119] := by
  refine ⟨?_, ?_, ?_, ?_⟩ <;> decide

/-! ## Binding another stream -/

/-- Counterexample to C30 as stated: stream 0 holds a dynamic buffer at vertex offset 10
with 4 vertices; `Set_Vertex_Buffer (NULL, 1)` resets the recorded offset and count to
0, and the next apply pass binds stream 0 at byte offset 0 instead of 240. -/
theorem set_vertex_buffer_resets_dynamic_range :
    dynamicStreamWrapper.render_state.vba_offset = 10 ∧
    dynamicStreamWrapper.render_state.vba_count = 4 ∧
    (Set_Vertex_Buffer sampleConfig none 1 dynamicStreamWrapper).render_state.vba_offset = 0 ∧
    (Set_Vertex_Buffer sampleConfig none 1 dynamicStreamWrapper).render_state.vba_count = 0 ∧
    (issued dynamicStreamWrapper
        (Apply_Render_State_Changes sampleConfig dynamicStreamWrapper)).filter
      (DeviceCall.isStream 0) = [.SetStreamSource 0 33 240 24] ∧
    (issued (Set_Vertex_Buffer sampleConfig none 1 dynamicStreamWrapper)
        (Apply_Render_State_Changes sampleConfig
          (Set_Vertex_Buffer sampleConfig none 1 dynamicStreamWrapper))).filter
      (DeviceCall.isStream 0) = [.SetStreamSource 0 33 0 24] := by
  refine ⟨rfl, rfl, rfl, rfl, ?_, ?_⟩ <;> decide

/-- C30, amended. For every record state and every stream index `s` other than 0,
`Set_Vertex_Buffer (vb, s)` leaves stream 0's buffer handle, its type tag and the
recorded dynamic format and Direct3D buffer unchanged, but it resets the dynamic-buffer
offset and vertex count (`vba_offset`, `vba_count`) to 0 and sets the vertex-buffer
bit of the dirty mask. -/
theorem set_vertex_buffer_other_stream (cfg : Config) (vb : Option VertexBufferClass)
    (s : Nat) (w : DX8Wrapper) (hs : s ≠ 0) :
    (Set_Vertex_Buffer cfg vb s w).render_state.vertex_buffers 0 =
      w.render_state.vertex_buffers 0 ∧
    (Set_Vertex_Buffer cfg vb s w).render_state.vertex_buffer_types 0 =
      w.render_state.vertex_buffer_types 0 ∧
    (Set_Vertex_Buffer cfg vb s w).render_state.vba_fvf = w.render_state.vba_fvf ∧
    (Set_Vertex_Buffer cfg vb s w).render_state.vba_d3d_vb = w.render_state.vba_d3d_vb ∧
    (Set_Vertex_Buffer cfg vb s w).render_state.vba_offset = 0 ∧
    (Set_Vertex_Buffer cfg vb s w).render_state.vba_count = 0 ∧
    (Set_Vertex_Buffer cfg vb s w).render_state_changed =
      w.render_state_changed ||| cfg.VERTEX_BUFFER_CHANGED := by
  have h0 : ¬ (0 = s) := fun h => hs h.symm
  simp [Set_Vertex_Buffer, h0]

/-- Witness for C30: stream 1 is set on a state whose stream 0 holds the engine buffer
`bufA`. -/
theorem set_vertex_buffer_other_stream_witness :
    (Set_Vertex_Buffer sampleConfig (some bufA) 1 buffersSetWrapper).render_state.vertex_buffers 0
      = buffersSetWrapper.render_state.vertex_buffers 0 ∧
    (Set_Vertex_Buffer sampleConfig (some bufA) 1
      buffersSetWrapper).render_state.vertex_buffer_types 0 =
        buffersSetWrapper.render_state.vertex_buffer_types 0 ∧
    (Set_Vertex_Buffer sampleConfig (some bufA) 1 buffersSetWrapper).render_state.vba_offset = 0 :=
  ⟨(set_vertex_buffer_other_stream sampleConfig (some bufA) 1 buffersSetWrapper
      (by decide)).1,
   (set_vertex_buffer_other_stream sampleConfig (some bufA) 1 buffersSetWrapper
      (by decide)).2.1,
   (set_vertex_buffer_other_stream sampleConfig (some bufA) 1 buffersSetWrapper
      (by decide)).2.2.2.2.1⟩

/-! ## Invalidation of the cached render states -/

/-- Counterexample to C25 as stated: vertex and index buffer are pending (their bits
are set); after `Invalidate_Cached_Render_States` the dirty mask is 0, so no category
is marked, and the next `Apply_Render_State_Changes` issues no call. -/
theorem invalidate_leaves_mask_clear :
    buffersSetWrapper.render_state_changed =
      sampleConfig.VERTEX_BUFFER_CHANGED ||| sampleConfig.INDEX_BUFFER_CHANGED ∧
    (Invalidate_Cached_Render_States sampleInvalidateEnv sampleShadow
      buffersSetWrapper).2.1.render_state_changed = 0 ∧
    sampleConfig.allCategories ≠ 0 ∧
    issued
      (Invalidate_Cached_Render_States sampleInvalidateEnv sampleShadow buffersSetWrapper).2.1
      (Apply_Render_State_Changes sampleConfig
        (Invalidate_Cached_Render_States sampleInvalidateEnv sampleShadow
          buffersSetWrapper).2.1) = [] := by
  refine ⟨by decide, rfl, by decide, ?_⟩
  decide

theorem invalidateStages_RenderStates (dev : Bool) (n : Nat) :
    ∀ (a : Nat) (s : ShadowState × List InvalidateCall),
      (invalidateStages dev n a s).1.RenderStates = s.1.RenderStates := by
  induction n with
  | zero => intro a s; rfl
  | succ n ih =>
    intro a s
    simp only [invalidateStages]
    rw [ih]

/-- C25, amended. `Invalidate_Cached_Render_States` starts by setting the dirty mask to
0 and nothing in its own body sets a bit afterwards: provided the two helpers it calls
(`ShaderClass::Invalidate`, `Release_Render_State`) leave the mask alone, the mask is 0
on return, no category is marked dirty, and the next apply pass returns at once without
a device call. What it invalidates are the shadow arrays: all 256 render-state shadows
hold the marker 0x12345678, so that the next setter of any render state is not filtered
out. -/
theorem invalidate_clears_mask (cfg : Config) (env : InvalidateEnv) (c : ShadowState)
    (w : DX8Wrapper)
    (h1 : ∀ x, (env.ShaderClass_Invalidate x).render_state_changed = x.render_state_changed)
    (h2 : ∀ x, (env.Release_Render_State x).render_state_changed = x.render_state_changed) :
    (Invalidate_Cached_Render_States env c w).2.1.render_state_changed = 0 ∧
    Apply_Render_State_Changes cfg (Invalidate_Cached_Render_States env c w).2.1 =
      (Invalidate_Cached_Render_States env c w).2.1 ∧
    issued (Invalidate_Cached_Render_States env c w).2.1
      (Apply_Render_State_Changes cfg (Invalidate_Cached_Render_States env c w).2.1) = [] ∧
    (∀ a, a < 256 →
      (Invalidate_Cached_Render_States env c w).1.RenderStates a = invalidMarker) := by
  have hm : (Invalidate_Cached_Render_States env c w).2.1.render_state_changed = 0 := by
    unfold Invalidate_Cached_Render_States
    simp only [h1, h2]
    cases w.D3DDevice <;> simp
  have hfix : Apply_Render_State_Changes cfg (Invalidate_Cached_Render_States env c w).2.1 =
      (Invalidate_Cached_Render_States env c w).2.1 := by
    unfold Apply_Render_State_Changes
    rw [if_pos hm]
  refine ⟨hm, hfix, ?_, ?_⟩
  · rw [hfix]
    exact issued_self _
  · intro a ha
    unfold Invalidate_Cached_Render_States
    simp only [invalidateStages_RenderStates, ha, if_true]

/-- Witness for C25: the sample helpers leave the mask alone. -/
theorem invalidate_clears_mask_witness :
    (Invalidate_Cached_Render_States sampleInvalidateEnv sampleShadow
      dirtyIdentityWrapper).2.1.render_state_changed = 0 :=
  (invalidate_clears_mask sampleConfig sampleInvalidateEnv sampleShadow dirtyIdentityWrapper
    (fun _ => rfl) (fun _ => rfl)).1

/-! ## Index copy of the sorting draw -/


theorem indexCopyLoop_wraps (src : Nat → Nat) (min_vertex_index vertex_count index_count : Nat)
    (hbig : 65536 ≤ index_count)
    (hok : ∀ k, (src k % 65536 + (65536 - min_vertex_index % 65536)) % 65536 < vertex_count)
    (fuel : Nat) :
    ∀ (i k : Nat) (dest : List Nat), i < 65536 →
      indexCopyLoop src min_vertex_index vertex_count index_count fuel i k dest = .running := by
  induction fuel with
  | zero => intro i k dest _; rfl
  | succ fuel ih =>
    intro i k dest hi
    have hlt : i < index_count := by omega
    simp only [indexCopyLoop, hlt, if_true, hok k]
    exact ih _ _ _ (Nat.mod_lt _ (by norm_num))

theorem indexCopyLoop_finishes (src : Nat → Nat)
    (min_vertex_index vertex_count index_count : Nat)
    (hsmall : index_count ≤ 65535)
    (hok : ∀ k, k < index_count →
      (src k % 65536 + (65536 - min_vertex_index % 65536)) % 65536 < vertex_count)
    (n : Nat) :
    ∀ (i fuel : Nat) (dest : List Nat), i + n = index_count → n + 1 ≤ fuel →
      indexCopyLoop src min_vertex_index vertex_count index_count fuel i i dest =
        .finished (dest ++ (List.range n).map (fun j =>
          (src (i + j) % 65536 + (65536 - min_vertex_index % 65536)) % 65536)) := by
  induction n with
  | zero =>
    intro i fuel dest hi hf
    obtain ⟨f, rfl⟩ : ∃ f, fuel = f + 1 := ⟨fuel - 1, by omega⟩
    have hnlt : ¬ i < index_count := by omega
    simp [indexCopyLoop, hnlt]
  | succ n ih =>
    intro i fuel dest hi hf
    obtain ⟨f, rfl⟩ : ∃ f, fuel = f + 1 := ⟨fuel - 1, by omega⟩
    have hlt : i < index_count := by omega
    have hmod : (i + 1) % 65536 = i + 1 := Nat.mod_eq_of_lt (by omega)
    simp only [indexCopyLoop, hlt, if_true, hok i hlt, hmod]
    rw [ih (i + 1) f _ (by omega) (by omega)]
    rw [List.range_succ_eq_map, List.map_cons, List.map_map, List.append_assoc]
    simp only [List.singleton_append, Nat.add_zero]
    congr 3
    apply List.map_congr_left
    intro j _
    simp only [Function.comp, Nat.succ_eq_add_one]
    have : i + 1 + j = i + (j + 1) := by omega
    rw [this]

theorem indexCopyLoop_zero_in_range (k : Nat) :
    ((fun _ => 0 : Nat → Nat) k % 65536 + (65536 - 0 % 65536)) % 65536 < 1 := by
  show (0 % 65536 + (65536 - 0 % 65536)) % 65536 < 1
  decide

/-- C29 fails in the code: a triangle list of 21846 polygons has 65538 indices, and a
strip of 65534 polygons has 65536, more than the 16-bit loop counter can reach: the
counter wraps to 0 before the condition `i < index_count` can fail, and the loop is
still running after any number of steps (the indices read are all 0 and in range, so
no assertion stops it). With 21845 polygons in a list (65535 indices) the loop
finishes after exactly 65535 iterations. -/
theorem index_copy_loop_wraps :
    sortingIndexCount D3DPT_TRIANGLELIST 21846 = 65538 ∧
    (∀ fuel, indexCopyLoop (fun _ => 0) 0 1 65538 fuel 0 0 [] = .running) ∧
    sortingIndexCount D3DPT_TRIANGLESTRIP 65534 = 65536 ∧
    (∀ fuel, indexCopyLoop (fun _ => 0) 0 1 65536 fuel 0 0 [] = .running) ∧
    sortingIndexCount D3DPT_TRIANGLELIST 21845 = 65535 ∧
    (∃ dest, indexCopyLoop (fun _ => 0) 0 1 65535 65536 0 0 [] = .finished dest ∧
      dest.length = 65535) :=
  ⟨by decide,
   fun fuel => indexCopyLoop_wraps _ 0 1 65538 (by decide) indexCopyLoop_zero_in_range
     fuel 0 0 [] (by decide),
   by decide,
   fun fuel => indexCopyLoop_wraps _ 0 1 65536 (by decide) indexCopyLoop_zero_in_range
     fuel 0 0 [] (by decide),
   by decide,
   ⟨_, indexCopyLoop_finishes (fun _ => 0) 0 1 65535 (by decide)
      (fun k _ => indexCopyLoop_zero_in_range k) 65535 0 65536 [] (by decide) (by decide),
    by rw [List.nil_append, List.length_map, List.length_range]⟩⟩

/-! ## The 2D renderer -/

theorem render2D_not_grayscale (env : Render2DEnv) (r : Render2DClass)
    (hidx : r.IndicesCount ≠ 0) (hvis : r.IsHidden = false) (hdev : env.device = true)
    (hgray : r.IsGrayScale = false) (hvb : env.D3D_VB ≠ 0) (hib : env.D3D_IB ≠ 0) :
    (r.Render env).filter Render2DEvent.isKey =
      [.Set_Vertex_Buffer, .Set_Index_Buffer 0 "Render2DClass::Render",
       .Apply_Render_State_Changes,
       .DrawIndexedPrimitive D3DPT_TRIANGLELIST 0 0 r.VerticesCount env.IB_Offset
         (r.IndicesCount / 3)] := by
  unfold Render2DClass.Render render2DSetup render2DShaderStep render2DDirectDraw
  by_cases ht : r.Texture ≠ 0 ∧ r.D3D_Texture ≠ 0 <;>
    simp [hidx, hvis, hdev, hgray, hvb, hib, ht, Render2DEvent.isKey, List.filter_cons]

/-- C27 fails in the code: when `IsGrayScale` is set, `Render` never calls
`Apply_Render_State_Changes`, for any renderer and environment; on the sample renderer
with a present device it binds its buffers and goes straight to the direct draw, while
the same renderer without grayscale applies the pending changes in between. -/
theorem render2d_grayscale_skips_apply :
    (∀ (env : Render2DEnv) (r : Render2DClass),
      Render2DEvent.Apply_Render_State_Changes ∉
        ({ r with IsGrayScale := true } : Render2DClass).Render env) ∧
    (({ sampleRender2D with IsGrayScale := true } : Render2DClass).Render
        sampleRender2DEnv).filter Render2DEvent.isKey =
      [.Set_Vertex_Buffer, .Set_Index_Buffer 0 "Render2DClass::Render",
       .DrawIndexedPrimitive 4 0 0 4 12 2] ∧
    (sampleRender2D.Render sampleRender2DEnv).filter Render2DEvent.isKey =
      [.Set_Vertex_Buffer, .Set_Index_Buffer 0 "Render2DClass::Render",
       .Apply_Render_State_Changes, .DrawIndexedPrimitive 4 0 0 4 12 2] := by
  refine ⟨?_, by decide, by decide⟩
  intro env r
  unfold Render2DClass.Render render2DSetup render2DShaderStep render2DDirectDraw
  by_cases h1 : r.IndicesCount = 0 ∨ r.IsHidden = true
  · simp [h1]
  · by_cases h2 : env.device = false
    · simp [h1, h2]
    · by_cases h3 : env.Support_Dot3 = true <;>
        by_cases h4 : r.Texture ≠ 0 ∧ r.D3D_Texture ≠ 0 <;>
        by_cases h5 : env.D3D_VB ≠ 0 ∧ env.D3D_IB ≠ 0 <;>
        simp [h1, h2, h3, h4, h5]

end DX8
